import Mathlib

/-!
Shallow embedding of the multi-tenant Telegram bot-maker core
(the created-bot webhook handler and the maker bot of `part_000`).

The persistent store (MongoDB collections) is modelled as in-memory lists of
rows; the messaging transport is an oracle record whose send operations
return `Except String Unit` (an `error` models a rejected promise /
`TransportError`).  Handlers are written in a state-and-exception monad `M`
whose state is the database plus a trace of attempted transport effects:
an uncaught error models the JavaScript control flow jumping to the
enclosing `catch`, with all database writes that already happened kept.
-/

/-- A `Bot` row (tenant): `{token, username, creatorId, creatorUsername?, createdAt}`. -/
structure BotRow where
  token : String
  username : String
  creatorId : String
  creatorUsername : Option String
  createdAt : Nat
  deriving Repr, DecidableEq

/-- A `BotUser` row (per-tenant membership), with the created-bot schema fields. -/
structure BotUserRow where
  botToken : String
  userId : String
  hasJoined : Bool
  userStep : String
  adminState : String
  lastInteraction : Nat
  isBlocked : Bool
  username : Option String
  referredBy : String
  isFirstStart : Bool
  deriving Repr, DecidableEq

/-- A `ChannelUrl` row: `{botToken (unique), url}`. -/
structure ChannelUrlRow where
  botToken : String
  url : String
  deriving Repr, DecidableEq

/-- A maker-bot `User` row (platform user). -/
structure UserRow where
  userId : String
  step : String
  adminState : String
  isBlocked : Bool
  username : Option String
  referredBy : String
  isFirstStart : Bool
  deriving Repr, DecidableEq

/-- Inbound message content, by kind, mirroring the Telegram update fields
the code inspects (`text`, `photo`, `document`, `video`, `audio`, `voice`,
`sticker`, anything else). `photo` carries the list of size variants; the
code sends `photo[photo.length - 1].file_id`. Captions default to `""`
(the code uses `message.caption || ''`). -/
inductive MsgContent where
  | text (s : String)
  | photo (fileIds : List String) (caption : String)
  | document (fileId : String) (caption : String)
  | video (fileId : String) (caption : String)
  | audio (fileId : String) (caption : String)
  | voice (fileId : String)
  | sticker (fileId : String)
  | other
  deriving Repr, DecidableEq

/-- The `from` field of an update: identity, optional @username, first name. -/
structure Sender where
  id : String
  username : Option String
  firstName : String
  deriving Repr, DecidableEq

/-- An inbound update that passed the malformed-event check (it has a chat id
and a sender): either a message or a callback query. -/
inductive Update where
  | message (sender : Sender) (chatId : String) (content : MsgContent)
  | callback (sender : Sender) (chatId : String) (cbId : String) (data : String)
  deriving Repr, DecidableEq

def Update.sender : Update → Sender
  | .message s _ _ => s
  | .callback s _ _ _ => s

def Update.chatId : Update → String
  | .message _ c _ => c
  | .callback _ c _ _ => c

/-- Observable effects: attempted transport calls, pacing sleeps,
webhook registration calls, and (for the delete cascade) the database
deletions, so that their order relative to the webhook call is visible. -/
inductive Eff where
  | send (chat : String) (text : String)
  | sendKb (chat : String) (text : String) (kbUrl : String)
  | sendMedia (chat : String) (kind : String) (fileId : String) (caption : String)
  | answerCb (cbId : String) (text : String)
  | sleep (ms : Nat)
  | webhookSet (token : String)
  | webhookDelete (token : String)
  | dbDeleteBot (token : String)
  | dbDeleteBotUsers (token : String)
  | dbDeleteChannelUrl (token : String)
  deriving Repr, DecidableEq

/-- The messaging transport, as an oracle: each send either resolves
(`ok`) or rejects (`error`).  `monthDay` is the host clock's local
calendar mapping (used only to format relative times); it stands in for
JavaScript `Date#getMonth`/`Date#getDate`. -/
structure Transport where
  sendMessage : String → String → Except String Unit
  sendPhoto : String → String → String → Except String Unit
  sendDocument : String → String → String → Except String Unit
  sendVideo : String → String → String → Except String Unit
  sendAudio : String → String → String → Except String Unit
  sendVoice : String → String → Except String Unit
  sendSticker : String → String → Except String Unit
  answerCbQuery : String → String → Except String Unit
  monthDay : Nat → Nat × Nat

/-- A transport on which every call succeeds. -/
def okTransport : Transport where
  sendMessage := fun _ _ => Except.ok ()
  sendPhoto := fun _ _ _ => Except.ok ()
  sendDocument := fun _ _ _ => Except.ok ()
  sendVideo := fun _ _ _ => Except.ok ()
  sendAudio := fun _ _ _ => Except.ok ()
  sendVoice := fun _ _ => Except.ok ()
  sendSticker := fun _ _ => Except.ok ()
  answerCbQuery := fun _ _ => Except.ok ()
  monthDay := fun _ => (1, 1)

/-- State-and-exception monad for handlers: state is the database `σ`
plus the trace of effects attempted so far.  An `error` outcome models an
uncaught promise rejection propagating to the enclosing `catch`; the
state (already-performed writes and attempts) is kept. -/
def M (σ : Type) (α : Type) := σ → List Eff → Except String α × σ × List Eff

def M.pure (a : α) : M σ α := fun s e => (Except.ok a, s, e)

def M.bind (m : M σ α) (f : α → M σ β) : M σ β := fun s e =>
  match m s e with
  | (Except.ok a, s', e') => f a s' e'
  | (Except.error msg, s', e') => (Except.error msg, s', e')

instance : Monad (M σ) where
  pure := M.pure
  bind := M.bind

/-- Read the database. -/
def getDb : M σ σ := fun s e => (Except.ok s, s, e)

/-- Replace the database. -/
def setDb (s : σ) : M σ Unit := fun _ e => (Except.ok (), s, e)

/-- Record an attempted effect. -/
def emit (x : Eff) : M σ Unit := fun s e => (Except.ok (), s, e ++ [x])

/-- Record several attempted effects. -/
def emitAll (xs : List Eff) : M σ Unit := fun s e => (Except.ok (), s, e ++ xs)

/-- Lift a transport outcome: an `error` aborts (the call was `await`ed). -/
def liftE (r : Except String Unit) : M σ Unit := fun s e =>
  match r with
  | Except.ok _ => (Except.ok (), s, e)
  | Except.error msg => (Except.error msg, s, e)

/-- `await bot.telegram.sendMessage(chat, text)`: attempt, abort on rejection. -/
def tgSend (t : Transport) (chat text : String) : M σ Unit :=
  M.bind (emit (Eff.send chat text)) (fun _ => liftE (t.sendMessage chat text))

/-- A send whose promise is not awaited: the attempt happens, a rejection
is not observed by the handler. -/
def tgSendNoAwait (t : Transport) (chat text : String) : M σ Unit :=
  M.bind (emit (Eff.send chat text)) (fun _ =>
    match t.sendMessage chat text with
    | _ => M.pure ())

/-- Awaited send carrying a data-dependent inline keyboard URL. -/
def tgSendKb (t : Transport) (chat text kbUrl : String) : M σ Unit :=
  M.bind (emit (Eff.sendKb chat text kbUrl)) (fun _ => liftE (t.sendMessage chat text))

/-- Run a body; on an uncaught error run the recovery (the handler-level
`try { ... } catch { ctx.reply(...) }` pattern of the maker bot). -/
def catchM (body : M σ Unit) (onErr : M σ Unit) : M σ Unit := fun s e =>
  match body s e with
  | (Except.ok _, s', e') => (Except.ok (), s', e')
  | (Except.error _, s', e') => onErr s' e'

/-!
String primitives are implemented over the character list (`String.data`)
with structural recursion, mirroring the JavaScript operations the source
uses (`trim`, `toLowerCase`, prefix stripping, `split(' ')`, character
tests); all inputs involved are ASCII, where character and byte indexing
coincide.
-/

/-- JavaScript `String#trim`. -/
def jsTrim (s : String) : String :=
  String.mk (((s.data.dropWhile Char.isWhitespace).reverse.dropWhile
    Char.isWhitespace).reverse)

/-- JavaScript case-lowering (ASCII). -/
def jsToLower (s : String) : String := String.mk (s.data.map Char.toLower)

def strStartsWith (s pre : String) : Bool := pre.data.isPrefixOf s.data

def strDropChars (s : String) (n : Nat) : String := String.mk (s.data.drop n)

def dropTrailing (p : Char → Bool) (s : String) : String :=
  String.mk ((s.data.reverse.dropWhile p).reverse)

def strContainsChar (s : String) (c : Char) : Bool := s.data.contains c

def strLen (s : String) : Nat := s.data.length

def splitOnCharAux (c : Char) : List Char → List Char → List (List Char)
  | [], acc => [acc.reverse]
  | x :: xs, acc =>
    if x == c then acc.reverse :: splitOnCharAux c xs []
    else splitOnCharAux c xs (x :: acc)

/-- JavaScript `String#split` with a one-character separator. -/
def splitOnChar (c : Char) (s : String) : List String :=
  (splitOnCharAux c s.data []).map String.mk

/-- `text.split(' ')[1] || 'None'` (JavaScript: `""` is falsy). -/
def secondTokenOr (s : String) (dflt : String) : String :=
  match (splitOnChar ' ' s).drop 1 with
  | [] => dflt
  | r :: _ => if r == "" then dflt else r

/-- `/^\d+$/.test(s)`. -/
def isNumericStr (s : String) : Bool :=
  strLen s > 0 && s.data.all (fun c => c.isDigit)

/-- `getRelativeTime(timestamp)` at current time `now`, with `monthDay`
giving the host-local month/day of the timestamp. -/
def getRelativeTime (monthDay : Nat → Nat × Nat) (now ts : Nat) : String :=
  let diff : Int := (now : Int) - (ts : Int)
  let md := monthDay ts
  let dateStr := toString md.1 ++ "/" ++ toString md.2
  if diff < 60 then dateStr ++ ", " ++ toString diff ++ " seconds ago"
  else if diff < 3600 then dateStr ++ ", " ++ toString (diff / 60) ++ " minutes ago"
  else if diff < 86400 then dateStr ++ ", " ++ toString (diff / 3600) ++ " hours ago"
  else dateStr ++ ", " ++ toString (diff / 86400) ++ " days ago"

/-- Dispatch one message by content kind to one chat, returning the
transport outcome and the attempted effect — the
`if (message.text) ... else if (message.photo) ... else` chain shared by
`broadcastMessage` and the echo branch. -/
def contentSend (t : Transport) (chat : String) : MsgContent → Except String Unit × Eff
  | .text s => (t.sendMessage chat s, Eff.send chat s)
  | .photo ids cap =>
    let fid := (ids.getLast?).getD ""
    (t.sendPhoto chat fid cap, Eff.sendMedia chat "photo" fid cap)
  | .document fid cap => (t.sendDocument chat fid cap, Eff.sendMedia chat "document" fid cap)
  | .video fid cap => (t.sendVideo chat fid cap, Eff.sendMedia chat "video" fid cap)
  | .audio fid cap => (t.sendAudio chat fid cap, Eff.sendMedia chat "audio" fid cap)
  | .voice fid => (t.sendVoice chat fid, Eff.sendMedia chat "voice" fid "")
  | .sticker fid => (t.sendSticker chat fid, Eff.sendMedia chat "sticker" fid "")
  | .other => (t.sendMessage chat "Unsupported message type",
               Eff.send chat "Unsupported message type")

/-- Whether the send of `msg` to `uid` fails on transport `t`. -/
def sendFails (t : Transport) (msg : MsgContent) (uid : String) : Bool :=
  match (contentSend t uid msg).1 with
  | Except.ok _ => false
  | Except.error _ => true

/-- `broadcastMessage(bot, message, targetUsers, adminId)`: iterate the
recipients, skip the admin, send by kind; a per-recipient rejection is
caught and counted as a failure, a success is counted and followed by a
34 ms pacing sleep.  Returns `(successCount, failCount, trace)`.
Recipients are given by their `userId` (the only field the source reads). -/
def broadcastMessage (t : Transport) (msg : MsgContent) (targetIds : List String)
    (adminId : String) : Nat × Nat × List Eff :=
  match targetIds with
  | [] => (0, 0, [])
  | uid :: rest =>
    if uid == adminId then broadcastMessage t msg rest adminId
    else
      let s := contentSend t uid msg
      let r := broadcastMessage t msg rest adminId
      match s.1 with
      | Except.ok _ => (r.1 + 1, r.2.1, s.2 :: Eff.sleep 34 :: r.2.2)
      | Except.error _ => (r.1, r.2.1 + 1, s.2 :: r.2.2)

theorem broadcastMessage_sanity_two :
    (broadcastMessage okTransport (MsgContent.text "hi") ["1", "2"] "9").1 = 2 := by
  decide

theorem broadcastMessage_sanity_skip :
    (broadcastMessage okTransport (MsgContent.text "hi") ["1", "9", "2"] "9").1 = 2 := by
  decide

/-- Abort with an uncaught runtime error (e.g. calling `.trim()` on
`undefined`); control jumps to the enclosing `catch`. -/
def throwM (msg : String) : M σ α := fun s e => (Except.error msg, s, e)

/-- `await bot.telegram.answerCallbackQuery(id, {text})`. -/
def tgAnswerCb (t : Transport) (cbId text : String) : M σ Unit :=
  M.bind (emit (Eff.answerCb cbId text)) (fun _ => liftE (t.answerCbQuery cbId text))

/-- The created-bot database: the `botusers` and `channelurls` collections. -/
structure CreatedDb where
  botUsers : List BotUserRow
  channelUrls : List ChannelUrlRow
  deriving Repr, DecidableEq

/-- `BotUser.findOne({ botToken, userId })`. -/
def findBotUser (db : List BotUserRow) (token uid : String) : Option BotUserRow :=
  db.find? (fun r => r.botToken == token && r.userId == uid)

/-- `botUser.save()` on a loaded document: replace the row with the same
compound key (unique on `(botToken, userId)`). -/
def saveBotUser (db : List BotUserRow) (row : BotUserRow) : List BotUserRow :=
  db.map (fun r => if r.botToken == row.botToken && r.userId == row.userId then row else r)

/-- `BotUser.findOneAndUpdate({ botToken, userId }, { isBlocked })`:
update-if-present, no upsert. -/
def updateBotUserBlocked (db : List BotUserRow) (token uid : String) (b : Bool) :
    List BotUserRow :=
  db.map (fun r =>
    if r.botToken == token && r.userId == uid then { r with isBlocked := b } else r)

/-- `BotUser.countDocuments({ botToken, hasJoined: true })`. -/
def countJoined (db : List BotUserRow) (token : String) : Nat :=
  db.countP (fun r => r.botToken == token && r.hasJoined)

/-- `getChannelUrl(botToken)`: stored URL or the default. -/
def getChannelUrlD (db : List ChannelUrlRow) (token : String) : String :=
  match db.find? (fun c => c.botToken == token) with
  | some c => c.url
  | none => "https://t.me/Kali_Linux_BOTS"

/-- `ChannelUrl.findOneAndUpdate({botToken}, {botToken, url}, {upsert: true})`. -/
def upsertChannelUrl (db : List ChannelUrlRow) (token url : String) : List ChannelUrlRow :=
  if (db.find? (fun c => c.botToken == token)).isSome then
    db.map (fun c => if c.botToken == token then { botToken := token, url := url } else c)
  else db ++ [{ botToken := token, url := url }]

/-- `inputUrl.replace(/^(https?:\/\/)?/i, '')`. -/
def stripSchemePrefix (s : String) : String :=
  if strStartsWith (jsToLower s) "https://" then strDropChars s 8
  else if strStartsWith (jsToLower s) "http://" then strDropChars s 7
  else s

/-- `/^https:\/\/t\.me\/.+$/.test(s)`: a case-sensitive prefix, then at
least one character, none of which is a newline (`.` excludes `\n`, `$`
anchors at end of input). -/
def channelUrlRegexTest (s : String) : Bool :=
  strStartsWith s "https://t.me/" &&
  (let r := strDropChars s 13
   strLen r > 0 && !(strContainsChar r '\n'))

/-- The `awaiting_channel` normalization: trim, strip an optional scheme
(case-insensitive), strip trailing slashes, prepend `t.me/` unless the
input already starts with it (case-insensitive), prepend `https://`. -/
def normalizeChannelInput (text : String) : String :=
  let i1 := jsTrim text
  let i2 := stripSchemePrefix i1
  let i3 := dropTrailing (fun c => c == '/') i2
  let i4 := if strStartsWith (jsToLower i3) "t.me/" then i3 else "t.me/" ++ i3
  "https://" ++ i4

def banNoticeText : String := "🚫 You have been banned by the admin."

def joinPromptText : String :=
  "Please join our channel and click on Joined button to proceed."

def greetingText : String := "Hi, how are you?"

/-- The first-start notification sent to the tenant owner (an unset
username renders as the string `undefined` in a template literal). -/
def newUserNotification (uname : Option String) (fromId referredBy : String)
    (totalUsers : Nat) : String :=
  "➕ New User Notification ➕\n" ++
  "👤 User: " ++ uname.getD "undefined" ++ "\n" ++
  "🆔 User ID: " ++ fromId ++ "\n" ++
  "⭐ Referred By: " ++ referredBy ++ "\n" ++
  "📊 Total Users of Bot: " ++ toString totalUsers

def createdStatsText (botUsername : String) (userCount : Nat) (createdAtRel : String)
    (channelUrl : String) : String :=
  "📊 Statistics for @" ++ botUsername ++ "\n\n" ++
  "👥 Total Users: " ++ toString userCount ++ "\n" ++
  "📅 Bot Created: " ++ createdAtRel ++ "\n" ++
  "🔗 Channel URL: " ++ channelUrl

/-- Save the handler's bot-user document with a new `adminState`
(`botUser.adminState = st; await botUser.save()`). -/
def saveRowState (row : BotUserRow) (st : String) : M CreatedDb Unit := do
  let db ← getDb
  setDb { db with botUsers := saveBotUser db.botUsers { row with adminState := st } }

/-- The created-bot webhook handler body (dispatch for one update), after
the HTTP wrapper has resolved the `Bot` row from the `token` query
parameter and extracted a chat id and sender id.  Mirrors the
load-or-create, first-start notification, `lastInteraction` save, block
gate, message state machine and `joined` callback of the source. -/
def createdHandler (t : Transport) (botInfo : BotRow) (upd : Update) (now : Nat) :
    M CreatedDb Unit := do
  let fromId := upd.sender.id
  let chatId := upd.chatId
  let db0 ← getDb
  let row0 ←
    match findBotUser db0.botUsers botInfo.token fromId with
    | some r => pure r
    | none => do
      let uname : Option String :=
        match upd with
        | .message s _ _ =>
          some (match s.username with
            | some u => "@" ++ u
            | none => s.firstName)
        | .callback _ _ _ _ => none
      let refBy : String :=
        match upd with
        | .message _ _ (MsgContent.text s) => secondTokenOr s "None"
        | _ => "None"
      let r : BotUserRow :=
        { botToken := botInfo.token, userId := fromId, hasJoined := false,
          userStep := "none", adminState := "none", lastInteraction := now,
          isBlocked := false, username := uname, referredBy := refBy,
          isFirstStart := true }
      setDb { db0 with botUsers := db0.botUsers ++ [r] }
      pure r
  let row1 ←
    if row0.isFirstStart then do
      let db ← getDb
      let totalUsers := countJoined db.botUsers botInfo.token
      tgSend t botInfo.creatorId
        (newUserNotification row0.username fromId row0.referredBy totalUsers)
      pure { row0 with isFirstStart := false }
    else pure row0
  let row2 := { row1 with lastInteraction := now }
  let db1 ← getDb
  setDb { db1 with botUsers := saveBotUser db1.botUsers row2 }
  if row2.isBlocked && !(fromId == botInfo.creatorId) then
    tgSendNoAwait t chatId banNoticeText
  else do
    let db2 ← getDb
    let channelUrl := getChannelUrlD db2.channelUrls botInfo.token
    match upd with
    | .message _ _ content => do
      let textOpt : Option String :=
        match content with
        | .text s => some s
        | _ => none
      if textOpt == some "/start" then do
        if row2.hasJoined then tgSend t chatId greetingText
        else tgSendKb t chatId joinPromptText channelUrl
        let db ← getDb
        let bu := saveBotUser db.botUsers { row2 with userStep := "none", adminState := "none" }
        setDb { db with botUsers := bu }
      else if textOpt == some "/panel" && fromId == botInfo.creatorId then do
        tgSend t chatId "🔧 Admin Panel"
        saveRowState row2 "admin_panel"
      else if fromId == botInfo.creatorId && row2.adminState == "admin_panel" then
        if textOpt == some "📊 Statistics" then do
          let db ← getDb
          let userCount := countJoined db.botUsers botInfo.token
          let createdAt := getRelativeTime t.monthDay now botInfo.createdAt
          tgSend t chatId (createdStatsText botInfo.username userCount createdAt channelUrl)
        else if textOpt == some "📍 Broadcast" then do
          let db ← getDb
          let userCount := countJoined db.botUsers botInfo.token
          if userCount == 0 then
            tgSend t chatId "❌ No users have joined this bot yet."
          else do
            tgSend t chatId
              ("📢 Send your message or content to broadcast to " ++
               toString userCount ++ " users:")
            saveRowState row2 "awaiting_broadcast"
        else if textOpt == some "🔗 Set Channel URL" then do
          tgSend t chatId
            ("🔗 Current Channel URL:\n" ++ channelUrl ++
             "\n\nEnter the new channel URL (e.g., https://t.me/your_channel):")
          saveRowState row2 "awaiting_channel"
        else if textOpt == some "🚫 Block" then do
          tgSend t chatId
            "🚫 Enter the user ID of the account you want to block from this bot:"
          saveRowState row2 "awaiting_block"
        else if textOpt == some "🔓 Unlock" then do
          tgSend t chatId
            "🔓 Enter the user ID of the account you want to unblock from this bot:"
          saveRowState row2 "awaiting_unlock"
        else if textOpt == some "↩️ Back" then do
          tgSend t chatId "↩️ Returned to normal mode."
          saveRowState row2 "none"
        else M.pure ()
      else if fromId == botInfo.creatorId && row2.adminState == "awaiting_broadcast" then
        if textOpt == some "Cancel" then do
          tgSend t chatId "↩️ Broadcast cancelled."
          saveRowState row2 "admin_panel"
        else do
          let db ← getDb
          let targets := (db.botUsers.filter (fun u =>
            u.botToken == botInfo.token && u.hasJoined && !u.isBlocked)).map
            (fun u => u.userId)
          let r := broadcastMessage t content targets fromId
          emitAll r.2.2
          tgSend t chatId
            ("📢 Broadcast completed!\n✅ Sent to " ++ toString r.1 ++
             " users\n❌ Failed for " ++ toString r.2.1 ++ " users")
          saveRowState row2 "admin_panel"
      else if fromId == botInfo.creatorId && row2.adminState == "awaiting_channel" then
        if textOpt == some "Cancel" then do
          tgSend t chatId "↩️ Channel URL setting cancelled."
          saveRowState row2 "admin_panel"
        else
          match textOpt with
          | none => throwM "TypeError: text is undefined"
          | some s => do
            let correctedUrl := normalizeChannelInput s
            if !(channelUrlRegexTest correctedUrl) then
              tgSend t chatId
                "❌ Invalid URL. Please provide a valid Telegram channel URL (e.g., https://t.me/your_channel)."
            else do
              let db ← getDb
              let cu := upsertChannelUrl db.channelUrls botInfo.token correctedUrl
              setDb { db with channelUrls := cu }
              tgSend t chatId ("✅ Channel URL has been set to:\n" ++ correctedUrl)
              saveRowState row2 "admin_panel"
      else if fromId == botInfo.creatorId && row2.adminState == "awaiting_block" then
        if textOpt == some "Cancel" then do
          tgSend t chatId "↩️ Block action cancelled."
          saveRowState row2 "admin_panel"
        else
          match textOpt with
          | none => throwM "TypeError: text is undefined"
          | some s => do
            let targetUserId := jsTrim s
            if !(isNumericStr targetUserId) then
              tgSend t chatId
                "❌ Invalid user ID. Please provide a numeric user ID (only numbers)."
            else if targetUserId == fromId then
              tgSend t chatId "❌ You cannot block yourself."
            else do
              let db ← getDb
              match findBotUser db.botUsers botInfo.token targetUserId with
              | none => do
                tgSend t chatId "❌ User not found in this bot."
                saveRowState row2 "admin_panel"
              | some _ => do
                let db' ← getDb
                let bu := updateBotUserBlocked db'.botUsers botInfo.token targetUserId true
                setDb { db' with botUsers := bu }
                tgSend t chatId
                  ("✅ User " ++ targetUserId ++ " has been blocked from this bot.")
                saveRowState row2 "admin_panel"
      else if fromId == botInfo.creatorId && row2.adminState == "awaiting_unlock" then
        if textOpt == some "Cancel" then do
          tgSend t chatId "↩️ Unlock action cancelled."
          saveRowState row2 "admin_panel"
        else
          match textOpt with
          | none => throwM "TypeError: text is undefined"
          | some s => do
            let targetUserId := jsTrim s
            if !(isNumericStr targetUserId) then
              tgSend t chatId
                "❌ Invalid user ID. Please provide a numeric user ID (only numbers)."
            else do
              let db ← getDb
              match findBotUser db.botUsers botInfo.token targetUserId with
              | none => do
                tgSend t chatId "❌ User not found in this bot."
                saveRowState row2 "admin_panel"
              | some _ => do
                let db' ← getDb
                let bu := updateBotUserBlocked db'.botUsers botInfo.token targetUserId false
                setDb { db' with botUsers := bu }
                tgSend t chatId
                  ("✅ User " ++ targetUserId ++ " has been unblocked from this bot.")
                saveRowState row2 "admin_panel"
      else if row2.hasJoined && row2.adminState == "none" &&
              !(textOpt == some "/start") && !(textOpt == some "/panel") then do
        let s := contentSend t chatId content
        emit s.2
        liftE s.1
      else M.pure ()
    | .callback _ _ cbId data =>
      if data == "joined" then do
        let db ← getDb
        let bu := saveBotUser db.botUsers { row2 with hasJoined := true }
        setDb { db with botUsers := bu }
        tgAnswerCb t cbId "Thank you for joining!"
        tgSend t chatId greetingText
      else M.pure ()

/-- Run the created-bot handler on a database, producing the request
outcome (`ok` = HTTP 200, `error` = the outer `catch`, HTTP 500), the
new database and the trace of attempted effects. -/
def runCreated (t : Transport) (botInfo : BotRow) (upd : Update) (now : Nat)
    (db : CreatedDb) : Except String Unit × CreatedDb × List Eff :=
  createdHandler t botInfo upd now db []

/-- The maker-bot database: the `users`, `bots`, `botusers` and
`channelurls` collections (the latter two are shared with the created-bot
process, which writes the full `BotUserRow` shape). -/
structure MakerDb where
  users : List UserRow
  bots : List BotRow
  botUsers : List BotUserRow
  channelUrls : List ChannelUrlRow
  deriving Repr, DecidableEq

/-- `User.findOne({ userId })`. -/
def findUser (db : List UserRow) (uid : String) : Option UserRow :=
  db.find? (fun u => u.userId == uid)

/-- `user.save()` on a loaded document (unique on `userId`). -/
def saveUser (db : List UserRow) (row : UserRow) : List UserRow :=
  db.map (fun u => if u.userId == row.userId then row else u)

/-- `User.findOneAndUpdate({ userId }, fields)`: update-if-present, no upsert. -/
def updateUser (db : List UserRow) (uid : String) (f : UserRow → UserRow) : List UserRow :=
  db.map (fun u => if u.userId == uid then f u else u)

/-- Number of `BotUser` rows of one bot (the `$size` of the `$lookup`ed
`users` array in the aggregation): all memberships, joined or not. -/
def userCountOf (botUsers : List BotUserRow) (token : String) : Nat :=
  botUsers.countP (fun u => u.botToken == token)

/-- Modelled from the spec: the "joined-member count" of one tenant (the
ordering key the specification ascribes to `BroadcastAcrossTenants`), for
comparison with the ordering key the code actually uses (`userCountOf`). -/
def joinedCountOf (botUsers : List BotUserRow) (token : String) : Nat :=
  botUsers.countP (fun u => u.botToken == token && u.hasJoined)

/-- Insert into a list sorted by strictly descending-or-equal key, before
the first element with a smaller key. -/
def insertDescBy (key : α → Nat) (a : α) : List α → List α
  | [] => [a]
  | b :: l => if key a ≥ key b then a :: b :: l else b :: insertDescBy key a l

/-- Stable sort by descending key (`$sort: { userCount: -1 }`). -/
def sortDescBy (key : α → Nat) (l : List α) : List α :=
  l.foldr (insertDescBy key) []

/-- `deleteWebhook(token)`: the HTTP call is attempted; errors are caught
inside and surface only as a `false` result, which every caller ignores. -/
def deleteWebhook (webhookDeleteOk : String → Bool) (token : String) : Bool × Eff :=
  (webhookDeleteOk token, Eff.webhookDelete token)

/-- The tenant-deletion cascade shared by the owner's "Remove Bot" flow
and the creator's delete-bot flow: deregister the webhook (result
ignored), then `Bot.deleteOne({token})`, `BotUser.deleteMany({botToken})`,
`ChannelUrl.deleteOne({botToken})`, in that order. -/
def deleteTenantCascade (webhookDeleteOk : String → Bool) (token : String) (db : MakerDb) :
    MakerDb × List Eff :=
  let w := deleteWebhook webhookDeleteOk token
  ({ users := db.users,
     bots := db.bots.eraseP (fun b => b.token == token),
     botUsers := db.botUsers.filter (fun u => !(u.botToken == token)),
     channelUrls := db.channelUrls.eraseP (fun c => c.botToken == token) },
   [w.2, Eff.dbDeleteBot token, Eff.dbDeleteBotUsers token, Eff.dbDeleteChannelUrl token])

/-- `broadcastSubMessage`: per-tenant fan-out over an already-sorted bot
list — for each bot, load its joined+unblocked members, skip the bot if
there are none, otherwise broadcast with a client for that bot's token
and sleep 1000 ms before the next tenant. -/
def broadcastSubGo (mkT : String → Transport) (msg : MsgContent) (adminId : String)
    (botUsers : List BotUserRow) : List BotRow → Nat × Nat × List Eff
  | [] => (0, 0, [])
  | b :: rest =>
    let targets := botUsers.filter (fun u =>
      u.botToken == b.token && u.hasJoined && !u.isBlocked)
    if targets.isEmpty then broadcastSubGo mkT msg adminId botUsers rest
    else
      let r := broadcastMessage (mkT b.token) msg (targets.map (fun u => u.userId)) adminId
      let rr := broadcastSubGo mkT msg adminId botUsers rest
      (r.1 + rr.1, r.2.1 + rr.2.1, r.2.2 ++ Eff.sleep 1000 :: rr.2.2)

/-- `broadcastSubMessage(message, adminId)`: aggregate all bots with their
membership counts, sort by descending `userCount`, then fan out per bot. -/
def broadcastSubMessage (mkT : String → Transport) (msg : MsgContent) (adminId : String)
    (bots : List BotRow) (botUsers : List BotUserRow) : Nat × Nat × List Eff :=
  broadcastSubGo mkT msg adminId botUsers
    (sortDescBy (fun b => userCountOf botUsers b.token) bots)

def notAuthorizedText : String := "❌ You are not authorized to use this command."

def errText : String := "❌ An error occurred. Please try again."

def makerWelcomeText : String :=
  "Welcome to Bot Maker! Use the buttons below to create and manage your Telegram bots."

def makerNewUserNotification (username fromId referredBy : String) (totalUsers : Nat) :
    String :=
  "➕ New User Notification ➕\n" ++
  "👤 User: " ++ username ++ "\n" ++
  "🆔 User ID: " ++ fromId ++ "\n" ++
  "⭐ Referred By: " ++ referredBy ++ "\n" ++
  "📊 Total Users of Bot Maker: " ++ toString totalUsers

/-- `@${bot.creatorUsername || 'Unknown'}` (an empty string is falsy). -/
def creatorUnameOrUnknown : Option String → String
  | some u => if u == "" then "Unknown" else u
  | none => "Unknown"

def makerTopBotLine (monthDay : Nat → Nat × Nat) (now : Nat)
    (botUsers : List BotUserRow) (idx : Nat) (b : BotRow) : String :=
  "🔹 #" ++ toString (idx + 1) ++ "\n" ++
  "Bot: @" ++ b.username ++ "\n" ++
  "Creator: @" ++ creatorUnameOrUnknown b.creatorUsername ++ "\n" ++
  "Token: " ++ b.token ++ "\n" ++
  "Users: " ++ toString (userCountOf botUsers b.token) ++ "\n" ++
  "Created: " ++ getRelativeTime monthDay now b.createdAt ++ "\n\n"

def makerStatsText (monthDay : Nat → Nat × Nat) (now : Nat) (users : List UserRow)
    (bots : List BotRow) (botUsers : List BotUserRow) : String :=
  let totalUsers := users.countP (fun u => !u.isBlocked)
  let top := (sortDescBy (fun b => userCountOf botUsers b.token) bots).take 20
  let base := "📊 Bot Maker Statistics\n\n" ++
    "👥 Total Users: " ++ toString totalUsers ++ "\n" ++
    "🤖 Total Bots Created: " ++ toString bots.length ++ "\n\n" ++
    "🏆 Top 20 Bots by User Count:\n\n"
  if top.isEmpty then base ++ "No bots created yet."
  else base ++ String.join (top.enum.map (fun p => makerTopBotLine monthDay now botUsers p.1 p.2))

def myBotsText (monthDay : Nat → Nat × Nat) (now : Nat) (bots : List BotRow)
    (uid : String) : String :=
  let userBots := bots.filter (fun b => b.creatorId == uid)
  let base := "📋 Your Bots:\n\n"
  if userBots.isEmpty then base ++ "You have not created any bots yet."
  else base ++ String.join (userBots.map (fun b =>
    "🤖 @" ++ b.username ++ "\nCreated: " ++ getRelativeTime monthDay now b.createdAt ++ "\n\n"))

def newBotNotification (creatorUname uid botUname createdAtRel : String)
    (totalBots : Nat) : String :=
  "🤖 New Bot Created Notification 🤖\n" ++
  "👤 Creator: " ++ creatorUname ++ "\n" ++
  "🆔 Creator ID: " ++ uid ++ "\n" ++
  "🤖 Bot: @" ++ botUname ++ "\n" ++
  "📅 Created: " ++ createdAtRel ++ "\n" ++
  "📊 Total Bots Created: " ++ toString totalBots

/-- Which registered middleware handles a text message, in registration
order: `bot.start`, three `bot.hears`, `bot.command('panel')`, then
`bot.on('text')`.  `bot.command('clear')` is registered after
`bot.on('text')`, so every text message (including `/clear`) is consumed
before it; non-text updates have no handler. -/
inductive MakerHandler where
  | startH | hearsCreate | hearsDelete | hearsMyBots | panelH | textH
  deriving Repr, DecidableEq

def firstWord (s : String) : String := ((splitOnChar ' ' s).headD "")

def routeMakerText (s : String) : MakerHandler :=
  if firstWord s == "/start" then .startH
  else if s == "🛠 Create Bot" then .hearsCreate
  else if s == "🗑️ Delete Bot" then .hearsDelete
  else if s == "📋 My Bots" then .hearsMyBots
  else if firstWord s == "/panel" then .panelH
  else .textH

/-- Update the sender's `User` row in place. -/
def setUserFields (uid : String) (f : UserRow → UserRow) : M MakerDb Unit := do
  let db ← getDb
  setDb { db with users := updateUser db.users uid f }

/-- The maker `/start` handler. -/
def makerStartH (t : Transport) (ownerId : String) (s : Sender) (chatId text : String) :
    M MakerDb Unit :=
  catchM
    (do
      let uid := s.id
      let db0 ← getDb
      let user0 := findUser db0.users uid
      if ((user0.map (fun u => u.isBlocked)).getD false) then
        emit (Eff.send chatId banNoticeText)
      else do
        let username := match s.username with
          | some u => "@" ++ u
          | none => s.firstName
        let refBy := secondTokenOr text "None"
        let user1 ←
          match user0 with
          | some u => pure u
          | none => do
            let u : UserRow :=
              { userId := uid, step := "none", adminState := "none", isBlocked := false,
                username := some username, referredBy := refBy, isFirstStart := true }
            let db ← getDb
            setDb { db with users := db.users ++ [u] }
            pure u
        if user1.isFirstStart then do
          let db ← getDb
          let totalUsers := db.users.countP (fun u => !u.isBlocked)
          tgSend t ownerId (makerNewUserNotification username uid refBy totalUsers)
          let db' ← getDb
          setDb { db' with users := saveUser db'.users { user1 with isFirstStart := false } }
        else M.pure ()
        emit (Eff.send chatId makerWelcomeText))
    (emit (Eff.send chatId errText))

/-- One of the three `bot.hears` handlers: block-gate, a prompt, and a
`step` update (a no-op when the sender has no `User` row). -/
def makerHearsH (s : Sender) (chatId prompt newStep : String) : M MakerDb Unit :=
  catchM
    (do
      let db ← getDb
      if (((findUser db.users s.id).map (fun u => u.isBlocked)).getD false) then
        emit (Eff.send chatId banNoticeText)
      else do
        emit (Eff.send chatId prompt)
        setUserFields s.id (fun u => { u with step := newStep }))
    (emit (Eff.send chatId errText))

/-- The `📋 My Bots` handler. -/
def makerMyBotsH (t : Transport) (s : Sender) (chatId : String) (now : Nat) :
    M MakerDb Unit :=
  catchM
    (do
      let db ← getDb
      if (((findUser db.users s.id).map (fun u => u.isBlocked)).getD false) then
        emit (Eff.send chatId banNoticeText)
      else do
        let db' ← getDb
        emit (Eff.send chatId (myBotsText t.monthDay now db'.bots s.id)))
    (emit (Eff.send chatId errText))

/-- The `/panel` command handler (owner check, no block gate). -/
def makerPanelH (s : Sender) (ownerId chatId : String) : M MakerDb Unit :=
  if !(s.id == ownerId) then
    emit (Eff.send chatId notAuthorizedText)
  else
    catchM
      (do
        setUserFields s.id (fun u => { u with step := "none", adminState := "admin_panel" })
        emit (Eff.send chatId "🔧 Owner Admin Panel"))
      (emit (Eff.send chatId errText))

/-- The maker `bot.on('text')` handler: block gate, the six owner
admin-state branches, the create-bot and delete-bot steps, and the `Back`
fallback.  `validate` is the `getMe` credential check (`some username` on
success), `webhookSetOk` the `setWebhook` outcome, `mkT` the per-token
transport client constructor. -/
def makerTextH (t : Transport) (mkT : String → Transport) (validate : String → Option String)
    (webhookSetOk : String → Bool) (webhookDeleteOk : String → Bool) (ownerId : String)
    (s : Sender) (chatId text : String) (now : Nat) : M MakerDb Unit :=
  catchM
    (do
      let uid := s.id
      let db0 ← getDb
      match findUser db0.users uid with
      | none => emit (Eff.send chatId "Please start the bot with /start.")
      | some user =>
        if user.isBlocked then
          emit (Eff.send chatId banNoticeText)
        else if uid == ownerId && user.adminState == "admin_panel" then
          if text == "📊 Statistics" then do
            let db ← getDb
            emit (Eff.send chatId (makerStatsText t.monthDay now db.users db.bots db.botUsers))
          else if text == "📢 Broadcast User" then do
            let db ← getDb
            let userCount := db.users.countP (fun u => !u.isBlocked)
            if userCount == 0 then
              emit (Eff.send chatId "❌ No users have joined Bot Maker yet.")
            else do
              emit (Eff.send chatId
                ("📢 Send your message or content to broadcast to " ++
                 toString userCount ++ " Bot Maker users:"))
              setUserFields uid (fun u => { u with adminState := "awaiting_broadcast_user" })
          else if text == "📣 Broadcast Sub" then do
            let db ← getDb
            let userCount := (((db.botUsers.filter (fun u =>
              u.hasJoined && !u.isBlocked)).map (fun u => u.userId)).dedup).length
            if userCount == 0 then
              emit (Eff.send chatId "❌ No users have joined any created bots yet.")
            else do
              emit (Eff.send chatId
                ("📣 Send your message or content to broadcast to " ++
                 toString userCount ++ " users of created bots:"))
              setUserFields uid (fun u => { u with adminState := "awaiting_broadcast_sub" })
          else if text == "🚫 Block" then do
            emit (Eff.send chatId
              "🚫 Enter the user ID of the account you want to block from Bot Maker:")
            setUserFields uid (fun u => { u with adminState := "awaiting_block" })
          else if text == "🔓 Unlock" then do
            emit (Eff.send chatId
              "🔓 Enter the user ID of the account you want to unblock from Bot Maker:")
            setUserFields uid (fun u => { u with adminState := "awaiting_unlock" })
          else if text == "🗑️ Remove Bot" then do
            emit (Eff.send chatId
              "🗑️ Enter the bot token of the bot you want to remove from Bot Maker:")
            setUserFields uid (fun u => { u with adminState := "awaiting_remove_bot" })
          else if text == "↩️ Back" then do
            emit (Eff.send chatId "↩️ Back to main menu.")
            setUserFields uid (fun u => { u with step := "none", adminState := "none" })
          else M.pure ()
        else if uid == ownerId && user.adminState == "awaiting_broadcast_user" then
          if text == "Cancel" then do
            emit (Eff.send chatId "↩️ Broadcast cancelled.")
            setUserFields uid (fun u => { u with adminState := "admin_panel" })
          else do
            let db ← getDb
            let targets := (db.users.filter (fun u => !u.isBlocked)).map (fun u => u.userId)
            let r := broadcastMessage t (MsgContent.text text) targets uid
            emitAll r.2.2
            emit (Eff.send chatId
              ("📢 Broadcast to Bot Maker Users completed!\n✅ Sent to " ++
               toString r.1 ++ " users\n❌ Failed for " ++ toString r.2.1 ++ " users"))
            setUserFields uid (fun u => { u with adminState := "admin_panel" })
        else if uid == ownerId && user.adminState == "awaiting_broadcast_sub" then
          if text == "Cancel" then do
            emit (Eff.send chatId "↩️ Broadcast cancelled.")
            setUserFields uid (fun u => { u with adminState := "admin_panel" })
          else do
            let db ← getDb
            let r := broadcastSubMessage mkT (MsgContent.text text) uid db.bots db.botUsers
            emitAll r.2.2
            emit (Eff.send chatId
              ("📣 Broadcast to Created Bot Users completed!\n✅ Sent to " ++
               toString r.1 ++ " users\n❌ Failed for " ++ toString r.2.1 ++ " users"))
            setUserFields uid (fun u => { u with adminState := "admin_panel" })
        else if uid == ownerId && user.adminState == "awaiting_block" then
          if text == "Cancel" then do
            emit (Eff.send chatId "↩️ Block action cancelled.")
            setUserFields uid (fun u => { u with adminState := "admin_panel" })
          else do
            let targetUserId := jsTrim text
            if !(isNumericStr targetUserId) then
              emit (Eff.send chatId
                "❌ Invalid user ID. Please provide a numeric user ID (only numbers).")
            else if targetUserId == ownerId then
              emit (Eff.send chatId "❌ You cannot block yourself.")
            else do
              let db ← getDb
              match findUser db.users targetUserId with
              | none => do
                emit (Eff.send chatId "❌ User not found.")
                setUserFields uid (fun u => { u with adminState := "admin_panel" })
              | some _ => do
                setUserFields targetUserId (fun u => { u with isBlocked := true })
                emit (Eff.send chatId
                  ("✅ User " ++ targetUserId ++ " has been blocked from Bot Maker."))
                setUserFields uid (fun u => { u with adminState := "admin_panel" })
        else if uid == ownerId && user.adminState == "awaiting_unlock" then
          if text == "Cancel" then do
            emit (Eff.send chatId "↩️ Unlock action cancelled.")
            setUserFields uid (fun u => { u with adminState := "admin_panel" })
          else do
            let targetUserId := jsTrim text
            if !(isNumericStr targetUserId) then
              emit (Eff.send chatId
                "❌ Invalid user ID. Please provide a numeric user ID (only numbers).")
            else do
              let db ← getDb
              match findUser db.users targetUserId with
              | none => do
                emit (Eff.send chatId "❌ User not found.")
                setUserFields uid (fun u => { u with adminState := "admin_panel" })
              | some _ => do
                setUserFields targetUserId (fun u => { u with isBlocked := false })
                emit (Eff.send chatId
                  ("✅ User " ++ targetUserId ++ " has been unblocked from Bot Maker."))
                setUserFields uid (fun u => { u with adminState := "admin_panel" })
        else if uid == ownerId && user.adminState == "awaiting_remove_bot" then
          if text == "Cancel" then do
            emit (Eff.send chatId "↩️ Remove bot action cancelled.")
            setUserFields uid (fun u => { u with adminState := "admin_panel" })
          else do
            let botToken := jsTrim text
            let db ← getDb
            match db.bots.find? (fun b => b.token == botToken) with
            | none => do
              emit (Eff.send chatId "❌ Bot token not found.")
              setUserFields uid (fun u => { u with adminState := "admin_panel" })
            | some bot => do
              let db' ← getDb
              let r := deleteTenantCascade webhookDeleteOk botToken db'
              emitAll r.2
              setDb r.1
              emit (Eff.send chatId
                ("✅ Bot @" ++ bot.username ++ " has been removed from Bot Maker."))
              setUserFields uid (fun u => { u with adminState := "admin_panel" })
        else if user.step == "create_bot" then
          if text == "Back" then do
            emit (Eff.send chatId "↩️ Back to main menu.")
            setUserFields uid (fun u => { u with step := "none", adminState := "none" })
          else
            match validate text with
            | none => emit (Eff.send chatId "❌ Invalid bot token. Please try again:")
            | some botUname => do
              let db ← getDb
              if (db.bots.find? (fun b => b.token == text)).isSome then do
                emit (Eff.send chatId "❌ This bot token is already in use.")
                setUserFields uid (fun u => { u with step := "none" })
              else do
                emit (Eff.webhookSet text)
                if !(webhookSetOk text) then do
                  emit (Eff.send chatId "❌ Failed to set up the bot. Please try again.")
                  setUserFields uid (fun u => { u with step := "none" })
                else do
                  let username := match s.username with
                    | some u => "@" ++ u
                    | none => s.firstName
                  let newBot : BotRow :=
                    { token := text, username := botUname, creatorId := uid,
                      creatorUsername := some (match s.username with
                        | some u => u
                        | none => s.firstName),
                      createdAt := now }
                  let db' ← getDb
                  setDb { db' with bots := db'.bots ++ [newBot] }
                  let db'' ← getDb
                  tgSend t ownerId (newBotNotification username uid botUname
                    (getRelativeTime t.monthDay now now) db''.bots.length)
                  emit (Eff.send chatId
                    ("✅ Your bot @" ++ botUname ++ " made successfully! Send /panel to manage it."))
                  setUserFields uid (fun u => { u with step := "none" })
        else if user.step == "delete_bot" then
          if text == "Back" then do
            emit (Eff.send chatId "↩️ Back to main menu.")
            setUserFields uid (fun u => { u with step := "none", adminState := "none" })
          else do
            let db ← getDb
            match db.bots.find? (fun b => b.token == text) with
            | none => do
              emit (Eff.send chatId "❌ Bot token not found.")
              setUserFields uid (fun u => { u with step := "none" })
            | some _ => do
              let db' ← getDb
              let r := deleteTenantCascade webhookDeleteOk text db'
              emitAll r.2
              setDb r.1
              emit (Eff.send chatId "✅ Bot has been deleted and disconnected from Bot Maker.")
              setUserFields uid (fun u => { u with step := "none" })
        else if text == "Back" then do
          emit (Eff.send chatId "↩️ Back to main menu.")
          setUserFields uid (fun u => { u with step := "none", adminState := "none" })
        else M.pure ())
    (emit (Eff.send chatId errText))

/-- Dispatch one update through the maker bot's middleware chain. -/
def makerDispatch (t : Transport) (mkT : String → Transport)
    (validate : String → Option String) (webhookSetOk : String → Bool)
    (webhookDeleteOk : String → Bool) (ownerId : String) (upd : Update) (now : Nat) :
    M MakerDb Unit :=
  match upd with
  | .callback _ _ _ _ => M.pure ()
  | .message s chatId (MsgContent.text txt) =>
    match routeMakerText txt with
    | .startH => makerStartH t ownerId s chatId txt
    | .hearsCreate =>
      makerHearsH s chatId "Send your bot token from @BotFather to make your bot:" "create_bot"
    | .hearsDelete =>
      makerHearsH s chatId "Send your created bot token you want to delete:" "delete_bot"
    | .hearsMyBots => makerMyBotsH t s chatId now
    | .panelH => makerPanelH s ownerId chatId
    | .textH => makerTextH t mkT validate webhookSetOk webhookDeleteOk ownerId s chatId txt now
  | .message _ _ _ => M.pure ()

/-- Run the maker bot on one update. -/
def runMaker (t : Transport) (mkT : String → Transport)
    (validate : String → Option String) (webhookSetOk : String → Bool)
    (webhookDeleteOk : String → Bool) (ownerId : String) (upd : Update) (now : Nat)
    (db : MakerDb) : Except String Unit × MakerDb × List Eff :=
  makerDispatch t mkT validate webhookSetOk webhookDeleteOk ownerId upd now db []

/-- Whether an effect is a transport send targeting chat `chat`. -/
def isSendTo (chat : String) : Eff → Bool
  | .send c _ => c == chat
  | .sendKb c _ _ => c == chat
  | .sendMedia c _ _ _ => c == chat
  | _ => false

theorem contentSend_isSendTo (t : Transport) (uid ch : String) (msg : MsgContent) :
    isSendTo ch (contentSend t uid msg).2 = (uid == ch) := by
  cases msg <;> rfl



theorem isSendTo_sleep (c : String) (n : Nat) : isSendTo c (Eff.sleep n) = false := rfl

theorem countP_cons_true (p : α → Bool) (a : α) (l : List α) (h : p a = true) :
    List.countP p (a :: l) = List.countP p l + 1 := by
  rw [List.countP_cons, h]
  rfl

theorem countP_cons_false (p : α → Bool) (a : α) (l : List α) (h : p a = false) :
    List.countP p (a :: l) = List.countP p l := by
  rw [List.countP_cons, h]
  rfl

/-- C1 counterexample: take the recipient sequence `["7"]` (length `N = 1`)
whose sole entry is the excluded sender `"7"`, any text content, and the
all-success transport outcome, under which exactly `K = 0` send calls fail
(first conjunct).  The claim then demands `successCount = N - K = 1`, but
`broadcastMessage` skips the excluded sender and returns `successCount = 0`
(second conjunct): when the excluded identity occurs in the recipient
sequence, `successCount = N - K` is false. -/
theorem C1_counterexample :
    ((["7"] : List String).countP
      (fun uid => !(uid == "7") && sendFails okTransport (MsgContent.text "hi") uid) = 0) ∧
    (broadcastMessage okTransport (MsgContent.text "hi") ["7"] "7").1 ≠
      (["7"] : List String).length - 0 := by
  exact ⟨by decide, by decide⟩

/-- C1 (amended): for every transport outcome, message content, recipient
sequence of length `N` and excluded identity, with `K` the number of
failing send calls (over the non-excluded entries) and `m` the number of
entries equal to the excluded identity, `broadcastMessage` returns
`failureCount = K` and `successCount = N - m - K` (stated additively as
`successCount + (m + K) = N`, so when the excluded identity is absent,
`successCount = N - K`); it never raises — it is a total function that
absorbs every per-recipient transport error into the failure count and
continues — and the excluded identity is counted in neither tally and is
never even sent to (third conjunct). -/
theorem C1_amended_broadcast_tallies (t : Transport) (msg : MsgContent)
    (targetIds : List String) (adminId : String) :
    (broadcastMessage t msg targetIds adminId).2.1 =
      targetIds.countP (fun uid => !(uid == adminId) && sendFails t msg uid) ∧
    (broadcastMessage t msg targetIds adminId).1 +
      (targetIds.countP (fun uid => uid == adminId) +
       targetIds.countP (fun uid => !(uid == adminId) && sendFails t msg uid)) =
      targetIds.length ∧
    (broadcastMessage t msg targetIds adminId).2.2.countP (isSendTo adminId) = 0 := by
  induction targetIds with
  | nil => simp [broadcastMessage]
  | cons uid rest ih =>
    obtain ⟨ih1, ih2, ih3⟩ := ih
    by_cases h : (uid == adminId) = true
    · have e1 : broadcastMessage t msg (uid :: rest) adminId
          = broadcastMessage t msg rest adminId := by
        simp [broadcastMessage, h]
      have hp1 : (!(uid == adminId) && sendFails t msg uid) = false := by
        rw [h]
        rfl
      rw [e1, countP_cons_true (fun x => x == adminId) uid rest h,
        countP_cons_false (fun x => !(x == adminId) && sendFails t msg x) uid rest hp1,
        List.length_cons]
      exact ⟨ih1, by omega, ih3⟩
    · have hb : (uid == adminId) = false := by simpa using h
      cases hsend : (contentSend t uid msg).1 with
      | ok v =>
        have hf : sendFails t msg uid = false := by simp [sendFails, hsend]
        have hp1 : (!(uid == adminId) && sendFails t msg uid) = false := by
          rw [hf]
          exact Bool.and_false _
        have hsto : isSendTo adminId (contentSend t uid msg).2 = false := by
          rw [contentSend_isSendTo]
          exact hb
        have e1 : broadcastMessage t msg (uid :: rest) adminId
            = ((broadcastMessage t msg rest adminId).1 + 1,
               (broadcastMessage t msg rest adminId).2.1,
               (contentSend t uid msg).2 :: Eff.sleep 34 ::
                 (broadcastMessage t msg rest adminId).2.2) := by
          simp [broadcastMessage, hb, hsend]
        rw [e1]
        dsimp only
        rw [countP_cons_false (fun x => x == adminId) uid rest hb,
          countP_cons_false (fun x => !(x == adminId) && sendFails t msg x) uid rest hp1,
          List.length_cons,
          countP_cons_false (isSendTo adminId) (contentSend t uid msg).2 _ hsto,
          countP_cons_false (isSendTo adminId) (Eff.sleep 34) _ (isSendTo_sleep adminId 34)]
        exact ⟨ih1, by omega, ih3⟩
      | error er =>
        have hf : sendFails t msg uid = true := by simp [sendFails, hsend]
        have hp1 : (!(uid == adminId) && sendFails t msg uid) = true := by
          rw [hf, hb]
          rfl
        have hsto : isSendTo adminId (contentSend t uid msg).2 = false := by
          rw [contentSend_isSendTo]
          exact hb
        have e1 : broadcastMessage t msg (uid :: rest) adminId
            = ((broadcastMessage t msg rest adminId).1,
               (broadcastMessage t msg rest adminId).2.1 + 1,
               (contentSend t uid msg).2 :: (broadcastMessage t msg rest adminId).2.2) := by
          simp [broadcastMessage, hb, hsend]
        rw [e1]
        dsimp only
        rw [countP_cons_false (fun x => x == adminId) uid rest hb,
          countP_cons_true (fun x => !(x == adminId) && sendFails t msg x) uid rest hp1,
          List.length_cons,
          countP_cons_false (isSendTo adminId) (contentSend t uid msg).2 _ hsto]
        exact ⟨by omega, by omega, ih3⟩

/-- A tenant used in the concrete channel-URL scenarios. -/
def chBot : BotRow :=
  { token := "T", username := "mybot", creatorId := "9", creatorUsername := none,
    createdAt := 0 }

/-- The tenant owner's membership, sitting in the `awaiting_channel` step. -/
def chOwnerRow : BotUserRow :=
  { botToken := "T", userId := "9", hasJoined := false, userStep := "none",
    adminState := "awaiting_channel", lastInteraction := 0, isBlocked := false,
    username := some "@own", referredBy := "None", isFirstStart := false }

def chDb : CreatedDb := { botUsers := [chOwnerRow], channelUrls := [] }

/-- Run one text message from the owner through the created-bot dispatch
while the owner is in the `awaiting_channel` step. -/
def chRun (s : String) : Except String Unit × CreatedDb × List Eff :=
  runCreated okTransport chBot
    (Update.message { id := "9", username := some "own", firstName := "Own" } "c9"
      (MsgContent.text s)) 10 chDb

/-- C4 counterexample: in the `awaiting_channel` step the input
`"not a url"` is NOT rejected — the normalization produces
`"https://t.me/not a url"`, which matches `/^https:\/\/t\.me\/.+$/`
(`.` matches spaces), so the ChannelUrl row IS upserted with that value
and the admin state moves to `admin_panel` instead of remaining awaiting
corrected input. -/
theorem C4_counterexample :
    normalizeChannelInput "not a url" = "https://t.me/not a url" ∧
    channelUrlRegexTest (normalizeChannelInput "not a url") = true ∧
    (chRun "not a url").2.1.channelUrls =
      [{ botToken := "T", url := "https://t.me/not a url" }] ∧
    (findBotUser (chRun "not a url").2.1.botUsers "T" "9").map
      (fun r => r.adminState) = some "admin_panel" := by
  exact ⟨by decide, by decide, by decide, by decide⟩

/-- C4 (amended): the channel-URL normalization applied in the
`awaiting_channel` step maps each of `"t.me/foo"`, `"https://t.me/foo/"`,
`"http://t.me/foo"` and `"foo"` to the stored URL `"https://t.me/foo"`,
returning the flow to `admin_panel`; the input `"not a url"` is likewise
accepted and stored as `"https://t.me/not a url"` (the pattern check
rejects only inputs whose normalized handle is empty or contains a
newline or mismatched case, e.g. the empty input, which yields the
validation-error reply, no upsert, and a state still awaiting input). -/
theorem C4_amended_channel_normalization :
    ((chRun "t.me/foo").2.1.channelUrls = [{ botToken := "T", url := "https://t.me/foo" }] ∧
     (findBotUser (chRun "t.me/foo").2.1.botUsers "T" "9").map
       (fun r => r.adminState) = some "admin_panel") ∧
    ((chRun "https://t.me/foo/").2.1.channelUrls =
      [{ botToken := "T", url := "https://t.me/foo" }]) ∧
    ((chRun "http://t.me/foo").2.1.channelUrls =
      [{ botToken := "T", url := "https://t.me/foo" }]) ∧
    ((chRun "foo").2.1.channelUrls = [{ botToken := "T", url := "https://t.me/foo" }]) ∧
    ((chRun "not a url").2.1.channelUrls =
      [{ botToken := "T", url := "https://t.me/not a url" }]) ∧
    ((chRun "").2.1.channelUrls = [] ∧
     (findBotUser (chRun "").2.1.botUsers "T" "9").map
       (fun r => r.adminState) = some "awaiting_channel" ∧
     (chRun "").2.2 = [Eff.send "c9"
       "❌ Invalid URL. Please provide a valid Telegram channel URL (e.g., https://t.me/your_channel)."]) := by
  refine ⟨⟨by decide, by decide⟩, by decide, by decide, by decide, by decide,
    by decide, by decide, by decide⟩

/-- A transport on which sends to the tenant owner's chat reject and all
other calls succeed (e.g. the owner has blocked or never started the bot). -/
def creatorRejectTransport (cid : String) : Transport :=
  { okTransport with
    sendMessage := fun chat _ =>
      if chat == cid then Except.error "forbidden" else Except.ok () }

/-- C3: the code contradicts the specified behavior.  On the first inbound
event from a new (tenant, user) pair, if the transport send of the
first-contact owner notification rejects, the whole dispatch aborts into
the outer `catch` (HTTP 500): the handler sends nothing to the sender's
chat (`/start` was sent but no join-gate/greeting reply is attempted, the
block gate and state machine never run), and the membership row persisted
by `create` still has `isFirstStart = true` because the
`lastInteraction`-updating `save` after the notification never executes.
The spec requires the remainder of dispatch to run despite this failure. -/
theorem C3_notify_failure_aborts_dispatch :
    (runCreated (creatorRejectTransport "9") chBot
      (Update.message { id := "5", username := some "u5", firstName := "Ann" } "c5"
        (MsgContent.text "/start")) 100 { botUsers := [], channelUrls := [] }).1 =
      Except.error "forbidden" ∧
    (runCreated (creatorRejectTransport "9") chBot
      (Update.message { id := "5", username := some "u5", firstName := "Ann" } "c5"
        (MsgContent.text "/start")) 100 { botUsers := [], channelUrls := [] }).2.2.countP
      (isSendTo "c5") = 0 ∧
    (findBotUser (runCreated (creatorRejectTransport "9") chBot
      (Update.message { id := "5", username := some "u5", firstName := "Ann" } "c5"
        (MsgContent.text "/start")) 100 { botUsers := [], channelUrls := [] }).2.1.botUsers
      "T" "5").map (fun r => r.isFirstStart) = some true := by
  exact ⟨by rfl, by decide, by decide⟩

theorem countP_key_le_one (key : α → String) (l : List α)
    (h : (l.map key).Nodup) (tok : String) :
    List.countP (fun a => key a == tok) l ≤ 1 := by
  induction l with
  | nil => simp
  | cons x xs ih =>
    rw [List.map_cons, List.nodup_cons] at h
    by_cases hx : (key x == tok) = true
    · rw [countP_cons_true (fun a => key a == tok) x xs hx]
      have h0 : List.countP (fun a => key a == tok) xs = 0 := by
        rw [List.countP_eq_zero]
        intro a ha hpa
        have hkey : key a = tok := by simpa using hpa
        have hkx : key x = tok := by simpa using hx
        exact h.1 (by rw [hkx, ← hkey]; exact List.mem_map_of_mem key ha)
      omega
    · rw [countP_cons_false (fun a => key a == tok) x xs (by simpa using hx)]
      exact le_trans (ih h.2) (le_refl 1)

theorem mem_eraseP_of_unique (p : α → Bool) (l : List α)
    (h : List.countP p l ≤ 1) (a : α) :
    a ∈ l.eraseP p ↔ (a ∈ l ∧ p a = false) := by
  induction l with
  | nil => simp [List.eraseP]
  | cons x xs ih =>
    by_cases hx : p x = true
    · have he : List.eraseP p (x :: xs) = xs := by
        simp [List.eraseP, hx]
      rw [he]
      have h0 : List.countP p xs = 0 := by
        rw [countP_cons_true p x xs hx] at h
        omega
      constructor
      · intro ha
        refine ⟨List.mem_cons_of_mem x ha, ?_⟩
        have := (List.countP_eq_zero.mp h0) a ha
        simpa using this
      · rintro ⟨ha, hpa⟩
        rcases List.mem_cons.mp ha with rfl | ha'
        · rw [hx] at hpa
          cases hpa
        · exact ha'
    · have hx' : p x = false := by simpa using hx
      have he : List.eraseP p (x :: xs) = x :: List.eraseP p xs := by
        simp [List.eraseP, hx']
      rw [he]
      rw [countP_cons_false p x xs hx'] at h
      constructor
      · intro ha
        rcases List.mem_cons.mp ha with rfl | ha'
        · exact ⟨List.mem_cons_self _ _, hx'⟩
        · have := (ih h).mp ha'
          exact ⟨List.mem_cons_of_mem x this.1, this.2⟩
      · rintro ⟨ha, hpa⟩
        rcases List.mem_cons.mp ha with rfl | ha'
        · exact List.mem_cons_self _ _
        · exact List.mem_cons_of_mem x ((ih h).mpr ⟨ha', hpa⟩)

/-- C5: after the tenant-deletion cascade for credential `C` (shared by
the owner's "Remove Bot" flow and the creator's delete-bot flow), under
the unique-index constraints on `Bot.token` and `ChannelUrl.botToken`:
a row survives in `botusers`, `bots` or `channelurls` exactly when it was
there before and does not carry credential `C` (so zero rows with
credential `C` remain, the tenant row is gone, and every other
credential's rows are untouched); the platform-user collection is
untouched; the effect trace attempts the webhook deregistration first,
before the three deletions; and the resulting database does not depend
on whether the webhook deregistration succeeds. -/
theorem C5_delete_cascade (webhookDeleteOk : String → Bool) (token : String) (db : MakerDb)
    (hB : (db.bots.map (fun b => b.token)).Nodup)
    (hC : (db.channelUrls.map (fun c => c.botToken)).Nodup) :
    (∀ u, u ∈ (deleteTenantCascade webhookDeleteOk token db).1.botUsers ↔
      (u ∈ db.botUsers ∧ ¬(u.botToken = token))) ∧
    (∀ b, b ∈ (deleteTenantCascade webhookDeleteOk token db).1.bots ↔
      (b ∈ db.bots ∧ ¬(b.token = token))) ∧
    (∀ c, c ∈ (deleteTenantCascade webhookDeleteOk token db).1.channelUrls ↔
      (c ∈ db.channelUrls ∧ ¬(c.botToken = token))) ∧
    (deleteTenantCascade webhookDeleteOk token db).1.users = db.users ∧
    (deleteTenantCascade webhookDeleteOk token db).2 =
      [Eff.webhookDelete token, Eff.dbDeleteBot token, Eff.dbDeleteBotUsers token,
       Eff.dbDeleteChannelUrl token] ∧
    (deleteTenantCascade (fun _ => true) token db).1 =
      (deleteTenantCascade (fun _ => false) token db).1 := by
  refine ⟨?_, ?_, ?_, rfl, rfl, rfl⟩
  · intro u
    simp [deleteTenantCascade, List.mem_filter]
  · intro b
    rw [show (deleteTenantCascade webhookDeleteOk token db).1.bots
        = db.bots.eraseP (fun b => b.token == token) from rfl,
      mem_eraseP_of_unique _ _ (countP_key_le_one (fun b => b.token) db.bots hB token) b]
    simp
  · intro c
    rw [show (deleteTenantCascade webhookDeleteOk token db).1.channelUrls
        = db.channelUrls.eraseP (fun c => c.botToken == token) from rfl,
      mem_eraseP_of_unique _ _
        (countP_key_le_one (fun c => c.botToken) db.channelUrls hC token) c]
    simp

def mkMemberJ (tok uid : String) (j : Bool) : BotUserRow :=
  { botToken := tok, userId := uid, hasJoined := j, userStep := "none",
    adminState := "none", lastInteraction := 0, isBlocked := false, username := none,
    referredBy := "None", isFirstStart := false }

def exMDb : MakerDb :=
  { users := [],
    bots := [{ token := "a", username := "A", creatorId := "7", creatorUsername := none,
               createdAt := 0 },
             { token := "b", username := "B", creatorId := "7", creatorUsername := none,
               createdAt := 0 }],
    botUsers := [mkMemberJ "a" "1" true, mkMemberJ "a" "2" true, mkMemberJ "a" "3" true,
                 mkMemberJ "b" "4" true],
    channelUrls := [{ botToken := "a", url := "https://t.me/x" },
                    { botToken := "b", url := "https://t.me/y" }] }

/-- Witness for C5 at the spec's scenario shape: a credential with three
memberships and one channel gate, next to another credential's rows. -/
theorem C5_witness :
    (deleteTenantCascade (fun _ => false) "a" exMDb).1.users = exMDb.users ∧
    (deleteTenantCascade (fun _ => false) "a" exMDb).2 =
      [Eff.webhookDelete "a", Eff.dbDeleteBot "a", Eff.dbDeleteBotUsers "a",
       Eff.dbDeleteChannelUrl "a"] ∧
    mkMemberJ "b" "4" true ∈ (deleteTenantCascade (fun _ => false) "a" exMDb).1.botUsers ∧
    ¬ (mkMemberJ "a" "1" true ∈ (deleteTenantCascade (fun _ => false) "a" exMDb).1.botUsers) := by
  have h := C5_delete_cascade (fun _ => false) "a" exMDb (by decide) (by decide)
  exact ⟨h.2.2.2.1, h.2.2.2.2.1,
    (h.1 (mkMemberJ "b" "4" true)).mpr ⟨by decide, by decide⟩,
    fun hmem => ((h.1 (mkMemberJ "a" "1" true)).mp hmem).2 rfl⟩

theorem mem_insertDescBy (key : α → Nat) (a x : α) (l : List α) :
    x ∈ insertDescBy key a l ↔ x = a ∨ x ∈ l := by
  induction l with
  | nil => simp [insertDescBy]
  | cons b bs ih =>
    by_cases h : key a ≥ key b
    · simp only [insertDescBy, if_pos h, List.mem_cons]
    · simp only [insertDescBy, if_neg h, List.mem_cons, ih]
      tauto

theorem perm_insertDescBy (key : α → Nat) (a : α) (l : List α) :
    (insertDescBy key a l).Perm (a :: l) := by
  induction l with
  | nil => simp [insertDescBy]
  | cons b bs ih =>
    by_cases h : key a ≥ key b
    · simp [insertDescBy, h]
    · simp only [insertDescBy, if_neg h]
      exact List.Perm.trans (List.Perm.cons b ih) (List.Perm.swap a b bs)

theorem pairwise_insertDescBy (key : α → Nat) (a : α) (l : List α)
    (h : l.Pairwise (fun x y => key x ≥ key y)) :
    (insertDescBy key a l).Pairwise (fun x y => key x ≥ key y) := by
  induction l with
  | nil => simp [insertDescBy]
  | cons b bs ih =>
    rw [List.pairwise_cons] at h
    by_cases hk : key a ≥ key b
    · simp only [insertDescBy, if_pos hk]
      rw [List.pairwise_cons]
      refine ⟨?_, List.pairwise_cons.mpr ⟨h.1, h.2⟩⟩
      intro x hx
      rcases List.mem_cons.mp hx with rfl | hx'
      · exact hk
      · exact le_trans (h.1 x hx') hk
    · simp only [insertDescBy, if_neg hk]
      rw [List.pairwise_cons]
      constructor
      · intro x hx
        rcases (mem_insertDescBy key a x bs).mp hx with rfl | hx'
        · exact le_of_not_le hk
        · exact h.1 x hx'
      · exact ih h.2

theorem pairwise_sortDescBy (key : α → Nat) (l : List α) :
    (sortDescBy key l).Pairwise (fun x y => key x ≥ key y) := by
  induction l with
  | nil => simp [sortDescBy]
  | cons a as ih =>
    show (insertDescBy key a (sortDescBy key as)).Pairwise (fun x y => key x ≥ key y)
    exact pairwise_insertDescBy key a _ ih

theorem perm_sortDescBy (key : α → Nat) (l : List α) : (sortDescBy key l).Perm l := by
  induction l with
  | nil => simp [sortDescBy]
  | cons a as ih =>
    show (insertDescBy key a (sortDescBy key as)).Perm (a :: as)
    exact List.Perm.trans (perm_insertDescBy key a (sortDescBy key as)) (List.Perm.cons a ih)

/-- The joined, unblocked member identities of one tenant — the recipient
set `broadcastSubMessage` passes to `broadcastMessage` for that tenant. -/
def eligibleIds (botUsers : List BotUserRow) (token : String) : List String :=
  (botUsers.filter (fun u => u.botToken == token && u.hasJoined && !u.isBlocked)).map
    (fun u => u.userId)

theorem contentSend_ne_sleep (t : Transport) (uid : String) (msg : MsgContent) :
    ((contentSend t uid msg).2 == Eff.sleep 1000) = false := by
  cases msg <;> rfl


theorem broadcastMessage_no_sleep1000 (t : Transport) (msg : MsgContent)
    (ids : List String) (adminId : String) :
    (broadcastMessage t msg ids adminId).2.2.countP (fun e => e == Eff.sleep 1000) = 0 := by
  induction ids with
  | nil => rfl
  | cons uid rest ih =>
    by_cases h : (uid == adminId) = true
    · simpa [broadcastMessage, h] using ih
    · have hb : (uid == adminId) = false := by simpa using h
      cases hsend : (contentSend t uid msg).1 with
      | ok v =>
        have e1 : broadcastMessage t msg (uid :: rest) adminId
            = ((broadcastMessage t msg rest adminId).1 + 1,
               (broadcastMessage t msg rest adminId).2.1,
               (contentSend t uid msg).2 :: Eff.sleep 34 ::
                 (broadcastMessage t msg rest adminId).2.2) := by
          simp [broadcastMessage, hb, hsend]
        rw [e1]
        dsimp only
        rw [countP_cons_false (fun e => e == Eff.sleep 1000) (contentSend t uid msg).2 _
            (contentSend_ne_sleep t uid msg),
          countP_cons_false (fun e => e == Eff.sleep 1000) (Eff.sleep 34) _ (by decide)]
        exact ih
      | error er =>
        have e1 : broadcastMessage t msg (uid :: rest) adminId
            = ((broadcastMessage t msg rest adminId).1,
               (broadcastMessage t msg rest adminId).2.1 + 1,
               (contentSend t uid msg).2 :: (broadcastMessage t msg rest adminId).2.2) := by
          simp [broadcastMessage, hb, hsend]
        rw [e1]
        dsimp only
        rw [countP_cons_false (fun e => e == Eff.sleep 1000) (contentSend t uid msg).2 _
            (contentSend_ne_sleep t uid msg)]
        exact ih

theorem broadcastSubGo_spec (mkT : String → Transport) (msg : MsgContent)
    (adminId : String) (botUsers : List BotUserRow) (l : List BotRow) :
    (broadcastSubGo mkT msg adminId botUsers l).1 =
      (l.map (fun b =>
        (broadcastMessage (mkT b.token) msg (eligibleIds botUsers b.token) adminId).1)).sum ∧
    (broadcastSubGo mkT msg adminId botUsers l).2.1 =
      (l.map (fun b =>
        (broadcastMessage (mkT b.token) msg (eligibleIds botUsers b.token) adminId).2.1)).sum ∧
    (broadcastSubGo mkT msg adminId botUsers l).2.2.countP (fun e => e == Eff.sleep 1000) =
      l.countP (fun b => !(eligibleIds botUsers b.token).isEmpty) := by
  induction l with
  | nil => exact ⟨rfl, rfl, rfl⟩
  | cons b rest ih =>
    obtain ⟨ih1, ih2, ih3⟩ := ih
    by_cases htgt : (botUsers.filter (fun u =>
        u.botToken == b.token && u.hasJoined && !u.isBlocked)).isEmpty = true
    · have hel : eligibleIds botUsers b.token = [] := by
        unfold eligibleIds
        rw [List.isEmpty_iff] at htgt
        rw [htgt]
        rfl
      have e1 : broadcastSubGo mkT msg adminId botUsers (b :: rest)
          = broadcastSubGo mkT msg adminId botUsers rest := by
        simp [broadcastSubGo, htgt]
      have hpred : (fun b => !(eligibleIds botUsers b.token).isEmpty) b = false := by
        show (!(eligibleIds botUsers b.token).isEmpty) = false
        rw [hel]
        rfl
      rw [e1, List.map_cons, List.map_cons, List.sum_cons, List.sum_cons,
        countP_cons_false (fun b => !(eligibleIds botUsers b.token).isEmpty) b rest hpred,
        hel]
      exact ⟨by simpa [broadcastMessage] using ih1, by simpa [broadcastMessage] using ih2, ih3⟩
    · have htgt' : (botUsers.filter (fun u =>
          u.botToken == b.token && u.hasJoined && !u.isBlocked)).isEmpty = false := by
        simpa using htgt
      have hel : (eligibleIds botUsers b.token).isEmpty = false := by
        unfold eligibleIds
        rcases hne : botUsers.filter (fun u =>
          u.botToken == b.token && u.hasJoined && !u.isBlocked) with _ | ⟨x, xs⟩
        · rw [hne] at htgt'
          cases htgt'
        · rw [hne]
          rfl
      have e1 : broadcastSubGo mkT msg adminId botUsers (b :: rest)
          = ((broadcastMessage (mkT b.token) msg (eligibleIds botUsers b.token) adminId).1 +
               (broadcastSubGo mkT msg adminId botUsers rest).1,
             (broadcastMessage (mkT b.token) msg (eligibleIds botUsers b.token) adminId).2.1 +
               (broadcastSubGo mkT msg adminId botUsers rest).2.1,
             (broadcastMessage (mkT b.token) msg (eligibleIds botUsers b.token) adminId).2.2 ++
               Eff.sleep 1000 :: (broadcastSubGo mkT msg adminId botUsers rest).2.2) := by
        simp [broadcastSubGo, htgt', eligibleIds]
      have hpred : (fun b => !(eligibleIds botUsers b.token).isEmpty) b = true := by
        show (!(eligibleIds botUsers b.token).isEmpty) = true
        rw [hel]
        rfl
      rw [e1]
      dsimp only
      refine ⟨?_, ?_, ?_⟩
      · rw [List.map_cons, List.sum_cons, ih1]
      · rw [List.map_cons, List.sum_cons, ih2]
      · rw [List.countP_append,
          broadcastMessage_no_sleep1000 (mkT b.token) msg (eligibleIds botUsers b.token) adminId,
          countP_cons_true (fun e => e == Eff.sleep 1000) (Eff.sleep 1000) _ (by decide),
          countP_cons_true (fun b => !(eligibleIds botUsers b.token).isEmpty) b rest hpred,
          ih3]
        omega

def subBots : List BotRow :=
  [{ token := "a", username := "A", creatorId := "7", creatorUsername := none, createdAt := 0 },
   { token := "b", username := "B", creatorId := "7", creatorUsername := none, createdAt := 0 }]

def subUsers : List BotUserRow :=
  [mkMemberJ "a" "a1" true, mkMemberJ "a" "a2" false, mkMemberJ "a" "a3" false,
   mkMemberJ "b" "b1" true, mkMemberJ "b" "b2" true]

/-- C8 counterexample: with tenant `a` having 3 memberships of which 1 is
joined, and tenant `b` having 2 memberships both joined, the aggregation
key the code sorts by (total membership count) visits `a` before `b`
(the first fan-out send goes to `a`'s member), even though the
joined-member counts are 1 < 2: `broadcastSubMessage` does NOT iterate
tenants in descending joined-member order. -/
theorem C8_counterexample :
    ((sortDescBy (fun b => userCountOf subUsers b.token) subBots).map (fun b => b.token)
      = ["a", "b"]) ∧
    (broadcastSubMessage (fun _ => okTransport) (MsgContent.text "x") "99" subBots
      subUsers).2.2.head? = some (Eff.send "a1" "x") ∧
    joinedCountOf subUsers "a" < joinedCountOf subUsers "b" ∧
    ¬ List.Pairwise (fun x y => joinedCountOf subUsers x ≥ joinedCountOf subUsers y)
      ((sortDescBy (fun b => userCountOf subUsers b.token) subBots).map (fun b => b.token)) := by
  exact ⟨by decide, by decide, by decide, by decide⟩

/-- C8 (amended): `broadcastSubMessage` iterates all tenants ordered by
descending TOTAL membership count (the `$size` of the `$lookup`ed
membership array, joined or not) — the visited list is sorted by that key
and is a permutation of the tenant list; it broadcasts only to each
tenant's joined+unblocked members, accumulating per-tenant
success/failure tallies into the returned totals (the totals are the sums
of the per-tenant `broadcastMessage` tallies over the eligible member
sets, so tenants with zero eligible members contribute nothing); and it
sleeps the 1000 ms inter-tenant pacing interval exactly once per tenant
that has at least one eligible member (skipped tenants get no pause). -/
theorem C8_amended_broadcast_across_tenants (mkT : String → Transport) (msg : MsgContent)
    (adminId : String) (bots : List BotRow) (botUsers : List BotUserRow) :
    (sortDescBy (fun b => userCountOf botUsers b.token) bots).Pairwise
      (fun x y => userCountOf botUsers x.token ≥ userCountOf botUsers y.token) ∧
    (sortDescBy (fun b => userCountOf botUsers b.token) bots).Perm bots ∧
    (broadcastSubMessage mkT msg adminId bots botUsers).1 =
      (bots.map (fun b =>
        (broadcastMessage (mkT b.token) msg (eligibleIds botUsers b.token) adminId).1)).sum ∧
    (broadcastSubMessage mkT msg adminId bots botUsers).2.1 =
      (bots.map (fun b =>
        (broadcastMessage (mkT b.token) msg (eligibleIds botUsers b.token) adminId).2.1)).sum ∧
    (broadcastSubMessage mkT msg adminId bots botUsers).2.2.countP
      (fun e => e == Eff.sleep 1000) =
      bots.countP (fun b => !(eligibleIds botUsers b.token).isEmpty) := by
  have hperm := perm_sortDescBy (fun b => userCountOf botUsers b.token) bots
  have hspec := broadcastSubGo_spec mkT msg adminId botUsers
    (sortDescBy (fun b => userCountOf botUsers b.token) bots)
  have hdef : broadcastSubMessage mkT msg adminId bots botUsers
      = broadcastSubGo mkT msg adminId botUsers
        (sortDescBy (fun b => userCountOf botUsers b.token) bots) := rfl
  refine ⟨pairwise_sortDescBy _ bots, hperm, ?_, ?_, ?_⟩
  · rw [hdef, hspec.1]
    exact (hperm.map _).sum_eq
  · rw [hdef, hspec.2.1]
    exact (hperm.map _).sum_eq
  · rw [hdef, hspec.2.2]
    exact hperm.countP_eq _

theorem run_bind (m : M σ α) (f : α → M σ β) (s : σ) (e : List Eff) :
    (Bind.bind m f : M σ β) s e =
      match m s e with
      | (Except.ok a, s', e') => f a s' e'
      | (Except.error msg, s', e') => (Except.error msg, s', e') := rfl

theorem run_pure (a : α) (s : σ) (e : List Eff) :
    (Pure.pure a : M σ α) s e = (Except.ok a, s, e) := rfl




theorem updateUser_cons_hit (v : UserRow) (vs : List UserRow) (uid : String)
    (f : UserRow → UserRow) (hv : (v.userId == uid) = true) :
    updateUser (v :: vs) uid f = f v :: updateUser vs uid f := by
  unfold updateUser
  rw [List.map_cons, if_pos hv]

theorem updateUser_cons_miss (v : UserRow) (vs : List UserRow) (uid : String)
    (f : UserRow → UserRow) (hv : (v.userId == uid) = false) :
    updateUser (v :: vs) uid f = v :: updateUser vs uid f := by
  unfold updateUser
  rw [List.map_cons]
  congr 1
  rw [hv]
  rfl

theorem findUser_cons_hit (v : UserRow) (vs : List UserRow) (uid : String)
    (hv : (v.userId == uid) = true) : findUser (v :: vs) uid = some v := by
  unfold findUser
  rw [List.find?_cons]
  rw [hv]

theorem findUser_cons_miss (v : UserRow) (vs : List UserRow) (uid : String)
    (hv : (v.userId == uid) = false) : findUser (v :: vs) uid = findUser vs uid := by
  unfold findUser
  rw [List.find?_cons]
  rw [hv]

theorem findUser_updateUser_same (users : List UserRow) (uid : String)
    (f : UserRow → UserRow) (hpres : ∀ v, (f v).userId = v.userId) :
    findUser (updateUser users uid f) uid = (findUser users uid).map f := by
  induction users with
  | nil => rfl
  | cons v vs ih =>
    by_cases hv : (v.userId == uid) = true
    · have hfv : ((f v).userId == uid) = true := by
        rw [hpres v]
        exact hv
      rw [updateUser_cons_hit v vs uid f hv,
        findUser_cons_hit (f v) (updateUser vs uid f) uid hfv,
        findUser_cons_hit v vs uid hv]
      rfl
    · have hv' : (v.userId == uid) = false := by simpa using hv
      rw [updateUser_cons_miss v vs uid f hv',
        findUser_cons_miss v (updateUser vs uid f) uid hv',
        findUser_cons_miss v vs uid hv']
      exact ih

theorem findUser_updateUser_other (users : List UserRow) (uid uid' : String)
    (f : UserRow → UserRow) (hpres : ∀ v, (f v).userId = v.userId)
    (hne : (uid' == uid) = false) :
    findUser (updateUser users uid f) uid' = findUser users uid' := by
  induction users with
  | nil => rfl
  | cons v vs ih =>
    by_cases hv : (v.userId == uid) = true
    · have hvu : v.userId = uid := by simpa using hv
      have hq : (v.userId == uid') = false := by
        rw [hvu]
        have hne' : ¬ (uid' = uid) := by simpa using hne
        simp
        intro hcon
        exact hne' hcon.symm
      have h1 : ((f v).userId == uid') = false := by
        rw [hpres v]
        exact hq
      rw [updateUser_cons_hit v vs uid f hv,
        findUser_cons_miss (f v) (updateUser vs uid f) uid' h1,
        findUser_cons_miss v vs uid' hq]
      exact ih
    · have hv' : (v.userId == uid) = false := by simpa using hv
      rw [updateUser_cons_miss v vs uid f hv']
      by_cases hq : (v.userId == uid') = true
      · rw [findUser_cons_hit v (updateUser vs uid f) uid' hq,
          findUser_cons_hit v vs uid' hq]
      · have hq' : (v.userId == uid') = false := by simpa using hq
        rw [findUser_cons_miss v (updateUser vs uid f) uid' hq',
          findUser_cons_miss v vs uid' hq']
        exact ih

def newTenantRow (txt uname : String) (s : Sender) (now : Nat) : BotRow where
  token := txt
  username := uname
  creatorId := s.id
  creatorUsername := some (match s.username with
    | some un => un
    | none => s.firstName)
  createdAt := now

/-- C6: the create-bot flow validates the candidate credential against the
transport first (`InvalidCredential`: reply, no persistence at all, the
step even stays `create_bot` awaiting a retry); a credential whose `Bot`
row already exists fails as `DuplicateCredential` with no tenant row
created; a webhook-registration failure (`setWebhook` returning false)
fails with no tenant row created (the registration is attempted before
any persistence); and only when validation, uniqueness and webhook
registration all succeed is the `Bot` row appended — so in every failure
case no tenant row is created, and only on success is the tenant
persisted. -/
theorem C6_create_tenant (validate : String → Option String) (wS wD : String → Bool)
    (ownerId : String) (s : Sender) (chat txt : String) (now : Nat) (db : MakerDb)
    (u : UserRow)
    (hRoute : routeMakerText txt = MakerHandler.textH)
    (hFind : findUser db.users s.id = some u)
    (hNB : u.isBlocked = false)
    (hStep : u.step = "create_bot")
    (hAdmin : u.adminState = "none")
    (hBack : (txt == "Back") = false) :
    (validate txt = none →
      runMaker okTransport (fun _ => okTransport) validate wS wD ownerId
        (Update.message s chat (MsgContent.text txt)) now db =
      (Except.ok (), db, [Eff.send chat "❌ Invalid bot token. Please try again:"])) ∧
    (∀ uname, validate txt = some uname →
      (db.bots.find? (fun b => b.token == txt)).isSome = true →
      (runMaker okTransport (fun _ => okTransport) validate wS wD ownerId
        (Update.message s chat (MsgContent.text txt)) now db).2.1.bots = db.bots ∧
      (runMaker okTransport (fun _ => okTransport) validate wS wD ownerId
        (Update.message s chat (MsgContent.text txt)) now db).2.2 =
        [Eff.send chat "❌ This bot token is already in use."]) ∧
    (∀ uname, validate txt = some uname →
      db.bots.find? (fun b => b.token == txt) = none →
      wS txt = false →
      (runMaker okTransport (fun _ => okTransport) validate wS wD ownerId
        (Update.message s chat (MsgContent.text txt)) now db).2.1.bots = db.bots ∧
      (runMaker okTransport (fun _ => okTransport) validate wS wD ownerId
        (Update.message s chat (MsgContent.text txt)) now db).2.2 =
        [Eff.webhookSet txt,
         Eff.send chat "❌ Failed to set up the bot. Please try again."]) ∧
    (∀ uname, validate txt = some uname →
      db.bots.find? (fun b => b.token == txt) = none →
      wS txt = true →
      (runMaker okTransport (fun _ => okTransport) validate wS wD ownerId
        (Update.message s chat (MsgContent.text txt)) now db).2.1.bots =
        db.bots ++ [newTenantRow txt uname s now]) := by
  refine ⟨?_, ?_, ?_, ?_⟩
  · intro hval
    simp only [runMaker, makerDispatch, hRoute, makerTextH, catchM, run_bind, run_pure,
      getDb, setDb, emit, emitAll, tgSend, tgSendNoAwait, liftE, M.pure, M.bind,
      setUserFields, hFind, hNB, hStep, hAdmin, hBack, hval]
    simp [emit]
  · intro uname hval hdup
    have hdup' : ∃ x ∈ db.bots, x.token = txt := by
      simpa using hdup
    simp only [runMaker, makerDispatch, hRoute, makerTextH, catchM, run_bind, run_pure,
      getDb, setDb, emit, emitAll, tgSend, tgSendNoAwait, liftE, M.pure, M.bind,
      setUserFields, hFind, hNB, hStep, hAdmin, hBack, hval, hdup]
    simp [run_bind, run_pure, getDb, setDb, emit, emitAll, M.pure, M.bind, liftE,
      setUserFields, hdup']
  · intro uname hval hdup hw
    have hnodup : ¬ ∃ x ∈ db.bots, x.token = txt := by
      rintro ⟨x, hx, he⟩
      have hcon := List.find?_eq_none.mp hdup x hx
      simp [he] at hcon
    simp only [runMaker, makerDispatch, hRoute, makerTextH, catchM, run_bind, run_pure,
      getDb, setDb, emit, emitAll, tgSend, tgSendNoAwait, liftE, M.pure, M.bind,
      setUserFields, hFind, hNB, hStep, hAdmin, hBack, hval, hdup, hw]
    simp [run_bind, run_pure, getDb, setDb, emit, emitAll, M.pure, M.bind, liftE,
      setUserFields, hnodup, hw]
  · intro uname hval hdup hw
    have hnodup : ¬ ∃ x ∈ db.bots, x.token = txt := by
      rintro ⟨x, hx, he⟩
      have hcon := List.find?_eq_none.mp hdup x hx
      simp [he] at hcon
    simp only [runMaker, makerDispatch, hRoute, makerTextH, catchM, run_bind, run_pure,
      getDb, setDb, emit, emitAll, tgSend, tgSendNoAwait, liftE, M.pure, M.bind,
      setUserFields, hFind, hNB, hStep, hAdmin, hBack, hval, hdup, hw, okTransport]
    simp [run_bind, run_pure, getDb, setDb, emit, emitAll, M.pure, M.bind, liftE,
      setUserFields, hnodup, hw, newTenantRow]

def cuRow : UserRow :=
  { userId := "7", step := "create_bot", adminState := "none", isBlocked := false,
    username := some "@u7", referredBy := "None", isFirstStart := false }

def cuDb : MakerDb := { users := [cuRow], bots := [], botUsers := [], channelUrls := [] }

def cuSender : Sender := { id := "7", username := some "u7", firstName := "Bea" }

/-- Witness for C6: a concrete user in the `create_bot` step; with a
validating transport, no duplicate and a successful webhook registration
the tenant row is appended, and with a rejecting transport nothing is
persisted. -/
theorem C6_witness :
    (runMaker okTransport (fun _ => okTransport)
      (fun tk => if tk == "TOK" then some "newbot" else none) (fun _ => true)
      (fun _ => true) "1" (Update.message cuSender "c7" (MsgContent.text "TOK")) 50
      cuDb).2.1.bots = cuDb.bots ++ [newTenantRow "TOK" "newbot" cuSender 50] ∧
    runMaker okTransport (fun _ => okTransport) (fun _ => none) (fun _ => true)
      (fun _ => true) "1" (Update.message cuSender "c7" (MsgContent.text "TOK")) 50 cuDb =
      (Except.ok (), cuDb, [Eff.send "c7" "❌ Invalid bot token. Please try again:"]) := by
  have h1 := C6_create_tenant (fun tk => if tk == "TOK" then some "newbot" else none)
    (fun _ => true) (fun _ => true) "1" cuSender "c7" "TOK" 50 cuDb cuRow
    (by decide) (by decide) (by decide) (by decide) (by decide) (by decide)
  have h2 := C6_create_tenant (fun _ => none)
    (fun _ => true) (fun _ => true) "1" cuSender "c7" "TOK" 50 cuDb cuRow
    (by decide) (by decide) (by decide) (by decide) (by decide) (by decide)
  exact ⟨h1.2.2.2 "newbot" (by decide) (by decide) (by decide), h2.1 rfl⟩

/-- Number of transport sends in a trace that target chat `c`. -/
def sendsTo (c : String) (effs : List Eff) : Nat := effs.countP (isSendTo c)

/-- Number of membership rows with the given compound key. -/
def countRows (db : List BotUserRow) (tok uid : String) : Nat :=
  db.countP (fun r => r.botToken == tok && r.userId == uid)

theorem countRows_saveBotUser (db : List BotUserRow) (row : BotUserRow)
    (tok uid : String) :
    countRows (saveBotUser db row) tok uid = countRows db tok uid := by
  induction db with
  | nil => rfl
  | cons r rs ih =>
    by_cases hr : (r.botToken == row.botToken && r.userId == row.userId) = true
    · have hbt : r.botToken = row.botToken := by
        have := (Bool.and_eq_true _ _).mp hr
        simpa using this.1
      have hui : r.userId = row.userId := by
        have := (Bool.and_eq_true _ _).mp hr
        simpa using this.2
      have e1 : saveBotUser (r :: rs) row = row :: saveBotUser rs row := by
        unfold saveBotUser
        rw [List.map_cons, if_pos hr]
      rw [e1]
      unfold countRows
      rw [List.countP_cons, List.countP_cons]
      unfold countRows at ih
      have hsame : (row.botToken == tok && row.userId == uid)
          = (r.botToken == tok && r.userId == uid) := by
        rw [hbt, hui]
      rw [hsame, ih]
    · have hr' : (r.botToken == row.botToken && r.userId == row.userId) = false := by
        simpa using hr
      have e1 : saveBotUser (r :: rs) row = r :: saveBotUser rs row := by
        unfold saveBotUser
        rw [List.map_cons]
        congr 1
        rw [hr']
        rfl
      rw [e1]
      unfold countRows
      rw [List.countP_cons, List.countP_cons]
      unfold countRows at ih
      rw [ih]

theorem countRows_updateBotUserBlocked (db : List BotUserRow) (tok0 uid0 : String)
    (b : Bool) (tok uid : String) :
    countRows (updateBotUserBlocked db tok0 uid0 b) tok uid = countRows db tok uid := by
  induction db with
  | nil => rfl
  | cons r rs ih =>
    unfold updateBotUserBlocked at ih ⊢
    rw [List.map_cons]
    unfold countRows at ih ⊢
    rw [List.countP_cons, List.countP_cons, ih]
    by_cases hr : (r.botToken == tok0 && r.userId == uid0) = true
    · rw [if_pos hr]
    · rw [if_neg hr]

theorem created_gate_blocked (botInfo : BotRow) (upd : Update) (now : Nat)
    (db : CreatedDb) (row : BotUserRow)
    (hFind : findBotUser db.botUsers botInfo.token upd.sender.id = some row)
    (hFS : row.isFirstStart = false)
    (hBl : row.isBlocked = true)
    (hNotCr : (upd.sender.id == botInfo.creatorId) = false) :
    runCreated okTransport botInfo upd now db =
      (Except.ok (),
       { db with botUsers := saveBotUser db.botUsers { row with lastInteraction := now } },
       [Eff.send upd.chatId banNoticeText]) := by
  simp only [runCreated, createdHandler, run_bind, run_pure, getDb, setDb, emit, emitAll,
    tgSend, tgSendNoAwait, tgSendKb, tgAnswerCb, liftE, M.pure, M.bind, saveRowState,
    hFind, hFS, hBl, hNotCr, okTransport]
  simp [run_bind, run_pure, getDb, setDb, emit, emitAll, M.pure, M.bind, liftE,
    saveRowState, hBl, hNotCr, hFS]

theorem findBotUser_cons_hit (v : BotUserRow) (vs : List BotUserRow) (tok uid : String)
    (hv : (v.botToken == tok && v.userId == uid) = true) :
    findBotUser (v :: vs) tok uid = some v := by
  unfold findBotUser
  rw [List.find?_cons]
  rw [hv]

theorem findBotUser_cons_miss (v : BotUserRow) (vs : List BotUserRow) (tok uid : String)
    (hv : (v.botToken == tok && v.userId == uid) = false) :
    findBotUser (v :: vs) tok uid = findBotUser vs tok uid := by
  unfold findBotUser
  rw [List.find?_cons]
  rw [hv]

theorem saveBotUser_cons_hit (v : BotUserRow) (vs : List BotUserRow) (row : BotUserRow)
    (hv : (v.botToken == row.botToken && v.userId == row.userId) = true) :
    saveBotUser (v :: vs) row = row :: saveBotUser vs row := by
  unfold saveBotUser
  rw [List.map_cons, if_pos hv]

theorem saveBotUser_cons_miss (v : BotUserRow) (vs : List BotUserRow) (row : BotUserRow)
    (hv : (v.botToken == row.botToken && v.userId == row.userId) = false) :
    saveBotUser (v :: vs) row = v :: saveBotUser vs row := by
  unfold saveBotUser
  rw [List.map_cons]
  congr 1
  rw [hv]
  rfl

theorem findBotUser_saveBotUser_same (db : List BotUserRow) (row : BotUserRow)
    (tok uid : String) (hbt : row.botToken = tok) (hui : row.userId = uid)
    (hfound : (findBotUser db tok uid).isSome = true) :
    findBotUser (saveBotUser db row) tok uid = some row := by
  induction db with
  | nil => cases hfound
  | cons v vs ih =>
    have hrowp : (row.botToken == tok && row.userId == uid) = true := by
      rw [hbt, hui]
      simp
    by_cases hv : (v.botToken == tok && v.userId == uid) = true
    · have hvk : (v.botToken == row.botToken && v.userId == row.userId) = true := by
        rw [hbt, hui]
        exact hv
      rw [saveBotUser_cons_hit v vs row hvk,
        findBotUser_cons_hit row (saveBotUser vs row) tok uid hrowp]
    · have hv' : (v.botToken == tok && v.userId == uid) = false := by simpa using hv
      have hvk : (v.botToken == row.botToken && v.userId == row.userId) = false := by
        rw [hbt, hui]
        exact hv'
      rw [saveBotUser_cons_miss v vs row hvk,
        findBotUser_cons_miss v (saveBotUser vs row) tok uid hv']
      rw [findBotUser_cons_miss v vs tok uid hv'] at hfound
      exact ih hfound


theorem findBotUser_saveBotUser_other (db : List BotUserRow) (row : BotUserRow)
    (tok' uid' : String)
    (hne : (row.botToken == tok' && row.userId == uid') = false) :
    findBotUser (saveBotUser db row) tok' uid' = findBotUser db tok' uid' := by
  induction db with
  | nil => rfl
  | cons v vs ih =>
    by_cases hv : (v.botToken == row.botToken && v.userId == row.userId) = true
    · have hvbt : v.botToken = row.botToken := by
        have h := (Bool.and_eq_true _ _).mp hv
        simpa using h.1
      have hvui : v.userId = row.userId := by
        have h := (Bool.and_eq_true _ _).mp hv
        simpa using h.2
      have hvp : (v.botToken == tok' && v.userId == uid') = false := by
        rw [hvbt, hvui]
        exact hne
      rw [saveBotUser_cons_hit v vs row hv,
        findBotUser_cons_miss row (saveBotUser vs row) tok' uid' hne,
        findBotUser_cons_miss v vs tok' uid' hvp]
      exact ih
    · have hv' : (v.botToken == row.botToken && v.userId == row.userId) = false := by
        simpa using hv
      rw [saveBotUser_cons_miss v vs row hv']
      by_cases hq : (v.botToken == tok' && v.userId == uid') = true
      · rw [findBotUser_cons_hit v (saveBotUser vs row) tok' uid' hq,
          findBotUser_cons_hit v vs tok' uid' hq]
      · have hq' : (v.botToken == tok' && v.userId == uid') = false := by simpa using hq
        rw [findBotUser_cons_miss v (saveBotUser vs row) tok' uid' hq',
          findBotUser_cons_miss v vs tok' uid' hq']
        exact ih

theorem findBotUser_append_one (db : List BotUserRow) (r : BotUserRow)
    (tok uid : String) (hnone : findBotUser db tok uid = none) :
    findBotUser (db ++ [r]) tok uid =
      (if (r.botToken == tok && r.userId == uid) = true then some r else none) := by
  induction db with
  | nil =>
    by_cases hr : (r.botToken == tok && r.userId == uid) = true
    · rw [if_pos hr]
      exact findBotUser_cons_hit r [] tok uid hr
    · have hr' : (r.botToken == tok && r.userId == uid) = false := by simpa using hr
      rw [if_neg hr]
      exact findBotUser_cons_miss r [] tok uid hr'
  | cons v vs ih =>
    by_cases hv : (v.botToken == tok && v.userId == uid) = true
    · rw [findBotUser_cons_hit v vs tok uid hv] at hnone
      cases hnone
    · have hv' : (v.botToken == tok && v.userId == uid) = false := by simpa using hv
      rw [findBotUser_cons_miss v vs tok uid hv'] at hnone
      show findBotUser (v :: (vs ++ [r])) tok uid = _
      rw [findBotUser_cons_miss v (vs ++ [r]) tok uid hv']
      exact ih hnone

theorem countRows_append_one (db : List BotUserRow) (r : BotUserRow) (tok uid : String) :
    countRows (db ++ [r]) tok uid =
      countRows db tok uid + (if (r.botToken == tok && r.userId == uid) = true then 1 else 0) := by
  unfold countRows
  rw [List.countP_append]
  congr 1
  rw [List.countP_cons]
  simp [List.countP_nil]

def blockedRow5 : BotUserRow :=
  { botToken := "T", userId := "5", hasJoined := false, userStep := "none",
    adminState := "none", lastInteraction := 0, isBlocked := true, username := some "@u5",
    referredBy := "None", isFirstStart := false }

def blockedDb : CreatedDb := { botUsers := [blockedRow5], channelUrls := [] }

/-- C10 counterexample: a blocked non-owner member with `hasJoined = false`
sends `/start`; the claim says the join-gate prompt versus greeting is
chosen solely by `hasJoined` (so this sender should receive the join
prompt), but the block gate intercepts the event first and the sender
receives only the ban notice — `/start` handling is not unconditional for
every sender. -/
theorem C10_counterexample :
    (runCreated okTransport chBot
      (Update.message { id := "5", username := some "u5", firstName := "Ann" } "c5"
        (MsgContent.text "/start")) 10 blockedDb).2.2 = [Eff.send "c5" banNoticeText] ∧
    (findBotUser blockedDb.botUsers "T" "5").map (fun r => r.hasJoined) = some false ∧
    (runCreated okTransport chBot
      (Update.message { id := "5", username := some "u5", firstName := "Ann" } "c5"
        (MsgContent.text "/start")) 10 blockedDb).2.2 ≠
      [Eff.sendKb "c5" joinPromptText (getChannelUrlD blockedDb.channelUrls "T")] := by
  exact ⟨by decide, by decide, by decide⟩


/-- A membership row after the dispatch prologue: `lastInteraction` set. -/
def rowTouched (row : BotUserRow) (now : Nat) : BotUserRow :=
  { row with lastInteraction := now }

/-- A membership row after `/start`: `lastInteraction` set and both
conversation axes reset to their idle values. -/
def rowReset (row : BotUserRow) (now : Nat) : BotUserRow :=
  { row with lastInteraction := now, userStep := "none", adminState := "none" }

/-- The database after a gate-passing `/start`: the prologue save followed
by the axis-resetting save. -/
def dbAfterStart (db : CreatedDb) (row : BotUserRow) (now : Nat) : CreatedDb :=
  let bu := saveBotUser (saveBotUser db.botUsers (rowTouched row now)) (rowReset row now)
  { db with botUsers := bu }

/-- C10 (amended): on a tenant bot, for every sender that passes the block
gate (any unblocked member, and the tenant owner even if blocked), with
first contact already consumed, the `/start` command unconditionally
resets both conversation axes of the sender's membership to
`userStep = "none"` and `adminState = "none"` (in particular an owner
inside any admin flow state silently exits it), and the single reply is
chosen solely by the membership's current `hasJoined` flag: the greeting
when joined, otherwise the join-gate prompt with the tenant's channel
URL.  A blocked non-owner sender instead receives only the ban notice
(their axes, invariantly idle, stay idle). -/
theorem C10_amended_start_resets (botInfo : BotRow) (s : Sender) (chat : String)
    (now : Nat) (db : CreatedDb) (row : BotUserRow)
    (hFind : findBotUser db.botUsers botInfo.token s.id = some row)
    (hFS : row.isFirstStart = false)
    (hGate : (row.isBlocked && !(s.id == botInfo.creatorId)) = false) :
    runCreated okTransport botInfo (Update.message s chat (MsgContent.text "/start")) now db =
      (Except.ok (), dbAfterStart db row now,
       [if row.hasJoined = true then Eff.send chat greetingText
        else Eff.sendKb chat joinPromptText (getChannelUrlD db.channelUrls botInfo.token)]) ∧
    (findBotUser (runCreated okTransport botInfo
        (Update.message s chat (MsgContent.text "/start")) now db).2.1.botUsers
      botInfo.token s.id).map (fun r => (r.userStep, r.adminState)) =
      some ("none", "none") := by
  have hFind' : List.find? (fun r => r.botToken == botInfo.token && r.userId == s.id)
      db.botUsers = some row := hFind
  have hkey0 := List.find?_some hFind'
  have hkey : (row.botToken == botInfo.token && row.userId == s.id) = true := hkey0
  have hbt : row.botToken = botInfo.token := by
    have h := (Bool.and_eq_true _ _).mp hkey
    simpa using h.1
  have hui : row.userId = s.id := by
    have h := (Bool.and_eq_true _ _).mp hkey
    simpa using h.2
  have hGateP : ¬(row.isBlocked = true ∧ ¬ s.id = botInfo.creatorId) := by
    rintro ⟨hb, hc⟩
    rw [hb] at hGate
    simp at hGate
    exact hc hGate
  have hmain : runCreated okTransport botInfo
      (Update.message s chat (MsgContent.text "/start")) now db =
      (Except.ok (), dbAfterStart db row now,
       [if row.hasJoined = true then Eff.send chat greetingText
        else Eff.sendKb chat joinPromptText (getChannelUrlD db.channelUrls botInfo.token)]) := by
    cases hJ : row.hasJoined with
    | true =>
      simp only [runCreated, createdHandler, run_bind, run_pure, getDb, setDb, emit,
        emitAll, tgSend, tgSendNoAwait, tgSendKb, tgAnswerCb, liftE, M.pure, M.bind,
        saveRowState, Update.sender, Update.chatId, hFind, hFS, hGate, hJ, okTransport]
      simp [run_bind, run_pure, getDb, setDb, emit, emitAll, M.pure, M.bind, liftE,
        saveRowState, hGate, hGateP, hFS, hJ, dbAfterStart, rowTouched, rowReset]
    | false =>
      simp only [runCreated, createdHandler, run_bind, run_pure, getDb, setDb, emit,
        emitAll, tgSend, tgSendNoAwait, tgSendKb, tgAnswerCb, liftE, M.pure, M.bind,
        saveRowState, Update.sender, Update.chatId, hFind, hFS, hGate, hJ, okTransport]
      simp [run_bind, run_pure, getDb, setDb, emit, emitAll, M.pure, M.bind, liftE,
        saveRowState, hGate, hGateP, hFS, hJ, dbAfterStart, rowTouched, rowReset]
  refine ⟨hmain, ?_⟩
  rw [hmain]
  have h1 : findBotUser (saveBotUser db.botUsers (rowTouched row now))
      botInfo.token s.id = some (rowTouched row now) := by
    apply findBotUser_saveBotUser_same
    · exact hbt
    · exact hui
    · rw [hFind]
      rfl
  have h2 : findBotUser (saveBotUser (saveBotUser db.botUsers (rowTouched row now))
      (rowReset row now)) botInfo.token s.id = some (rowReset row now) := by
    apply findBotUser_saveBotUser_same
    · exact hbt
    · exact hui
    · rw [h1]
      rfl
  show (findBotUser (saveBotUser (saveBotUser db.botUsers (rowTouched row now))
      (rowReset row now)) botInfo.token s.id).map (fun r => (r.userStep, r.adminState)) = _
  rw [h2]
  rfl

def ownSender : Sender := { id := "9", username := some "own", firstName := "Own" }

/-- The tenant owner's membership: blocked flag set, joined, and sitting
inside an admin flow state. -/
def ownRowBusy : BotUserRow :=
  { botToken := "T", userId := "9", hasJoined := true, userStep := "none",
    adminState := "awaiting_broadcast", lastInteraction := 0, isBlocked := true,
    username := some "@own", referredBy := "None", isFirstStart := false }

def ownDbBusy : CreatedDb := { botUsers := [ownRowBusy], channelUrls := [] }

/-- Witness for C10 (amended): the owner — even blocked — inside the
`awaiting_broadcast` admin state sends `/start`: the greeting is chosen by
`hasJoined = true` and both axes silently reset to `"none"`. -/
theorem C10_witness :
    (runCreated okTransport chBot (Update.message ownSender "c9" (MsgContent.text "/start"))
      20 ownDbBusy =
      (Except.ok (), dbAfterStart ownDbBusy ownRowBusy 20,
       [if ownRowBusy.hasJoined = true then Eff.send "c9" greetingText
        else Eff.sendKb "c9" joinPromptText
          (getChannelUrlD ownDbBusy.channelUrls chBot.token)])) ∧
    (findBotUser (runCreated okTransport chBot
        (Update.message ownSender "c9" (MsgContent.text "/start")) 20 ownDbBusy).2.1.botUsers
      chBot.token ownSender.id).map (fun r => (r.userStep, r.adminState)) =
      some ("none", "none") :=
  C10_amended_start_resets chBot ownSender "c9" 20 ownDbBusy ownRowBusy
    (by decide) (by decide) (by decide)

theorem broadcastMessage_sendsTo_admin (t : Transport) (msg : MsgContent)
    (ids : List String) (adminId : String) :
    (broadcastMessage t msg ids adminId).2.2.countP (isSendTo adminId) = 0 := by
  induction ids with
  | nil => rfl
  | cons uid rest ih =>
    by_cases h : (uid == adminId) = true
    · simpa [broadcastMessage, h] using ih
    · have hb : (uid == adminId) = false := by simpa using h
      have hsto : isSendTo adminId (contentSend t uid msg).2 = false := by
        rw [contentSend_isSendTo]
        exact hb
      cases hsend : (contentSend t uid msg).1 with
      | ok v =>
        have e1 : broadcastMessage t msg (uid :: rest) adminId
            = ((broadcastMessage t msg rest adminId).1 + 1,
               (broadcastMessage t msg rest adminId).2.1,
               (contentSend t uid msg).2 :: Eff.sleep 34 ::
                 (broadcastMessage t msg rest adminId).2.2) := by
          simp [broadcastMessage, hb, hsend]
        rw [e1]
        dsimp only
        rw [countP_cons_false (isSendTo adminId) (contentSend t uid msg).2 _ hsto,
          countP_cons_false (isSendTo adminId) (Eff.sleep 34) _ (isSendTo_sleep adminId 34)]
        exact ih
      | error er =>
        have e1 : broadcastMessage t msg (uid :: rest) adminId
            = ((broadcastMessage t msg rest adminId).1,
               (broadcastMessage t msg rest adminId).2.1 + 1,
               (contentSend t uid msg).2 :: (broadcastMessage t msg rest adminId).2.2) := by
          simp [broadcastMessage, hb, hsend]
        rw [e1]
        dsimp only
        rw [countP_cons_false (isSendTo adminId) (contentSend t uid msg).2 _ hsto]
        exact ih

set_option maxHeartbeats 2000000 in
theorem created_no_renotify (botInfo : BotRow) (upd : Update) (now : Nat)
    (db : CreatedDb) (row : BotUserRow)
    (hFind : findBotUser db.botUsers botInfo.token upd.sender.id = some row)
    (hFS : row.isFirstStart = false)
    (hChat : (upd.chatId == botInfo.creatorId) = false) :
    sendsTo botInfo.creatorId (runCreated okTransport botInfo upd now db).2.2 = 0 ∧
    (∀ tok uid, countRows (runCreated okTransport botInfo upd now db).2.1.botUsers tok uid =
      countRows db.botUsers tok uid) := by
  cases upd with
  | callback s chat cbId data =>
    simp only [Update.sender, Update.chatId] at hFind hChat
    by_cases hbl : (row.isBlocked = true ∧ ¬ s.id = botInfo.creatorId)
    · simp only [runCreated, createdHandler, run_bind, run_pure, getDb, setDb, emit,
        emitAll, tgSend, tgSendNoAwait, tgSendKb, tgAnswerCb, liftE, M.pure, M.bind,
        saveRowState, Update.sender, Update.chatId, hFind, hFS, okTransport]
      simp [run_bind, run_pure, getDb, setDb, emit, emitAll, M.pure, M.bind, liftE,
        hbl, hFS, sendsTo, isSendTo, hChat, countRows_saveBotUser]
    · by_cases hj : (data == "joined") = true
      · simp only [runCreated, createdHandler, run_bind, run_pure, getDb, setDb, emit,
          emitAll, tgSend, tgSendNoAwait, tgSendKb, tgAnswerCb, liftE, M.pure, M.bind,
          saveRowState, Update.sender, Update.chatId, hFind, hFS, hj, okTransport]
        simp [run_bind, run_pure, getDb, setDb, emit, emitAll, M.pure, M.bind, liftE,
          hbl, hFS, hj, sendsTo, isSendTo, hChat, countRows_saveBotUser]
      · have hj' : (data == "joined") = false := by simpa using hj
        simp only [runCreated, createdHandler, run_bind, run_pure, getDb, setDb, emit,
          emitAll, tgSend, tgSendNoAwait, tgSendKb, tgAnswerCb, liftE, M.pure, M.bind,
          saveRowState, Update.sender, Update.chatId, hFind, hFS, hj', okTransport]
        simp [run_bind, run_pure, getDb, setDb, emit, emitAll, M.pure, M.bind, liftE,
          hbl, hFS, hj', sendsTo, isSendTo, hChat, countRows_saveBotUser]
  | message s chat content =>
    simp only [Update.sender, Update.chatId] at hFind hChat
    by_cases hbl : (row.isBlocked = true ∧ ¬ s.id = botInfo.creatorId)
    · simp only [runCreated, createdHandler, run_bind, run_pure, getDb, setDb, emit, emitAll, tgSend, tgSendNoAwait, tgSendKb, tgAnswerCb, liftE, M.pure, M.bind, throwM, saveRowState, Update.sender, Update.chatId, okTransport, hFind, hFS]
      simp [run_bind, run_pure, getDb, setDb, emit, emitAll, M.pure, M.bind, liftE, throwM, saveRowState, sendsTo, isSendTo, List.countP_append, countRows_saveBotUser, countRows_updateBotUserBlocked, contentSend, broadcastMessage_sendsTo_admin, -List.countP_eq_zero, hbl, hFS, hChat, hFS]
    · by_cases hcr : s.id = botInfo.creatorId
      · cases content with
        | text str =>
          by_cases h1 : str = "/start"
          · by_cases hHJ : row.hasJoined = true
            · simp only [runCreated, createdHandler, run_bind, run_pure, getDb, setDb, emit, emitAll, tgSend, tgSendNoAwait, tgSendKb, tgAnswerCb, liftE, M.pure, M.bind, throwM, saveRowState, Update.sender, Update.chatId, okTransport, hFind, hFS]
              simp [run_bind, run_pure, getDb, setDb, emit, emitAll, M.pure, M.bind, liftE, throwM, saveRowState, sendsTo, isSendTo, List.countP_append, countRows_saveBotUser, countRows_updateBotUserBlocked, contentSend, broadcastMessage_sendsTo_admin, -List.countP_eq_zero, hbl, hFS, hChat, hcr, h1, hHJ]
            · simp only [runCreated, createdHandler, run_bind, run_pure, getDb, setDb, emit, emitAll, tgSend, tgSendNoAwait, tgSendKb, tgAnswerCb, liftE, M.pure, M.bind, throwM, saveRowState, Update.sender, Update.chatId, okTransport, hFind, hFS]
              simp [run_bind, run_pure, getDb, setDb, emit, emitAll, M.pure, M.bind, liftE, throwM, saveRowState, sendsTo, isSendTo, List.countP_append, countRows_saveBotUser, countRows_updateBotUserBlocked, contentSend, broadcastMessage_sendsTo_admin, -List.countP_eq_zero, hbl, hFS, hChat, hcr, h1, hHJ]
          · by_cases h2 : str = "/panel"
            · simp only [runCreated, createdHandler, run_bind, run_pure, getDb, setDb, emit, emitAll, tgSend, tgSendNoAwait, tgSendKb, tgAnswerCb, liftE, M.pure, M.bind, throwM, saveRowState, Update.sender, Update.chatId, okTransport, hFind, hFS]
              simp [run_bind, run_pure, getDb, setDb, emit, emitAll, M.pure, M.bind, liftE, throwM, saveRowState, sendsTo, isSendTo, List.countP_append, countRows_saveBotUser, countRows_updateBotUserBlocked, contentSend, broadcastMessage_sendsTo_admin, -List.countP_eq_zero, hbl, hFS, hChat, hcr, h1, h2]
            · by_cases hA1 : row.adminState = "admin_panel"
              · by_cases hL1 : str = "📊 Statistics"
                · simp only [runCreated, createdHandler, run_bind, run_pure, getDb, setDb, emit, emitAll, tgSend, tgSendNoAwait, tgSendKb, tgAnswerCb, liftE, M.pure, M.bind, throwM, saveRowState, Update.sender, Update.chatId, okTransport, hFind, hFS]
                  simp [run_bind, run_pure, getDb, setDb, emit, emitAll, M.pure, M.bind, liftE, throwM, saveRowState, sendsTo, isSendTo, List.countP_append, countRows_saveBotUser, countRows_updateBotUserBlocked, contentSend, broadcastMessage_sendsTo_admin, -List.countP_eq_zero, hbl, hFS, hChat, hcr, h1, h2, hA1, hL1]
                · by_cases hL2 : str = "📍 Broadcast"
                  · simp only [runCreated, createdHandler, run_bind, run_pure, getDb, setDb, emit, emitAll, tgSend, tgSendNoAwait, tgSendKb, tgAnswerCb, liftE, M.pure, M.bind, throwM, saveRowState, Update.sender, Update.chatId, okTransport, hFind, hFS]
                    constructor
                    · simp [run_bind, run_pure, getDb, setDb, emit, emitAll, M.pure, M.bind, liftE, throwM, saveRowState, sendsTo, isSendTo, List.countP_append, countRows_saveBotUser, countRows_updateBotUserBlocked, contentSend, broadcastMessage_sendsTo_admin, -List.countP_eq_zero, hbl, hFS, hChat, hcr, h1, h2, hA1, hL2]
                      try (split <;> simp [run_bind, run_pure, getDb, setDb, emit, emitAll, M.pure, M.bind, liftE, throwM, saveRowState, sendsTo, isSendTo, List.countP_append, countRows_saveBotUser, countRows_updateBotUserBlocked, contentSend, broadcastMessage_sendsTo_admin, -List.countP_eq_zero, hChat, hcr, h1, h2, hA1, hL2])
                    · intro tok uid
                      simp [run_bind, run_pure, getDb, setDb, emit, emitAll, M.pure, M.bind, liftE, throwM, saveRowState, sendsTo, isSendTo, List.countP_append, countRows_saveBotUser, countRows_updateBotUserBlocked, contentSend, broadcastMessage_sendsTo_admin, -List.countP_eq_zero, hbl, hFS, hChat, hcr, h1, h2, hA1, hL2]
                      try (split <;> simp [run_bind, run_pure, getDb, setDb, emit, emitAll, M.pure, M.bind, liftE, throwM, saveRowState, sendsTo, isSendTo, List.countP_append, countRows_saveBotUser, countRows_updateBotUserBlocked, contentSend, broadcastMessage_sendsTo_admin, -List.countP_eq_zero, hChat, hcr, h1, h2, hA1, hL2])
                  · by_cases hL3 : str = "🔗 Set Channel URL"
                    · simp only [runCreated, createdHandler, run_bind, run_pure, getDb, setDb, emit, emitAll, tgSend, tgSendNoAwait, tgSendKb, tgAnswerCb, liftE, M.pure, M.bind, throwM, saveRowState, Update.sender, Update.chatId, okTransport, hFind, hFS]
                      simp [run_bind, run_pure, getDb, setDb, emit, emitAll, M.pure, M.bind, liftE, throwM, saveRowState, sendsTo, isSendTo, List.countP_append, countRows_saveBotUser, countRows_updateBotUserBlocked, contentSend, broadcastMessage_sendsTo_admin, -List.countP_eq_zero, hbl, hFS, hChat, hcr, h1, h2, hA1, hL3]
                    · by_cases hL4 : str = "🚫 Block"
                      · simp only [runCreated, createdHandler, run_bind, run_pure, getDb, setDb, emit, emitAll, tgSend, tgSendNoAwait, tgSendKb, tgAnswerCb, liftE, M.pure, M.bind, throwM, saveRowState, Update.sender, Update.chatId, okTransport, hFind, hFS]
                        simp [run_bind, run_pure, getDb, setDb, emit, emitAll, M.pure, M.bind, liftE, throwM, saveRowState, sendsTo, isSendTo, List.countP_append, countRows_saveBotUser, countRows_updateBotUserBlocked, contentSend, broadcastMessage_sendsTo_admin, -List.countP_eq_zero, hbl, hFS, hChat, hcr, h1, h2, hA1, hL4]
                      · by_cases hL5 : str = "🔓 Unlock"
                        · simp only [runCreated, createdHandler, run_bind, run_pure, getDb, setDb, emit, emitAll, tgSend, tgSendNoAwait, tgSendKb, tgAnswerCb, liftE, M.pure, M.bind, throwM, saveRowState, Update.sender, Update.chatId, okTransport, hFind, hFS]
                          simp [run_bind, run_pure, getDb, setDb, emit, emitAll, M.pure, M.bind, liftE, throwM, saveRowState, sendsTo, isSendTo, List.countP_append, countRows_saveBotUser, countRows_updateBotUserBlocked, contentSend, broadcastMessage_sendsTo_admin, -List.countP_eq_zero, hbl, hFS, hChat, hcr, h1, h2, hA1, hL5]
                        · by_cases hL6 : str = "↩️ Back"
                          · simp only [runCreated, createdHandler, run_bind, run_pure, getDb, setDb, emit, emitAll, tgSend, tgSendNoAwait, tgSendKb, tgAnswerCb, liftE, M.pure, M.bind, throwM, saveRowState, Update.sender, Update.chatId, okTransport, hFind, hFS]
                            simp [run_bind, run_pure, getDb, setDb, emit, emitAll, M.pure, M.bind, liftE, throwM, saveRowState, sendsTo, isSendTo, List.countP_append, countRows_saveBotUser, countRows_updateBotUserBlocked, contentSend, broadcastMessage_sendsTo_admin, -List.countP_eq_zero, hbl, hFS, hChat, hcr, h1, h2, hA1, hL6]
                          · simp only [runCreated, createdHandler, run_bind, run_pure, getDb, setDb, emit, emitAll, tgSend, tgSendNoAwait, tgSendKb, tgAnswerCb, liftE, M.pure, M.bind, throwM, saveRowState, Update.sender, Update.chatId, okTransport, hFind, hFS]
                            simp [run_bind, run_pure, getDb, setDb, emit, emitAll, M.pure, M.bind, liftE, throwM, saveRowState, sendsTo, isSendTo, List.countP_append, countRows_saveBotUser, countRows_updateBotUserBlocked, contentSend, broadcastMessage_sendsTo_admin, -List.countP_eq_zero, hbl, hFS, hChat, hcr, h1, h2, hA1, hL1, hL2, hL3, hL4, hL5, hL6]
              · by_cases hA2 : row.adminState = "awaiting_broadcast"
                · by_cases hCan : str = "Cancel"
                  · simp only [runCreated, createdHandler, run_bind, run_pure, getDb, setDb, emit, emitAll, tgSend, tgSendNoAwait, tgSendKb, tgAnswerCb, liftE, M.pure, M.bind, throwM, saveRowState, Update.sender, Update.chatId, okTransport, hFind, hFS]
                    simp [run_bind, run_pure, getDb, setDb, emit, emitAll, M.pure, M.bind, liftE, throwM, saveRowState, sendsTo, isSendTo, List.countP_append, countRows_saveBotUser, countRows_updateBotUserBlocked, contentSend, broadcastMessage_sendsTo_admin, -List.countP_eq_zero, hbl, hFS, hChat, hcr, h1, h2, hA1, hA2, hCan]
                  · simp only [runCreated, createdHandler, run_bind, run_pure, getDb, setDb, emit, emitAll, tgSend, tgSendNoAwait, tgSendKb, tgAnswerCb, liftE, M.pure, M.bind, throwM, saveRowState, Update.sender, Update.chatId, okTransport, hFind, hFS]
                    simp [run_bind, run_pure, getDb, setDb, emit, emitAll, M.pure, M.bind, liftE, throwM, saveRowState, sendsTo, isSendTo, List.countP_append, countRows_saveBotUser, countRows_updateBotUserBlocked, contentSend, broadcastMessage_sendsTo_admin, -List.countP_eq_zero, hbl, hFS, hChat, hcr, h1, h2, hA1, hA2, hCan]
                · by_cases hA3 : row.adminState = "awaiting_channel"
                  · by_cases hCan : str = "Cancel"
                    · simp only [runCreated, createdHandler, run_bind, run_pure, getDb, setDb, emit, emitAll, tgSend, tgSendNoAwait, tgSendKb, tgAnswerCb, liftE, M.pure, M.bind, throwM, saveRowState, Update.sender, Update.chatId, okTransport, hFind, hFS]
                      simp [run_bind, run_pure, getDb, setDb, emit, emitAll, M.pure, M.bind, liftE, throwM, saveRowState, sendsTo, isSendTo, List.countP_append, countRows_saveBotUser, countRows_updateBotUserBlocked, contentSend, broadcastMessage_sendsTo_admin, -List.countP_eq_zero, hbl, hFS, hChat, hcr, h1, h2, hA1, hA2, hA3, hCan]
                    · by_cases hRx : channelUrlRegexTest (normalizeChannelInput str) = true
                      · simp only [runCreated, createdHandler, run_bind, run_pure, getDb, setDb, emit, emitAll, tgSend, tgSendNoAwait, tgSendKb, tgAnswerCb, liftE, M.pure, M.bind, throwM, saveRowState, Update.sender, Update.chatId, okTransport, hFind, hFS]
                        simp [run_bind, run_pure, getDb, setDb, emit, emitAll, M.pure, M.bind, liftE, throwM, saveRowState, sendsTo, isSendTo, List.countP_append, countRows_saveBotUser, countRows_updateBotUserBlocked, contentSend, broadcastMessage_sendsTo_admin, -List.countP_eq_zero, hbl, hFS, hChat, hcr, h1, h2, hA1, hA2, hA3, hCan, hRx]
                      · simp only [runCreated, createdHandler, run_bind, run_pure, getDb, setDb, emit, emitAll, tgSend, tgSendNoAwait, tgSendKb, tgAnswerCb, liftE, M.pure, M.bind, throwM, saveRowState, Update.sender, Update.chatId, okTransport, hFind, hFS]
                        simp [run_bind, run_pure, getDb, setDb, emit, emitAll, M.pure, M.bind, liftE, throwM, saveRowState, sendsTo, isSendTo, List.countP_append, countRows_saveBotUser, countRows_updateBotUserBlocked, contentSend, broadcastMessage_sendsTo_admin, -List.countP_eq_zero, hbl, hFS, hChat, hcr, h1, h2, hA1, hA2, hA3, hCan, hRx]
                  · by_cases hA4 : row.adminState = "awaiting_block"
                    · by_cases hCan : str = "Cancel"
                      · simp only [runCreated, createdHandler, run_bind, run_pure, getDb, setDb, emit, emitAll, tgSend, tgSendNoAwait, tgSendKb, tgAnswerCb, liftE, M.pure, M.bind, throwM, saveRowState, Update.sender, Update.chatId, okTransport, hFind, hFS]
                        simp [run_bind, run_pure, getDb, setDb, emit, emitAll, M.pure, M.bind, liftE, throwM, saveRowState, sendsTo, isSendTo, List.countP_append, countRows_saveBotUser, countRows_updateBotUserBlocked, contentSend, broadcastMessage_sendsTo_admin, -List.countP_eq_zero, hbl, hFS, hChat, hcr, h1, h2, hA1, hA2, hA3, hA4, hCan]
                      · by_cases hNum : isNumericStr (jsTrim str) = true
                        · by_cases hSelf : jsTrim str = botInfo.creatorId
                          · rw [hSelf] at hNum
                            simp only [runCreated, createdHandler, run_bind, run_pure, getDb, setDb, emit, emitAll, tgSend, tgSendNoAwait, tgSendKb, tgAnswerCb, liftE, M.pure, M.bind, throwM, saveRowState, Update.sender, Update.chatId, okTransport, hFind, hFS]
                            simp [run_bind, run_pure, getDb, setDb, emit, emitAll, M.pure, M.bind, liftE, throwM, saveRowState, sendsTo, isSendTo, List.countP_append, countRows_saveBotUser, countRows_updateBotUserBlocked, contentSend, broadcastMessage_sendsTo_admin, -List.countP_eq_zero, hbl, hFS, hChat, hcr, h1, h2, hA1, hA2, hA3, hA4, hCan, hNum, hSelf]
                          · cases hT : findBotUser (saveBotUser db.botUsers { row with lastInteraction := now }) botInfo.token (jsTrim str) with
                            | none =>
                              simp only [hFS, hA4] at hT
                              simp only [runCreated, createdHandler, run_bind, run_pure, getDb, setDb, emit, emitAll, tgSend, tgSendNoAwait, tgSendKb, tgAnswerCb, liftE, M.pure, M.bind, throwM, saveRowState, Update.sender, Update.chatId, okTransport, hFind, hFS]
                              simp [run_bind, run_pure, getDb, setDb, emit, emitAll, M.pure, M.bind, liftE, throwM, saveRowState, sendsTo, isSendTo, List.countP_append, countRows_saveBotUser, countRows_updateBotUserBlocked, contentSend, broadcastMessage_sendsTo_admin, -List.countP_eq_zero, hbl, hFS, hChat, hcr, h1, h2, hA1, hA2, hA3, hA4, hCan, hNum, hSelf, hT]
                            | some w =>
                              simp only [hFS, hA4] at hT
                              simp only [runCreated, createdHandler, run_bind, run_pure, getDb, setDb, emit, emitAll, tgSend, tgSendNoAwait, tgSendKb, tgAnswerCb, liftE, M.pure, M.bind, throwM, saveRowState, Update.sender, Update.chatId, okTransport, hFind, hFS]
                              simp [run_bind, run_pure, getDb, setDb, emit, emitAll, M.pure, M.bind, liftE, throwM, saveRowState, sendsTo, isSendTo, List.countP_append, countRows_saveBotUser, countRows_updateBotUserBlocked, contentSend, broadcastMessage_sendsTo_admin, -List.countP_eq_zero, hbl, hFS, hChat, hcr, h1, h2, hA1, hA2, hA3, hA4, hCan, hNum, hSelf, hT]
                        · simp only [runCreated, createdHandler, run_bind, run_pure, getDb, setDb, emit, emitAll, tgSend, tgSendNoAwait, tgSendKb, tgAnswerCb, liftE, M.pure, M.bind, throwM, saveRowState, Update.sender, Update.chatId, okTransport, hFind, hFS]
                          simp [run_bind, run_pure, getDb, setDb, emit, emitAll, M.pure, M.bind, liftE, throwM, saveRowState, sendsTo, isSendTo, List.countP_append, countRows_saveBotUser, countRows_updateBotUserBlocked, contentSend, broadcastMessage_sendsTo_admin, -List.countP_eq_zero, hbl, hFS, hChat, hcr, h1, h2, hA1, hA2, hA3, hA4, hCan, hNum]
                    · by_cases hA5 : row.adminState = "awaiting_unlock"
                      · by_cases hCan : str = "Cancel"
                        · simp only [runCreated, createdHandler, run_bind, run_pure, getDb, setDb, emit, emitAll, tgSend, tgSendNoAwait, tgSendKb, tgAnswerCb, liftE, M.pure, M.bind, throwM, saveRowState, Update.sender, Update.chatId, okTransport, hFind, hFS]
                          simp [run_bind, run_pure, getDb, setDb, emit, emitAll, M.pure, M.bind, liftE, throwM, saveRowState, sendsTo, isSendTo, List.countP_append, countRows_saveBotUser, countRows_updateBotUserBlocked, contentSend, broadcastMessage_sendsTo_admin, -List.countP_eq_zero, hbl, hFS, hChat, hcr, h1, h2, hA1, hA2, hA3, hA4, hA5, hCan]
                        · by_cases hNum : isNumericStr (jsTrim str) = true
                          · cases hT : findBotUser (saveBotUser db.botUsers { row with lastInteraction := now }) botInfo.token (jsTrim str) with
                            | none =>
                              simp only [hFS, hA5] at hT
                              simp only [runCreated, createdHandler, run_bind, run_pure, getDb, setDb, emit, emitAll, tgSend, tgSendNoAwait, tgSendKb, tgAnswerCb, liftE, M.pure, M.bind, throwM, saveRowState, Update.sender, Update.chatId, okTransport, hFind, hFS]
                              simp [run_bind, run_pure, getDb, setDb, emit, emitAll, M.pure, M.bind, liftE, throwM, saveRowState, sendsTo, isSendTo, List.countP_append, countRows_saveBotUser, countRows_updateBotUserBlocked, contentSend, broadcastMessage_sendsTo_admin, -List.countP_eq_zero, hbl, hFS, hChat, hcr, h1, h2, hA1, hA2, hA3, hA4, hA5, hCan, hNum, hT]
                            | some w =>
                              simp only [hFS, hA5] at hT
                              simp only [runCreated, createdHandler, run_bind, run_pure, getDb, setDb, emit, emitAll, tgSend, tgSendNoAwait, tgSendKb, tgAnswerCb, liftE, M.pure, M.bind, throwM, saveRowState, Update.sender, Update.chatId, okTransport, hFind, hFS]
                              simp [run_bind, run_pure, getDb, setDb, emit, emitAll, M.pure, M.bind, liftE, throwM, saveRowState, sendsTo, isSendTo, List.countP_append, countRows_saveBotUser, countRows_updateBotUserBlocked, contentSend, broadcastMessage_sendsTo_admin, -List.countP_eq_zero, hbl, hFS, hChat, hcr, h1, h2, hA1, hA2, hA3, hA4, hA5, hCan, hNum, hT]
                          · simp only [runCreated, createdHandler, run_bind, run_pure, getDb, setDb, emit, emitAll, tgSend, tgSendNoAwait, tgSendKb, tgAnswerCb, liftE, M.pure, M.bind, throwM, saveRowState, Update.sender, Update.chatId, okTransport, hFind, hFS]
                            simp [run_bind, run_pure, getDb, setDb, emit, emitAll, M.pure, M.bind, liftE, throwM, saveRowState, sendsTo, isSendTo, List.countP_append, countRows_saveBotUser, countRows_updateBotUserBlocked, contentSend, broadcastMessage_sendsTo_admin, -List.countP_eq_zero, hbl, hFS, hChat, hcr, h1, h2, hA1, hA2, hA3, hA4, hA5, hCan, hNum]
                      · by_cases hA0 : row.adminState = "none"
                        · by_cases hHJ : row.hasJoined = true
                          · simp only [runCreated, createdHandler, run_bind, run_pure, getDb, setDb, emit, emitAll, tgSend, tgSendNoAwait, tgSendKb, tgAnswerCb, liftE, M.pure, M.bind, throwM, saveRowState, Update.sender, Update.chatId, okTransport, hFind, hFS]
                            simp [run_bind, run_pure, getDb, setDb, emit, emitAll, M.pure, M.bind, liftE, throwM, saveRowState, sendsTo, isSendTo, List.countP_append, countRows_saveBotUser, countRows_updateBotUserBlocked, contentSend, broadcastMessage_sendsTo_admin, -List.countP_eq_zero, hbl, hFS, hChat, hcr, h1, h2, hA1, hA2, hA3, hA4, hA5, hA0, hHJ]
                          · simp only [runCreated, createdHandler, run_bind, run_pure, getDb, setDb, emit, emitAll, tgSend, tgSendNoAwait, tgSendKb, tgAnswerCb, liftE, M.pure, M.bind, throwM, saveRowState, Update.sender, Update.chatId, okTransport, hFind, hFS]
                            simp [run_bind, run_pure, getDb, setDb, emit, emitAll, M.pure, M.bind, liftE, throwM, saveRowState, sendsTo, isSendTo, List.countP_append, countRows_saveBotUser, countRows_updateBotUserBlocked, contentSend, broadcastMessage_sendsTo_admin, -List.countP_eq_zero, hbl, hFS, hChat, hcr, h1, h2, hA1, hA2, hA3, hA4, hA5, hA0, hHJ]
                        · simp only [runCreated, createdHandler, run_bind, run_pure, getDb, setDb, emit, emitAll, tgSend, tgSendNoAwait, tgSendKb, tgAnswerCb, liftE, M.pure, M.bind, throwM, saveRowState, Update.sender, Update.chatId, okTransport, hFind, hFS]
                          simp [run_bind, run_pure, getDb, setDb, emit, emitAll, M.pure, M.bind, liftE, throwM, saveRowState, sendsTo, isSendTo, List.countP_append, countRows_saveBotUser, countRows_updateBotUserBlocked, contentSend, broadcastMessage_sendsTo_admin, -List.countP_eq_zero, hbl, hFS, hChat, hcr, h1, h2, hA1, hA2, hA3, hA4, hA5, hA0]
        | photo a b =>
          by_cases hA1 : row.adminState = "admin_panel"
          · simp only [runCreated, createdHandler, run_bind, run_pure, getDb, setDb, emit, emitAll, tgSend, tgSendNoAwait, tgSendKb, tgAnswerCb, liftE, M.pure, M.bind, throwM, saveRowState, Update.sender, Update.chatId, okTransport, hFind, hFS]
            simp [run_bind, run_pure, getDb, setDb, emit, emitAll, M.pure, M.bind, liftE, throwM, saveRowState, sendsTo, isSendTo, List.countP_append, countRows_saveBotUser, countRows_updateBotUserBlocked, contentSend, broadcastMessage_sendsTo_admin, -List.countP_eq_zero, hbl, hFS, hChat, hcr, hA1]
          · by_cases hA2 : row.adminState = "awaiting_broadcast"
            · simp only [runCreated, createdHandler, run_bind, run_pure, getDb, setDb, emit, emitAll, tgSend, tgSendNoAwait, tgSendKb, tgAnswerCb, liftE, M.pure, M.bind, throwM, saveRowState, Update.sender, Update.chatId, okTransport, hFind, hFS]
              simp [run_bind, run_pure, getDb, setDb, emit, emitAll, M.pure, M.bind, liftE, throwM, saveRowState, sendsTo, isSendTo, List.countP_append, countRows_saveBotUser, countRows_updateBotUserBlocked, contentSend, broadcastMessage_sendsTo_admin, -List.countP_eq_zero, hbl, hFS, hChat, hcr, hA1, hA2]
            · by_cases hA3 : row.adminState = "awaiting_channel"
              · simp only [runCreated, createdHandler, run_bind, run_pure, getDb, setDb, emit, emitAll, tgSend, tgSendNoAwait, tgSendKb, tgAnswerCb, liftE, M.pure, M.bind, throwM, saveRowState, Update.sender, Update.chatId, okTransport, hFind, hFS]
                simp [run_bind, run_pure, getDb, setDb, emit, emitAll, M.pure, M.bind, liftE, throwM, saveRowState, sendsTo, isSendTo, List.countP_append, countRows_saveBotUser, countRows_updateBotUserBlocked, contentSend, broadcastMessage_sendsTo_admin, -List.countP_eq_zero, hbl, hFS, hChat, hcr, hA1, hA2, hA3]
              · by_cases hA4 : row.adminState = "awaiting_block"
                · simp only [runCreated, createdHandler, run_bind, run_pure, getDb, setDb, emit, emitAll, tgSend, tgSendNoAwait, tgSendKb, tgAnswerCb, liftE, M.pure, M.bind, throwM, saveRowState, Update.sender, Update.chatId, okTransport, hFind, hFS]
                  simp [run_bind, run_pure, getDb, setDb, emit, emitAll, M.pure, M.bind, liftE, throwM, saveRowState, sendsTo, isSendTo, List.countP_append, countRows_saveBotUser, countRows_updateBotUserBlocked, contentSend, broadcastMessage_sendsTo_admin, -List.countP_eq_zero, hbl, hFS, hChat, hcr, hA1, hA2, hA3, hA4]
                · by_cases hA5 : row.adminState = "awaiting_unlock"
                  · simp only [runCreated, createdHandler, run_bind, run_pure, getDb, setDb, emit, emitAll, tgSend, tgSendNoAwait, tgSendKb, tgAnswerCb, liftE, M.pure, M.bind, throwM, saveRowState, Update.sender, Update.chatId, okTransport, hFind, hFS]
                    simp [run_bind, run_pure, getDb, setDb, emit, emitAll, M.pure, M.bind, liftE, throwM, saveRowState, sendsTo, isSendTo, List.countP_append, countRows_saveBotUser, countRows_updateBotUserBlocked, contentSend, broadcastMessage_sendsTo_admin, -List.countP_eq_zero, hbl, hFS, hChat, hcr, hA1, hA2, hA3, hA4, hA5]
                  · by_cases hA0 : row.adminState = "none"
                    · by_cases hHJ : row.hasJoined = true
                      · simp only [runCreated, createdHandler, run_bind, run_pure, getDb, setDb, emit, emitAll, tgSend, tgSendNoAwait, tgSendKb, tgAnswerCb, liftE, M.pure, M.bind, throwM, saveRowState, Update.sender, Update.chatId, okTransport, hFind, hFS]
                        simp [run_bind, run_pure, getDb, setDb, emit, emitAll, M.pure, M.bind, liftE, throwM, saveRowState, sendsTo, isSendTo, List.countP_append, countRows_saveBotUser, countRows_updateBotUserBlocked, contentSend, broadcastMessage_sendsTo_admin, -List.countP_eq_zero, hbl, hFS, hChat, hcr, hA1, hA2, hA3, hA4, hA5, hA0, hHJ]
                      · simp only [runCreated, createdHandler, run_bind, run_pure, getDb, setDb, emit, emitAll, tgSend, tgSendNoAwait, tgSendKb, tgAnswerCb, liftE, M.pure, M.bind, throwM, saveRowState, Update.sender, Update.chatId, okTransport, hFind, hFS]
                        simp [run_bind, run_pure, getDb, setDb, emit, emitAll, M.pure, M.bind, liftE, throwM, saveRowState, sendsTo, isSendTo, List.countP_append, countRows_saveBotUser, countRows_updateBotUserBlocked, contentSend, broadcastMessage_sendsTo_admin, -List.countP_eq_zero, hbl, hFS, hChat, hcr, hA1, hA2, hA3, hA4, hA5, hA0, hHJ]
                    · simp only [runCreated, createdHandler, run_bind, run_pure, getDb, setDb, emit, emitAll, tgSend, tgSendNoAwait, tgSendKb, tgAnswerCb, liftE, M.pure, M.bind, throwM, saveRowState, Update.sender, Update.chatId, okTransport, hFind, hFS]
                      simp [run_bind, run_pure, getDb, setDb, emit, emitAll, M.pure, M.bind, liftE, throwM, saveRowState, sendsTo, isSendTo, List.countP_append, countRows_saveBotUser, countRows_updateBotUserBlocked, contentSend, broadcastMessage_sendsTo_admin, -List.countP_eq_zero, hbl, hFS, hChat, hcr, hA1, hA2, hA3, hA4, hA5, hA0]
        | document a b =>
          by_cases hA1 : row.adminState = "admin_panel"
          · simp only [runCreated, createdHandler, run_bind, run_pure, getDb, setDb, emit, emitAll, tgSend, tgSendNoAwait, tgSendKb, tgAnswerCb, liftE, M.pure, M.bind, throwM, saveRowState, Update.sender, Update.chatId, okTransport, hFind, hFS]
            simp [run_bind, run_pure, getDb, setDb, emit, emitAll, M.pure, M.bind, liftE, throwM, saveRowState, sendsTo, isSendTo, List.countP_append, countRows_saveBotUser, countRows_updateBotUserBlocked, contentSend, broadcastMessage_sendsTo_admin, -List.countP_eq_zero, hbl, hFS, hChat, hcr, hA1]
          · by_cases hA2 : row.adminState = "awaiting_broadcast"
            · simp only [runCreated, createdHandler, run_bind, run_pure, getDb, setDb, emit, emitAll, tgSend, tgSendNoAwait, tgSendKb, tgAnswerCb, liftE, M.pure, M.bind, throwM, saveRowState, Update.sender, Update.chatId, okTransport, hFind, hFS]
              simp [run_bind, run_pure, getDb, setDb, emit, emitAll, M.pure, M.bind, liftE, throwM, saveRowState, sendsTo, isSendTo, List.countP_append, countRows_saveBotUser, countRows_updateBotUserBlocked, contentSend, broadcastMessage_sendsTo_admin, -List.countP_eq_zero, hbl, hFS, hChat, hcr, hA1, hA2]
            · by_cases hA3 : row.adminState = "awaiting_channel"
              · simp only [runCreated, createdHandler, run_bind, run_pure, getDb, setDb, emit, emitAll, tgSend, tgSendNoAwait, tgSendKb, tgAnswerCb, liftE, M.pure, M.bind, throwM, saveRowState, Update.sender, Update.chatId, okTransport, hFind, hFS]
                simp [run_bind, run_pure, getDb, setDb, emit, emitAll, M.pure, M.bind, liftE, throwM, saveRowState, sendsTo, isSendTo, List.countP_append, countRows_saveBotUser, countRows_updateBotUserBlocked, contentSend, broadcastMessage_sendsTo_admin, -List.countP_eq_zero, hbl, hFS, hChat, hcr, hA1, hA2, hA3]
              · by_cases hA4 : row.adminState = "awaiting_block"
                · simp only [runCreated, createdHandler, run_bind, run_pure, getDb, setDb, emit, emitAll, tgSend, tgSendNoAwait, tgSendKb, tgAnswerCb, liftE, M.pure, M.bind, throwM, saveRowState, Update.sender, Update.chatId, okTransport, hFind, hFS]
                  simp [run_bind, run_pure, getDb, setDb, emit, emitAll, M.pure, M.bind, liftE, throwM, saveRowState, sendsTo, isSendTo, List.countP_append, countRows_saveBotUser, countRows_updateBotUserBlocked, contentSend, broadcastMessage_sendsTo_admin, -List.countP_eq_zero, hbl, hFS, hChat, hcr, hA1, hA2, hA3, hA4]
                · by_cases hA5 : row.adminState = "awaiting_unlock"
                  · simp only [runCreated, createdHandler, run_bind, run_pure, getDb, setDb, emit, emitAll, tgSend, tgSendNoAwait, tgSendKb, tgAnswerCb, liftE, M.pure, M.bind, throwM, saveRowState, Update.sender, Update.chatId, okTransport, hFind, hFS]
                    simp [run_bind, run_pure, getDb, setDb, emit, emitAll, M.pure, M.bind, liftE, throwM, saveRowState, sendsTo, isSendTo, List.countP_append, countRows_saveBotUser, countRows_updateBotUserBlocked, contentSend, broadcastMessage_sendsTo_admin, -List.countP_eq_zero, hbl, hFS, hChat, hcr, hA1, hA2, hA3, hA4, hA5]
                  · by_cases hA0 : row.adminState = "none"
                    · by_cases hHJ : row.hasJoined = true
                      · simp only [runCreated, createdHandler, run_bind, run_pure, getDb, setDb, emit, emitAll, tgSend, tgSendNoAwait, tgSendKb, tgAnswerCb, liftE, M.pure, M.bind, throwM, saveRowState, Update.sender, Update.chatId, okTransport, hFind, hFS]
                        simp [run_bind, run_pure, getDb, setDb, emit, emitAll, M.pure, M.bind, liftE, throwM, saveRowState, sendsTo, isSendTo, List.countP_append, countRows_saveBotUser, countRows_updateBotUserBlocked, contentSend, broadcastMessage_sendsTo_admin, -List.countP_eq_zero, hbl, hFS, hChat, hcr, hA1, hA2, hA3, hA4, hA5, hA0, hHJ]
                      · simp only [runCreated, createdHandler, run_bind, run_pure, getDb, setDb, emit, emitAll, tgSend, tgSendNoAwait, tgSendKb, tgAnswerCb, liftE, M.pure, M.bind, throwM, saveRowState, Update.sender, Update.chatId, okTransport, hFind, hFS]
                        simp [run_bind, run_pure, getDb, setDb, emit, emitAll, M.pure, M.bind, liftE, throwM, saveRowState, sendsTo, isSendTo, List.countP_append, countRows_saveBotUser, countRows_updateBotUserBlocked, contentSend, broadcastMessage_sendsTo_admin, -List.countP_eq_zero, hbl, hFS, hChat, hcr, hA1, hA2, hA3, hA4, hA5, hA0, hHJ]
                    · simp only [runCreated, createdHandler, run_bind, run_pure, getDb, setDb, emit, emitAll, tgSend, tgSendNoAwait, tgSendKb, tgAnswerCb, liftE, M.pure, M.bind, throwM, saveRowState, Update.sender, Update.chatId, okTransport, hFind, hFS]
                      simp [run_bind, run_pure, getDb, setDb, emit, emitAll, M.pure, M.bind, liftE, throwM, saveRowState, sendsTo, isSendTo, List.countP_append, countRows_saveBotUser, countRows_updateBotUserBlocked, contentSend, broadcastMessage_sendsTo_admin, -List.countP_eq_zero, hbl, hFS, hChat, hcr, hA1, hA2, hA3, hA4, hA5, hA0]
        | video a b =>
          by_cases hA1 : row.adminState = "admin_panel"
          · simp only [runCreated, createdHandler, run_bind, run_pure, getDb, setDb, emit, emitAll, tgSend, tgSendNoAwait, tgSendKb, tgAnswerCb, liftE, M.pure, M.bind, throwM, saveRowState, Update.sender, Update.chatId, okTransport, hFind, hFS]
            simp [run_bind, run_pure, getDb, setDb, emit, emitAll, M.pure, M.bind, liftE, throwM, saveRowState, sendsTo, isSendTo, List.countP_append, countRows_saveBotUser, countRows_updateBotUserBlocked, contentSend, broadcastMessage_sendsTo_admin, -List.countP_eq_zero, hbl, hFS, hChat, hcr, hA1]
          · by_cases hA2 : row.adminState = "awaiting_broadcast"
            · simp only [runCreated, createdHandler, run_bind, run_pure, getDb, setDb, emit, emitAll, tgSend, tgSendNoAwait, tgSendKb, tgAnswerCb, liftE, M.pure, M.bind, throwM, saveRowState, Update.sender, Update.chatId, okTransport, hFind, hFS]
              simp [run_bind, run_pure, getDb, setDb, emit, emitAll, M.pure, M.bind, liftE, throwM, saveRowState, sendsTo, isSendTo, List.countP_append, countRows_saveBotUser, countRows_updateBotUserBlocked, contentSend, broadcastMessage_sendsTo_admin, -List.countP_eq_zero, hbl, hFS, hChat, hcr, hA1, hA2]
            · by_cases hA3 : row.adminState = "awaiting_channel"
              · simp only [runCreated, createdHandler, run_bind, run_pure, getDb, setDb, emit, emitAll, tgSend, tgSendNoAwait, tgSendKb, tgAnswerCb, liftE, M.pure, M.bind, throwM, saveRowState, Update.sender, Update.chatId, okTransport, hFind, hFS]
                simp [run_bind, run_pure, getDb, setDb, emit, emitAll, M.pure, M.bind, liftE, throwM, saveRowState, sendsTo, isSendTo, List.countP_append, countRows_saveBotUser, countRows_updateBotUserBlocked, contentSend, broadcastMessage_sendsTo_admin, -List.countP_eq_zero, hbl, hFS, hChat, hcr, hA1, hA2, hA3]
              · by_cases hA4 : row.adminState = "awaiting_block"
                · simp only [runCreated, createdHandler, run_bind, run_pure, getDb, setDb, emit, emitAll, tgSend, tgSendNoAwait, tgSendKb, tgAnswerCb, liftE, M.pure, M.bind, throwM, saveRowState, Update.sender, Update.chatId, okTransport, hFind, hFS]
                  simp [run_bind, run_pure, getDb, setDb, emit, emitAll, M.pure, M.bind, liftE, throwM, saveRowState, sendsTo, isSendTo, List.countP_append, countRows_saveBotUser, countRows_updateBotUserBlocked, contentSend, broadcastMessage_sendsTo_admin, -List.countP_eq_zero, hbl, hFS, hChat, hcr, hA1, hA2, hA3, hA4]
                · by_cases hA5 : row.adminState = "awaiting_unlock"
                  · simp only [runCreated, createdHandler, run_bind, run_pure, getDb, setDb, emit, emitAll, tgSend, tgSendNoAwait, tgSendKb, tgAnswerCb, liftE, M.pure, M.bind, throwM, saveRowState, Update.sender, Update.chatId, okTransport, hFind, hFS]
                    simp [run_bind, run_pure, getDb, setDb, emit, emitAll, M.pure, M.bind, liftE, throwM, saveRowState, sendsTo, isSendTo, List.countP_append, countRows_saveBotUser, countRows_updateBotUserBlocked, contentSend, broadcastMessage_sendsTo_admin, -List.countP_eq_zero, hbl, hFS, hChat, hcr, hA1, hA2, hA3, hA4, hA5]
                  · by_cases hA0 : row.adminState = "none"
                    · by_cases hHJ : row.hasJoined = true
                      · simp only [runCreated, createdHandler, run_bind, run_pure, getDb, setDb, emit, emitAll, tgSend, tgSendNoAwait, tgSendKb, tgAnswerCb, liftE, M.pure, M.bind, throwM, saveRowState, Update.sender, Update.chatId, okTransport, hFind, hFS]
                        simp [run_bind, run_pure, getDb, setDb, emit, emitAll, M.pure, M.bind, liftE, throwM, saveRowState, sendsTo, isSendTo, List.countP_append, countRows_saveBotUser, countRows_updateBotUserBlocked, contentSend, broadcastMessage_sendsTo_admin, -List.countP_eq_zero, hbl, hFS, hChat, hcr, hA1, hA2, hA3, hA4, hA5, hA0, hHJ]
                      · simp only [runCreated, createdHandler, run_bind, run_pure, getDb, setDb, emit, emitAll, tgSend, tgSendNoAwait, tgSendKb, tgAnswerCb, liftE, M.pure, M.bind, throwM, saveRowState, Update.sender, Update.chatId, okTransport, hFind, hFS]
                        simp [run_bind, run_pure, getDb, setDb, emit, emitAll, M.pure, M.bind, liftE, throwM, saveRowState, sendsTo, isSendTo, List.countP_append, countRows_saveBotUser, countRows_updateBotUserBlocked, contentSend, broadcastMessage_sendsTo_admin, -List.countP_eq_zero, hbl, hFS, hChat, hcr, hA1, hA2, hA3, hA4, hA5, hA0, hHJ]
                    · simp only [runCreated, createdHandler, run_bind, run_pure, getDb, setDb, emit, emitAll, tgSend, tgSendNoAwait, tgSendKb, tgAnswerCb, liftE, M.pure, M.bind, throwM, saveRowState, Update.sender, Update.chatId, okTransport, hFind, hFS]
                      simp [run_bind, run_pure, getDb, setDb, emit, emitAll, M.pure, M.bind, liftE, throwM, saveRowState, sendsTo, isSendTo, List.countP_append, countRows_saveBotUser, countRows_updateBotUserBlocked, contentSend, broadcastMessage_sendsTo_admin, -List.countP_eq_zero, hbl, hFS, hChat, hcr, hA1, hA2, hA3, hA4, hA5, hA0]
        | audio a b =>
          by_cases hA1 : row.adminState = "admin_panel"
          · simp only [runCreated, createdHandler, run_bind, run_pure, getDb, setDb, emit, emitAll, tgSend, tgSendNoAwait, tgSendKb, tgAnswerCb, liftE, M.pure, M.bind, throwM, saveRowState, Update.sender, Update.chatId, okTransport, hFind, hFS]
            simp [run_bind, run_pure, getDb, setDb, emit, emitAll, M.pure, M.bind, liftE, throwM, saveRowState, sendsTo, isSendTo, List.countP_append, countRows_saveBotUser, countRows_updateBotUserBlocked, contentSend, broadcastMessage_sendsTo_admin, -List.countP_eq_zero, hbl, hFS, hChat, hcr, hA1]
          · by_cases hA2 : row.adminState = "awaiting_broadcast"
            · simp only [runCreated, createdHandler, run_bind, run_pure, getDb, setDb, emit, emitAll, tgSend, tgSendNoAwait, tgSendKb, tgAnswerCb, liftE, M.pure, M.bind, throwM, saveRowState, Update.sender, Update.chatId, okTransport, hFind, hFS]
              simp [run_bind, run_pure, getDb, setDb, emit, emitAll, M.pure, M.bind, liftE, throwM, saveRowState, sendsTo, isSendTo, List.countP_append, countRows_saveBotUser, countRows_updateBotUserBlocked, contentSend, broadcastMessage_sendsTo_admin, -List.countP_eq_zero, hbl, hFS, hChat, hcr, hA1, hA2]
            · by_cases hA3 : row.adminState = "awaiting_channel"
              · simp only [runCreated, createdHandler, run_bind, run_pure, getDb, setDb, emit, emitAll, tgSend, tgSendNoAwait, tgSendKb, tgAnswerCb, liftE, M.pure, M.bind, throwM, saveRowState, Update.sender, Update.chatId, okTransport, hFind, hFS]
                simp [run_bind, run_pure, getDb, setDb, emit, emitAll, M.pure, M.bind, liftE, throwM, saveRowState, sendsTo, isSendTo, List.countP_append, countRows_saveBotUser, countRows_updateBotUserBlocked, contentSend, broadcastMessage_sendsTo_admin, -List.countP_eq_zero, hbl, hFS, hChat, hcr, hA1, hA2, hA3]
              · by_cases hA4 : row.adminState = "awaiting_block"
                · simp only [runCreated, createdHandler, run_bind, run_pure, getDb, setDb, emit, emitAll, tgSend, tgSendNoAwait, tgSendKb, tgAnswerCb, liftE, M.pure, M.bind, throwM, saveRowState, Update.sender, Update.chatId, okTransport, hFind, hFS]
                  simp [run_bind, run_pure, getDb, setDb, emit, emitAll, M.pure, M.bind, liftE, throwM, saveRowState, sendsTo, isSendTo, List.countP_append, countRows_saveBotUser, countRows_updateBotUserBlocked, contentSend, broadcastMessage_sendsTo_admin, -List.countP_eq_zero, hbl, hFS, hChat, hcr, hA1, hA2, hA3, hA4]
                · by_cases hA5 : row.adminState = "awaiting_unlock"
                  · simp only [runCreated, createdHandler, run_bind, run_pure, getDb, setDb, emit, emitAll, tgSend, tgSendNoAwait, tgSendKb, tgAnswerCb, liftE, M.pure, M.bind, throwM, saveRowState, Update.sender, Update.chatId, okTransport, hFind, hFS]
                    simp [run_bind, run_pure, getDb, setDb, emit, emitAll, M.pure, M.bind, liftE, throwM, saveRowState, sendsTo, isSendTo, List.countP_append, countRows_saveBotUser, countRows_updateBotUserBlocked, contentSend, broadcastMessage_sendsTo_admin, -List.countP_eq_zero, hbl, hFS, hChat, hcr, hA1, hA2, hA3, hA4, hA5]
                  · by_cases hA0 : row.adminState = "none"
                    · by_cases hHJ : row.hasJoined = true
                      · simp only [runCreated, createdHandler, run_bind, run_pure, getDb, setDb, emit, emitAll, tgSend, tgSendNoAwait, tgSendKb, tgAnswerCb, liftE, M.pure, M.bind, throwM, saveRowState, Update.sender, Update.chatId, okTransport, hFind, hFS]
                        simp [run_bind, run_pure, getDb, setDb, emit, emitAll, M.pure, M.bind, liftE, throwM, saveRowState, sendsTo, isSendTo, List.countP_append, countRows_saveBotUser, countRows_updateBotUserBlocked, contentSend, broadcastMessage_sendsTo_admin, -List.countP_eq_zero, hbl, hFS, hChat, hcr, hA1, hA2, hA3, hA4, hA5, hA0, hHJ]
                      · simp only [runCreated, createdHandler, run_bind, run_pure, getDb, setDb, emit, emitAll, tgSend, tgSendNoAwait, tgSendKb, tgAnswerCb, liftE, M.pure, M.bind, throwM, saveRowState, Update.sender, Update.chatId, okTransport, hFind, hFS]
                        simp [run_bind, run_pure, getDb, setDb, emit, emitAll, M.pure, M.bind, liftE, throwM, saveRowState, sendsTo, isSendTo, List.countP_append, countRows_saveBotUser, countRows_updateBotUserBlocked, contentSend, broadcastMessage_sendsTo_admin, -List.countP_eq_zero, hbl, hFS, hChat, hcr, hA1, hA2, hA3, hA4, hA5, hA0, hHJ]
                    · simp only [runCreated, createdHandler, run_bind, run_pure, getDb, setDb, emit, emitAll, tgSend, tgSendNoAwait, tgSendKb, tgAnswerCb, liftE, M.pure, M.bind, throwM, saveRowState, Update.sender, Update.chatId, okTransport, hFind, hFS]
                      simp [run_bind, run_pure, getDb, setDb, emit, emitAll, M.pure, M.bind, liftE, throwM, saveRowState, sendsTo, isSendTo, List.countP_append, countRows_saveBotUser, countRows_updateBotUserBlocked, contentSend, broadcastMessage_sendsTo_admin, -List.countP_eq_zero, hbl, hFS, hChat, hcr, hA1, hA2, hA3, hA4, hA5, hA0]
        | voice a =>
          by_cases hA1 : row.adminState = "admin_panel"
          · simp only [runCreated, createdHandler, run_bind, run_pure, getDb, setDb, emit, emitAll, tgSend, tgSendNoAwait, tgSendKb, tgAnswerCb, liftE, M.pure, M.bind, throwM, saveRowState, Update.sender, Update.chatId, okTransport, hFind, hFS]
            simp [run_bind, run_pure, getDb, setDb, emit, emitAll, M.pure, M.bind, liftE, throwM, saveRowState, sendsTo, isSendTo, List.countP_append, countRows_saveBotUser, countRows_updateBotUserBlocked, contentSend, broadcastMessage_sendsTo_admin, -List.countP_eq_zero, hbl, hFS, hChat, hcr, hA1]
          · by_cases hA2 : row.adminState = "awaiting_broadcast"
            · simp only [runCreated, createdHandler, run_bind, run_pure, getDb, setDb, emit, emitAll, tgSend, tgSendNoAwait, tgSendKb, tgAnswerCb, liftE, M.pure, M.bind, throwM, saveRowState, Update.sender, Update.chatId, okTransport, hFind, hFS]
              simp [run_bind, run_pure, getDb, setDb, emit, emitAll, M.pure, M.bind, liftE, throwM, saveRowState, sendsTo, isSendTo, List.countP_append, countRows_saveBotUser, countRows_updateBotUserBlocked, contentSend, broadcastMessage_sendsTo_admin, -List.countP_eq_zero, hbl, hFS, hChat, hcr, hA1, hA2]
            · by_cases hA3 : row.adminState = "awaiting_channel"
              · simp only [runCreated, createdHandler, run_bind, run_pure, getDb, setDb, emit, emitAll, tgSend, tgSendNoAwait, tgSendKb, tgAnswerCb, liftE, M.pure, M.bind, throwM, saveRowState, Update.sender, Update.chatId, okTransport, hFind, hFS]
                simp [run_bind, run_pure, getDb, setDb, emit, emitAll, M.pure, M.bind, liftE, throwM, saveRowState, sendsTo, isSendTo, List.countP_append, countRows_saveBotUser, countRows_updateBotUserBlocked, contentSend, broadcastMessage_sendsTo_admin, -List.countP_eq_zero, hbl, hFS, hChat, hcr, hA1, hA2, hA3]
              · by_cases hA4 : row.adminState = "awaiting_block"
                · simp only [runCreated, createdHandler, run_bind, run_pure, getDb, setDb, emit, emitAll, tgSend, tgSendNoAwait, tgSendKb, tgAnswerCb, liftE, M.pure, M.bind, throwM, saveRowState, Update.sender, Update.chatId, okTransport, hFind, hFS]
                  simp [run_bind, run_pure, getDb, setDb, emit, emitAll, M.pure, M.bind, liftE, throwM, saveRowState, sendsTo, isSendTo, List.countP_append, countRows_saveBotUser, countRows_updateBotUserBlocked, contentSend, broadcastMessage_sendsTo_admin, -List.countP_eq_zero, hbl, hFS, hChat, hcr, hA1, hA2, hA3, hA4]
                · by_cases hA5 : row.adminState = "awaiting_unlock"
                  · simp only [runCreated, createdHandler, run_bind, run_pure, getDb, setDb, emit, emitAll, tgSend, tgSendNoAwait, tgSendKb, tgAnswerCb, liftE, M.pure, M.bind, throwM, saveRowState, Update.sender, Update.chatId, okTransport, hFind, hFS]
                    simp [run_bind, run_pure, getDb, setDb, emit, emitAll, M.pure, M.bind, liftE, throwM, saveRowState, sendsTo, isSendTo, List.countP_append, countRows_saveBotUser, countRows_updateBotUserBlocked, contentSend, broadcastMessage_sendsTo_admin, -List.countP_eq_zero, hbl, hFS, hChat, hcr, hA1, hA2, hA3, hA4, hA5]
                  · by_cases hA0 : row.adminState = "none"
                    · by_cases hHJ : row.hasJoined = true
                      · simp only [runCreated, createdHandler, run_bind, run_pure, getDb, setDb, emit, emitAll, tgSend, tgSendNoAwait, tgSendKb, tgAnswerCb, liftE, M.pure, M.bind, throwM, saveRowState, Update.sender, Update.chatId, okTransport, hFind, hFS]
                        simp [run_bind, run_pure, getDb, setDb, emit, emitAll, M.pure, M.bind, liftE, throwM, saveRowState, sendsTo, isSendTo, List.countP_append, countRows_saveBotUser, countRows_updateBotUserBlocked, contentSend, broadcastMessage_sendsTo_admin, -List.countP_eq_zero, hbl, hFS, hChat, hcr, hA1, hA2, hA3, hA4, hA5, hA0, hHJ]
                      · simp only [runCreated, createdHandler, run_bind, run_pure, getDb, setDb, emit, emitAll, tgSend, tgSendNoAwait, tgSendKb, tgAnswerCb, liftE, M.pure, M.bind, throwM, saveRowState, Update.sender, Update.chatId, okTransport, hFind, hFS]
                        simp [run_bind, run_pure, getDb, setDb, emit, emitAll, M.pure, M.bind, liftE, throwM, saveRowState, sendsTo, isSendTo, List.countP_append, countRows_saveBotUser, countRows_updateBotUserBlocked, contentSend, broadcastMessage_sendsTo_admin, -List.countP_eq_zero, hbl, hFS, hChat, hcr, hA1, hA2, hA3, hA4, hA5, hA0, hHJ]
                    · simp only [runCreated, createdHandler, run_bind, run_pure, getDb, setDb, emit, emitAll, tgSend, tgSendNoAwait, tgSendKb, tgAnswerCb, liftE, M.pure, M.bind, throwM, saveRowState, Update.sender, Update.chatId, okTransport, hFind, hFS]
                      simp [run_bind, run_pure, getDb, setDb, emit, emitAll, M.pure, M.bind, liftE, throwM, saveRowState, sendsTo, isSendTo, List.countP_append, countRows_saveBotUser, countRows_updateBotUserBlocked, contentSend, broadcastMessage_sendsTo_admin, -List.countP_eq_zero, hbl, hFS, hChat, hcr, hA1, hA2, hA3, hA4, hA5, hA0]
        | sticker a =>
          by_cases hA1 : row.adminState = "admin_panel"
          · simp only [runCreated, createdHandler, run_bind, run_pure, getDb, setDb, emit, emitAll, tgSend, tgSendNoAwait, tgSendKb, tgAnswerCb, liftE, M.pure, M.bind, throwM, saveRowState, Update.sender, Update.chatId, okTransport, hFind, hFS]
            simp [run_bind, run_pure, getDb, setDb, emit, emitAll, M.pure, M.bind, liftE, throwM, saveRowState, sendsTo, isSendTo, List.countP_append, countRows_saveBotUser, countRows_updateBotUserBlocked, contentSend, broadcastMessage_sendsTo_admin, -List.countP_eq_zero, hbl, hFS, hChat, hcr, hA1]
          · by_cases hA2 : row.adminState = "awaiting_broadcast"
            · simp only [runCreated, createdHandler, run_bind, run_pure, getDb, setDb, emit, emitAll, tgSend, tgSendNoAwait, tgSendKb, tgAnswerCb, liftE, M.pure, M.bind, throwM, saveRowState, Update.sender, Update.chatId, okTransport, hFind, hFS]
              simp [run_bind, run_pure, getDb, setDb, emit, emitAll, M.pure, M.bind, liftE, throwM, saveRowState, sendsTo, isSendTo, List.countP_append, countRows_saveBotUser, countRows_updateBotUserBlocked, contentSend, broadcastMessage_sendsTo_admin, -List.countP_eq_zero, hbl, hFS, hChat, hcr, hA1, hA2]
            · by_cases hA3 : row.adminState = "awaiting_channel"
              · simp only [runCreated, createdHandler, run_bind, run_pure, getDb, setDb, emit, emitAll, tgSend, tgSendNoAwait, tgSendKb, tgAnswerCb, liftE, M.pure, M.bind, throwM, saveRowState, Update.sender, Update.chatId, okTransport, hFind, hFS]
                simp [run_bind, run_pure, getDb, setDb, emit, emitAll, M.pure, M.bind, liftE, throwM, saveRowState, sendsTo, isSendTo, List.countP_append, countRows_saveBotUser, countRows_updateBotUserBlocked, contentSend, broadcastMessage_sendsTo_admin, -List.countP_eq_zero, hbl, hFS, hChat, hcr, hA1, hA2, hA3]
              · by_cases hA4 : row.adminState = "awaiting_block"
                · simp only [runCreated, createdHandler, run_bind, run_pure, getDb, setDb, emit, emitAll, tgSend, tgSendNoAwait, tgSendKb, tgAnswerCb, liftE, M.pure, M.bind, throwM, saveRowState, Update.sender, Update.chatId, okTransport, hFind, hFS]
                  simp [run_bind, run_pure, getDb, setDb, emit, emitAll, M.pure, M.bind, liftE, throwM, saveRowState, sendsTo, isSendTo, List.countP_append, countRows_saveBotUser, countRows_updateBotUserBlocked, contentSend, broadcastMessage_sendsTo_admin, -List.countP_eq_zero, hbl, hFS, hChat, hcr, hA1, hA2, hA3, hA4]
                · by_cases hA5 : row.adminState = "awaiting_unlock"
                  · simp only [runCreated, createdHandler, run_bind, run_pure, getDb, setDb, emit, emitAll, tgSend, tgSendNoAwait, tgSendKb, tgAnswerCb, liftE, M.pure, M.bind, throwM, saveRowState, Update.sender, Update.chatId, okTransport, hFind, hFS]
                    simp [run_bind, run_pure, getDb, setDb, emit, emitAll, M.pure, M.bind, liftE, throwM, saveRowState, sendsTo, isSendTo, List.countP_append, countRows_saveBotUser, countRows_updateBotUserBlocked, contentSend, broadcastMessage_sendsTo_admin, -List.countP_eq_zero, hbl, hFS, hChat, hcr, hA1, hA2, hA3, hA4, hA5]
                  · by_cases hA0 : row.adminState = "none"
                    · by_cases hHJ : row.hasJoined = true
                      · simp only [runCreated, createdHandler, run_bind, run_pure, getDb, setDb, emit, emitAll, tgSend, tgSendNoAwait, tgSendKb, tgAnswerCb, liftE, M.pure, M.bind, throwM, saveRowState, Update.sender, Update.chatId, okTransport, hFind, hFS]
                        simp [run_bind, run_pure, getDb, setDb, emit, emitAll, M.pure, M.bind, liftE, throwM, saveRowState, sendsTo, isSendTo, List.countP_append, countRows_saveBotUser, countRows_updateBotUserBlocked, contentSend, broadcastMessage_sendsTo_admin, -List.countP_eq_zero, hbl, hFS, hChat, hcr, hA1, hA2, hA3, hA4, hA5, hA0, hHJ]
                      · simp only [runCreated, createdHandler, run_bind, run_pure, getDb, setDb, emit, emitAll, tgSend, tgSendNoAwait, tgSendKb, tgAnswerCb, liftE, M.pure, M.bind, throwM, saveRowState, Update.sender, Update.chatId, okTransport, hFind, hFS]
                        simp [run_bind, run_pure, getDb, setDb, emit, emitAll, M.pure, M.bind, liftE, throwM, saveRowState, sendsTo, isSendTo, List.countP_append, countRows_saveBotUser, countRows_updateBotUserBlocked, contentSend, broadcastMessage_sendsTo_admin, -List.countP_eq_zero, hbl, hFS, hChat, hcr, hA1, hA2, hA3, hA4, hA5, hA0, hHJ]
                    · simp only [runCreated, createdHandler, run_bind, run_pure, getDb, setDb, emit, emitAll, tgSend, tgSendNoAwait, tgSendKb, tgAnswerCb, liftE, M.pure, M.bind, throwM, saveRowState, Update.sender, Update.chatId, okTransport, hFind, hFS]
                      simp [run_bind, run_pure, getDb, setDb, emit, emitAll, M.pure, M.bind, liftE, throwM, saveRowState, sendsTo, isSendTo, List.countP_append, countRows_saveBotUser, countRows_updateBotUserBlocked, contentSend, broadcastMessage_sendsTo_admin, -List.countP_eq_zero, hbl, hFS, hChat, hcr, hA1, hA2, hA3, hA4, hA5, hA0]
        | other =>
          by_cases hA1 : row.adminState = "admin_panel"
          · simp only [runCreated, createdHandler, run_bind, run_pure, getDb, setDb, emit, emitAll, tgSend, tgSendNoAwait, tgSendKb, tgAnswerCb, liftE, M.pure, M.bind, throwM, saveRowState, Update.sender, Update.chatId, okTransport, hFind, hFS]
            simp [run_bind, run_pure, getDb, setDb, emit, emitAll, M.pure, M.bind, liftE, throwM, saveRowState, sendsTo, isSendTo, List.countP_append, countRows_saveBotUser, countRows_updateBotUserBlocked, contentSend, broadcastMessage_sendsTo_admin, -List.countP_eq_zero, hbl, hFS, hChat, hcr, hA1]
          · by_cases hA2 : row.adminState = "awaiting_broadcast"
            · simp only [runCreated, createdHandler, run_bind, run_pure, getDb, setDb, emit, emitAll, tgSend, tgSendNoAwait, tgSendKb, tgAnswerCb, liftE, M.pure, M.bind, throwM, saveRowState, Update.sender, Update.chatId, okTransport, hFind, hFS]
              simp [run_bind, run_pure, getDb, setDb, emit, emitAll, M.pure, M.bind, liftE, throwM, saveRowState, sendsTo, isSendTo, List.countP_append, countRows_saveBotUser, countRows_updateBotUserBlocked, contentSend, broadcastMessage_sendsTo_admin, -List.countP_eq_zero, hbl, hFS, hChat, hcr, hA1, hA2]
            · by_cases hA3 : row.adminState = "awaiting_channel"
              · simp only [runCreated, createdHandler, run_bind, run_pure, getDb, setDb, emit, emitAll, tgSend, tgSendNoAwait, tgSendKb, tgAnswerCb, liftE, M.pure, M.bind, throwM, saveRowState, Update.sender, Update.chatId, okTransport, hFind, hFS]
                simp [run_bind, run_pure, getDb, setDb, emit, emitAll, M.pure, M.bind, liftE, throwM, saveRowState, sendsTo, isSendTo, List.countP_append, countRows_saveBotUser, countRows_updateBotUserBlocked, contentSend, broadcastMessage_sendsTo_admin, -List.countP_eq_zero, hbl, hFS, hChat, hcr, hA1, hA2, hA3]
              · by_cases hA4 : row.adminState = "awaiting_block"
                · simp only [runCreated, createdHandler, run_bind, run_pure, getDb, setDb, emit, emitAll, tgSend, tgSendNoAwait, tgSendKb, tgAnswerCb, liftE, M.pure, M.bind, throwM, saveRowState, Update.sender, Update.chatId, okTransport, hFind, hFS]
                  simp [run_bind, run_pure, getDb, setDb, emit, emitAll, M.pure, M.bind, liftE, throwM, saveRowState, sendsTo, isSendTo, List.countP_append, countRows_saveBotUser, countRows_updateBotUserBlocked, contentSend, broadcastMessage_sendsTo_admin, -List.countP_eq_zero, hbl, hFS, hChat, hcr, hA1, hA2, hA3, hA4]
                · by_cases hA5 : row.adminState = "awaiting_unlock"
                  · simp only [runCreated, createdHandler, run_bind, run_pure, getDb, setDb, emit, emitAll, tgSend, tgSendNoAwait, tgSendKb, tgAnswerCb, liftE, M.pure, M.bind, throwM, saveRowState, Update.sender, Update.chatId, okTransport, hFind, hFS]
                    simp [run_bind, run_pure, getDb, setDb, emit, emitAll, M.pure, M.bind, liftE, throwM, saveRowState, sendsTo, isSendTo, List.countP_append, countRows_saveBotUser, countRows_updateBotUserBlocked, contentSend, broadcastMessage_sendsTo_admin, -List.countP_eq_zero, hbl, hFS, hChat, hcr, hA1, hA2, hA3, hA4, hA5]
                  · by_cases hA0 : row.adminState = "none"
                    · by_cases hHJ : row.hasJoined = true
                      · simp only [runCreated, createdHandler, run_bind, run_pure, getDb, setDb, emit, emitAll, tgSend, tgSendNoAwait, tgSendKb, tgAnswerCb, liftE, M.pure, M.bind, throwM, saveRowState, Update.sender, Update.chatId, okTransport, hFind, hFS]
                        simp [run_bind, run_pure, getDb, setDb, emit, emitAll, M.pure, M.bind, liftE, throwM, saveRowState, sendsTo, isSendTo, List.countP_append, countRows_saveBotUser, countRows_updateBotUserBlocked, contentSend, broadcastMessage_sendsTo_admin, -List.countP_eq_zero, hbl, hFS, hChat, hcr, hA1, hA2, hA3, hA4, hA5, hA0, hHJ]
                      · simp only [runCreated, createdHandler, run_bind, run_pure, getDb, setDb, emit, emitAll, tgSend, tgSendNoAwait, tgSendKb, tgAnswerCb, liftE, M.pure, M.bind, throwM, saveRowState, Update.sender, Update.chatId, okTransport, hFind, hFS]
                        simp [run_bind, run_pure, getDb, setDb, emit, emitAll, M.pure, M.bind, liftE, throwM, saveRowState, sendsTo, isSendTo, List.countP_append, countRows_saveBotUser, countRows_updateBotUserBlocked, contentSend, broadcastMessage_sendsTo_admin, -List.countP_eq_zero, hbl, hFS, hChat, hcr, hA1, hA2, hA3, hA4, hA5, hA0, hHJ]
                    · simp only [runCreated, createdHandler, run_bind, run_pure, getDb, setDb, emit, emitAll, tgSend, tgSendNoAwait, tgSendKb, tgAnswerCb, liftE, M.pure, M.bind, throwM, saveRowState, Update.sender, Update.chatId, okTransport, hFind, hFS]
                      simp [run_bind, run_pure, getDb, setDb, emit, emitAll, M.pure, M.bind, liftE, throwM, saveRowState, sendsTo, isSendTo, List.countP_append, countRows_saveBotUser, countRows_updateBotUserBlocked, contentSend, broadcastMessage_sendsTo_admin, -List.countP_eq_zero, hbl, hFS, hChat, hcr, hA1, hA2, hA3, hA4, hA5, hA0]
      · have hnb : row.isBlocked = false := by
          rcases Bool.eq_false_or_eq_true row.isBlocked with h | h
          · exact absurd (And.intro h hcr) hbl
          · exact h
        cases content with
        | text str =>
          by_cases h1 : str = "/start"
          · by_cases hHJ : row.hasJoined = true
            · simp only [runCreated, createdHandler, run_bind, run_pure, getDb, setDb, emit, emitAll, tgSend, tgSendNoAwait, tgSendKb, tgAnswerCb, liftE, M.pure, M.bind, throwM, saveRowState, Update.sender, Update.chatId, okTransport, hFind, hFS]
              simp [run_bind, run_pure, getDb, setDb, emit, emitAll, M.pure, M.bind, liftE, throwM, saveRowState, sendsTo, isSendTo, List.countP_append, countRows_saveBotUser, countRows_updateBotUserBlocked, contentSend, broadcastMessage_sendsTo_admin, -List.countP_eq_zero, hbl, hFS, hChat, hcr, hnb, h1, hHJ]
            · simp only [runCreated, createdHandler, run_bind, run_pure, getDb, setDb, emit, emitAll, tgSend, tgSendNoAwait, tgSendKb, tgAnswerCb, liftE, M.pure, M.bind, throwM, saveRowState, Update.sender, Update.chatId, okTransport, hFind, hFS]
              simp [run_bind, run_pure, getDb, setDb, emit, emitAll, M.pure, M.bind, liftE, throwM, saveRowState, sendsTo, isSendTo, List.countP_append, countRows_saveBotUser, countRows_updateBotUserBlocked, contentSend, broadcastMessage_sendsTo_admin, -List.countP_eq_zero, hbl, hFS, hChat, hcr, hnb, h1, hHJ]
          · by_cases h2 : str = "/panel"
            · simp only [runCreated, createdHandler, run_bind, run_pure, getDb, setDb, emit, emitAll, tgSend, tgSendNoAwait, tgSendKb, tgAnswerCb, liftE, M.pure, M.bind, throwM, saveRowState, Update.sender, Update.chatId, okTransport, hFind, hFS]
              simp [run_bind, run_pure, getDb, setDb, emit, emitAll, M.pure, M.bind, liftE, throwM, saveRowState, sendsTo, isSendTo, List.countP_append, countRows_saveBotUser, countRows_updateBotUserBlocked, contentSend, broadcastMessage_sendsTo_admin, -List.countP_eq_zero, hbl, hFS, hChat, hcr, hnb, h1, h2]
            · by_cases hA0 : row.adminState = "none"
              · by_cases hHJ : row.hasJoined = true
                · simp only [runCreated, createdHandler, run_bind, run_pure, getDb, setDb, emit, emitAll, tgSend, tgSendNoAwait, tgSendKb, tgAnswerCb, liftE, M.pure, M.bind, throwM, saveRowState, Update.sender, Update.chatId, okTransport, hFind, hFS]
                  simp [run_bind, run_pure, getDb, setDb, emit, emitAll, M.pure, M.bind, liftE, throwM, saveRowState, sendsTo, isSendTo, List.countP_append, countRows_saveBotUser, countRows_updateBotUserBlocked, contentSend, broadcastMessage_sendsTo_admin, -List.countP_eq_zero, hbl, hFS, hChat, hcr, hnb, h1, h2, hA0, hHJ]
                · simp only [runCreated, createdHandler, run_bind, run_pure, getDb, setDb, emit, emitAll, tgSend, tgSendNoAwait, tgSendKb, tgAnswerCb, liftE, M.pure, M.bind, throwM, saveRowState, Update.sender, Update.chatId, okTransport, hFind, hFS]
                  simp [run_bind, run_pure, getDb, setDb, emit, emitAll, M.pure, M.bind, liftE, throwM, saveRowState, sendsTo, isSendTo, List.countP_append, countRows_saveBotUser, countRows_updateBotUserBlocked, contentSend, broadcastMessage_sendsTo_admin, -List.countP_eq_zero, hbl, hFS, hChat, hcr, hnb, h1, h2, hA0, hHJ]
              · simp only [runCreated, createdHandler, run_bind, run_pure, getDb, setDb, emit, emitAll, tgSend, tgSendNoAwait, tgSendKb, tgAnswerCb, liftE, M.pure, M.bind, throwM, saveRowState, Update.sender, Update.chatId, okTransport, hFind, hFS]
                simp [run_bind, run_pure, getDb, setDb, emit, emitAll, M.pure, M.bind, liftE, throwM, saveRowState, sendsTo, isSendTo, List.countP_append, countRows_saveBotUser, countRows_updateBotUserBlocked, contentSend, broadcastMessage_sendsTo_admin, -List.countP_eq_zero, hbl, hFS, hChat, hcr, hnb, h1, h2, hA0]
        | photo a b =>
          by_cases hA0 : row.adminState = "none"
          · by_cases hHJ : row.hasJoined = true
            · simp only [runCreated, createdHandler, run_bind, run_pure, getDb, setDb, emit, emitAll, tgSend, tgSendNoAwait, tgSendKb, tgAnswerCb, liftE, M.pure, M.bind, throwM, saveRowState, Update.sender, Update.chatId, okTransport, hFind, hFS]
              simp [run_bind, run_pure, getDb, setDb, emit, emitAll, M.pure, M.bind, liftE, throwM, saveRowState, sendsTo, isSendTo, List.countP_append, countRows_saveBotUser, countRows_updateBotUserBlocked, contentSend, broadcastMessage_sendsTo_admin, -List.countP_eq_zero, hbl, hFS, hChat, hcr, hnb, hA0, hHJ]
            · simp only [runCreated, createdHandler, run_bind, run_pure, getDb, setDb, emit, emitAll, tgSend, tgSendNoAwait, tgSendKb, tgAnswerCb, liftE, M.pure, M.bind, throwM, saveRowState, Update.sender, Update.chatId, okTransport, hFind, hFS]
              simp [run_bind, run_pure, getDb, setDb, emit, emitAll, M.pure, M.bind, liftE, throwM, saveRowState, sendsTo, isSendTo, List.countP_append, countRows_saveBotUser, countRows_updateBotUserBlocked, contentSend, broadcastMessage_sendsTo_admin, -List.countP_eq_zero, hbl, hFS, hChat, hcr, hnb, hA0, hHJ]
          · simp only [runCreated, createdHandler, run_bind, run_pure, getDb, setDb, emit, emitAll, tgSend, tgSendNoAwait, tgSendKb, tgAnswerCb, liftE, M.pure, M.bind, throwM, saveRowState, Update.sender, Update.chatId, okTransport, hFind, hFS]
            simp [run_bind, run_pure, getDb, setDb, emit, emitAll, M.pure, M.bind, liftE, throwM, saveRowState, sendsTo, isSendTo, List.countP_append, countRows_saveBotUser, countRows_updateBotUserBlocked, contentSend, broadcastMessage_sendsTo_admin, -List.countP_eq_zero, hbl, hFS, hChat, hcr, hnb, hA0]
        | document a b =>
          by_cases hA0 : row.adminState = "none"
          · by_cases hHJ : row.hasJoined = true
            · simp only [runCreated, createdHandler, run_bind, run_pure, getDb, setDb, emit, emitAll, tgSend, tgSendNoAwait, tgSendKb, tgAnswerCb, liftE, M.pure, M.bind, throwM, saveRowState, Update.sender, Update.chatId, okTransport, hFind, hFS]
              simp [run_bind, run_pure, getDb, setDb, emit, emitAll, M.pure, M.bind, liftE, throwM, saveRowState, sendsTo, isSendTo, List.countP_append, countRows_saveBotUser, countRows_updateBotUserBlocked, contentSend, broadcastMessage_sendsTo_admin, -List.countP_eq_zero, hbl, hFS, hChat, hcr, hnb, hA0, hHJ]
            · simp only [runCreated, createdHandler, run_bind, run_pure, getDb, setDb, emit, emitAll, tgSend, tgSendNoAwait, tgSendKb, tgAnswerCb, liftE, M.pure, M.bind, throwM, saveRowState, Update.sender, Update.chatId, okTransport, hFind, hFS]
              simp [run_bind, run_pure, getDb, setDb, emit, emitAll, M.pure, M.bind, liftE, throwM, saveRowState, sendsTo, isSendTo, List.countP_append, countRows_saveBotUser, countRows_updateBotUserBlocked, contentSend, broadcastMessage_sendsTo_admin, -List.countP_eq_zero, hbl, hFS, hChat, hcr, hnb, hA0, hHJ]
          · simp only [runCreated, createdHandler, run_bind, run_pure, getDb, setDb, emit, emitAll, tgSend, tgSendNoAwait, tgSendKb, tgAnswerCb, liftE, M.pure, M.bind, throwM, saveRowState, Update.sender, Update.chatId, okTransport, hFind, hFS]
            simp [run_bind, run_pure, getDb, setDb, emit, emitAll, M.pure, M.bind, liftE, throwM, saveRowState, sendsTo, isSendTo, List.countP_append, countRows_saveBotUser, countRows_updateBotUserBlocked, contentSend, broadcastMessage_sendsTo_admin, -List.countP_eq_zero, hbl, hFS, hChat, hcr, hnb, hA0]
        | video a b =>
          by_cases hA0 : row.adminState = "none"
          · by_cases hHJ : row.hasJoined = true
            · simp only [runCreated, createdHandler, run_bind, run_pure, getDb, setDb, emit, emitAll, tgSend, tgSendNoAwait, tgSendKb, tgAnswerCb, liftE, M.pure, M.bind, throwM, saveRowState, Update.sender, Update.chatId, okTransport, hFind, hFS]
              simp [run_bind, run_pure, getDb, setDb, emit, emitAll, M.pure, M.bind, liftE, throwM, saveRowState, sendsTo, isSendTo, List.countP_append, countRows_saveBotUser, countRows_updateBotUserBlocked, contentSend, broadcastMessage_sendsTo_admin, -List.countP_eq_zero, hbl, hFS, hChat, hcr, hnb, hA0, hHJ]
            · simp only [runCreated, createdHandler, run_bind, run_pure, getDb, setDb, emit, emitAll, tgSend, tgSendNoAwait, tgSendKb, tgAnswerCb, liftE, M.pure, M.bind, throwM, saveRowState, Update.sender, Update.chatId, okTransport, hFind, hFS]
              simp [run_bind, run_pure, getDb, setDb, emit, emitAll, M.pure, M.bind, liftE, throwM, saveRowState, sendsTo, isSendTo, List.countP_append, countRows_saveBotUser, countRows_updateBotUserBlocked, contentSend, broadcastMessage_sendsTo_admin, -List.countP_eq_zero, hbl, hFS, hChat, hcr, hnb, hA0, hHJ]
          · simp only [runCreated, createdHandler, run_bind, run_pure, getDb, setDb, emit, emitAll, tgSend, tgSendNoAwait, tgSendKb, tgAnswerCb, liftE, M.pure, M.bind, throwM, saveRowState, Update.sender, Update.chatId, okTransport, hFind, hFS]
            simp [run_bind, run_pure, getDb, setDb, emit, emitAll, M.pure, M.bind, liftE, throwM, saveRowState, sendsTo, isSendTo, List.countP_append, countRows_saveBotUser, countRows_updateBotUserBlocked, contentSend, broadcastMessage_sendsTo_admin, -List.countP_eq_zero, hbl, hFS, hChat, hcr, hnb, hA0]
        | audio a b =>
          by_cases hA0 : row.adminState = "none"
          · by_cases hHJ : row.hasJoined = true
            · simp only [runCreated, createdHandler, run_bind, run_pure, getDb, setDb, emit, emitAll, tgSend, tgSendNoAwait, tgSendKb, tgAnswerCb, liftE, M.pure, M.bind, throwM, saveRowState, Update.sender, Update.chatId, okTransport, hFind, hFS]
              simp [run_bind, run_pure, getDb, setDb, emit, emitAll, M.pure, M.bind, liftE, throwM, saveRowState, sendsTo, isSendTo, List.countP_append, countRows_saveBotUser, countRows_updateBotUserBlocked, contentSend, broadcastMessage_sendsTo_admin, -List.countP_eq_zero, hbl, hFS, hChat, hcr, hnb, hA0, hHJ]
            · simp only [runCreated, createdHandler, run_bind, run_pure, getDb, setDb, emit, emitAll, tgSend, tgSendNoAwait, tgSendKb, tgAnswerCb, liftE, M.pure, M.bind, throwM, saveRowState, Update.sender, Update.chatId, okTransport, hFind, hFS]
              simp [run_bind, run_pure, getDb, setDb, emit, emitAll, M.pure, M.bind, liftE, throwM, saveRowState, sendsTo, isSendTo, List.countP_append, countRows_saveBotUser, countRows_updateBotUserBlocked, contentSend, broadcastMessage_sendsTo_admin, -List.countP_eq_zero, hbl, hFS, hChat, hcr, hnb, hA0, hHJ]
          · simp only [runCreated, createdHandler, run_bind, run_pure, getDb, setDb, emit, emitAll, tgSend, tgSendNoAwait, tgSendKb, tgAnswerCb, liftE, M.pure, M.bind, throwM, saveRowState, Update.sender, Update.chatId, okTransport, hFind, hFS]
            simp [run_bind, run_pure, getDb, setDb, emit, emitAll, M.pure, M.bind, liftE, throwM, saveRowState, sendsTo, isSendTo, List.countP_append, countRows_saveBotUser, countRows_updateBotUserBlocked, contentSend, broadcastMessage_sendsTo_admin, -List.countP_eq_zero, hbl, hFS, hChat, hcr, hnb, hA0]
        | voice a =>
          by_cases hA0 : row.adminState = "none"
          · by_cases hHJ : row.hasJoined = true
            · simp only [runCreated, createdHandler, run_bind, run_pure, getDb, setDb, emit, emitAll, tgSend, tgSendNoAwait, tgSendKb, tgAnswerCb, liftE, M.pure, M.bind, throwM, saveRowState, Update.sender, Update.chatId, okTransport, hFind, hFS]
              simp [run_bind, run_pure, getDb, setDb, emit, emitAll, M.pure, M.bind, liftE, throwM, saveRowState, sendsTo, isSendTo, List.countP_append, countRows_saveBotUser, countRows_updateBotUserBlocked, contentSend, broadcastMessage_sendsTo_admin, -List.countP_eq_zero, hbl, hFS, hChat, hcr, hnb, hA0, hHJ]
            · simp only [runCreated, createdHandler, run_bind, run_pure, getDb, setDb, emit, emitAll, tgSend, tgSendNoAwait, tgSendKb, tgAnswerCb, liftE, M.pure, M.bind, throwM, saveRowState, Update.sender, Update.chatId, okTransport, hFind, hFS]
              simp [run_bind, run_pure, getDb, setDb, emit, emitAll, M.pure, M.bind, liftE, throwM, saveRowState, sendsTo, isSendTo, List.countP_append, countRows_saveBotUser, countRows_updateBotUserBlocked, contentSend, broadcastMessage_sendsTo_admin, -List.countP_eq_zero, hbl, hFS, hChat, hcr, hnb, hA0, hHJ]
          · simp only [runCreated, createdHandler, run_bind, run_pure, getDb, setDb, emit, emitAll, tgSend, tgSendNoAwait, tgSendKb, tgAnswerCb, liftE, M.pure, M.bind, throwM, saveRowState, Update.sender, Update.chatId, okTransport, hFind, hFS]
            simp [run_bind, run_pure, getDb, setDb, emit, emitAll, M.pure, M.bind, liftE, throwM, saveRowState, sendsTo, isSendTo, List.countP_append, countRows_saveBotUser, countRows_updateBotUserBlocked, contentSend, broadcastMessage_sendsTo_admin, -List.countP_eq_zero, hbl, hFS, hChat, hcr, hnb, hA0]
        | sticker a =>
          by_cases hA0 : row.adminState = "none"
          · by_cases hHJ : row.hasJoined = true
            · simp only [runCreated, createdHandler, run_bind, run_pure, getDb, setDb, emit, emitAll, tgSend, tgSendNoAwait, tgSendKb, tgAnswerCb, liftE, M.pure, M.bind, throwM, saveRowState, Update.sender, Update.chatId, okTransport, hFind, hFS]
              simp [run_bind, run_pure, getDb, setDb, emit, emitAll, M.pure, M.bind, liftE, throwM, saveRowState, sendsTo, isSendTo, List.countP_append, countRows_saveBotUser, countRows_updateBotUserBlocked, contentSend, broadcastMessage_sendsTo_admin, -List.countP_eq_zero, hbl, hFS, hChat, hcr, hnb, hA0, hHJ]
            · simp only [runCreated, createdHandler, run_bind, run_pure, getDb, setDb, emit, emitAll, tgSend, tgSendNoAwait, tgSendKb, tgAnswerCb, liftE, M.pure, M.bind, throwM, saveRowState, Update.sender, Update.chatId, okTransport, hFind, hFS]
              simp [run_bind, run_pure, getDb, setDb, emit, emitAll, M.pure, M.bind, liftE, throwM, saveRowState, sendsTo, isSendTo, List.countP_append, countRows_saveBotUser, countRows_updateBotUserBlocked, contentSend, broadcastMessage_sendsTo_admin, -List.countP_eq_zero, hbl, hFS, hChat, hcr, hnb, hA0, hHJ]
          · simp only [runCreated, createdHandler, run_bind, run_pure, getDb, setDb, emit, emitAll, tgSend, tgSendNoAwait, tgSendKb, tgAnswerCb, liftE, M.pure, M.bind, throwM, saveRowState, Update.sender, Update.chatId, okTransport, hFind, hFS]
            simp [run_bind, run_pure, getDb, setDb, emit, emitAll, M.pure, M.bind, liftE, throwM, saveRowState, sendsTo, isSendTo, List.countP_append, countRows_saveBotUser, countRows_updateBotUserBlocked, contentSend, broadcastMessage_sendsTo_admin, -List.countP_eq_zero, hbl, hFS, hChat, hcr, hnb, hA0]
        | other =>
          by_cases hA0 : row.adminState = "none"
          · by_cases hHJ : row.hasJoined = true
            · simp only [runCreated, createdHandler, run_bind, run_pure, getDb, setDb, emit, emitAll, tgSend, tgSendNoAwait, tgSendKb, tgAnswerCb, liftE, M.pure, M.bind, throwM, saveRowState, Update.sender, Update.chatId, okTransport, hFind, hFS]
              simp [run_bind, run_pure, getDb, setDb, emit, emitAll, M.pure, M.bind, liftE, throwM, saveRowState, sendsTo, isSendTo, List.countP_append, countRows_saveBotUser, countRows_updateBotUserBlocked, contentSend, broadcastMessage_sendsTo_admin, -List.countP_eq_zero, hbl, hFS, hChat, hcr, hnb, hA0, hHJ]
            · simp only [runCreated, createdHandler, run_bind, run_pure, getDb, setDb, emit, emitAll, tgSend, tgSendNoAwait, tgSendKb, tgAnswerCb, liftE, M.pure, M.bind, throwM, saveRowState, Update.sender, Update.chatId, okTransport, hFind, hFS]
              simp [run_bind, run_pure, getDb, setDb, emit, emitAll, M.pure, M.bind, liftE, throwM, saveRowState, sendsTo, isSendTo, List.countP_append, countRows_saveBotUser, countRows_updateBotUserBlocked, contentSend, broadcastMessage_sendsTo_admin, -List.countP_eq_zero, hbl, hFS, hChat, hcr, hnb, hA0, hHJ]
          · simp only [runCreated, createdHandler, run_bind, run_pure, getDb, setDb, emit, emitAll, tgSend, tgSendNoAwait, tgSendKb, tgAnswerCb, liftE, M.pure, M.bind, throwM, saveRowState, Update.sender, Update.chatId, okTransport, hFind, hFS]
            simp [run_bind, run_pure, getDb, setDb, emit, emitAll, M.pure, M.bind, liftE, throwM, saveRowState, sendsTo, isSendTo, List.countP_append, countRows_saveBotUser, countRows_updateBotUserBlocked, contentSend, broadcastMessage_sendsTo_admin, -List.countP_eq_zero, hbl, hFS, hChat, hcr, hnb, hA0]

theorem countRows_of_findBotUser_none (db : List BotUserRow) (tok uid : String)
    (h : findBotUser db tok uid = none) : countRows db tok uid = 0 := by
  refine List.countP_eq_zero.mpr ?_
  intro x hx
  exact List.find?_eq_none.mp h x hx

theorem findBotUser_append_fresh (db : List BotUserRow) (r : BotUserRow) (tok uid : String)
    (hn : findBotUser db tok uid = none)
    (hk : (r.botToken == tok && r.userId == uid) = true) :
    findBotUser (db ++ [r]) tok uid = some r := by
  rw [findBotUser_append_one db r tok uid hn, if_pos hk]

theorem saveBotUser_key_mem (db : List BotUserRow) (v : BotUserRow) :
    ∀ x ∈ saveBotUser db v, x ∈ db ∨ x = v := by
  intro x hx
  rcases List.mem_map.mp hx with ⟨y, hy, he⟩
  by_cases h : (y.botToken == v.botToken && y.userId == v.userId) = true
  · right
    rw [← he]
    simp [h]
  · left
    have : (if (y.botToken == v.botToken && y.userId == v.userId) = true then v else y) = y := by
      simp [h]
    rw [← he, this]
    exact hy

theorem findBotUser_fresh1 (db : List BotUserRow) (r v : BotUserRow) (tok uid : String)
    (hn : findBotUser db tok uid = none)
    (hk : (r.botToken == tok && r.userId == uid) = true)
    (hvb : v.botToken = r.botToken) (hvu : v.userId = r.userId) :
    findBotUser (saveBotUser (db ++ [r]) v) tok uid = some v := by
  apply findBotUser_saveBotUser_same
  · have := (Bool.and_eq_true _ _).mp hk
    rw [hvb]
    exact beq_iff_eq.mp this.1
  · have := (Bool.and_eq_true _ _).mp hk
    rw [hvu]
    exact beq_iff_eq.mp this.2
  · rw [findBotUser_append_fresh db r tok uid hn hk]
    rfl

theorem findBotUser_fresh2 (db : List BotUserRow) (r v w : BotUserRow) (tok uid : String)
    (hn : findBotUser db tok uid = none)
    (hk : (r.botToken == tok && r.userId == uid) = true)
    (hvb : v.botToken = r.botToken) (hvu : v.userId = r.userId)
    (hwb : w.botToken = r.botToken) (hwu : w.userId = r.userId) :
    findBotUser (saveBotUser (saveBotUser (db ++ [r]) v) w) tok uid = some w := by
  apply findBotUser_saveBotUser_same
  · have := (Bool.and_eq_true _ _).mp hk
    rw [hwb]
    exact beq_iff_eq.mp this.1
  · have := (Bool.and_eq_true _ _).mp hk
    rw [hwu]
    exact beq_iff_eq.mp this.2
  · rw [findBotUser_fresh1 db r v tok uid hn hk hvb hvu]
    rfl

set_option maxHeartbeats 2000000 in
theorem created_first_contact (botInfo : BotRow) (upd : Update) (now : Nat) (db : CreatedDb)
    (hFind : findBotUser db.botUsers botInfo.token upd.sender.id = none)
    (hChat : (upd.chatId == botInfo.creatorId) = false) :
    sendsTo botInfo.creatorId (runCreated okTransport botInfo upd now db).2.2 = 1 ∧
    countRows (runCreated okTransport botInfo upd now db).2.1.botUsers
      botInfo.token upd.sender.id = 1 ∧
    ∃ r', findBotUser (runCreated okTransport botInfo upd now db).2.1.botUsers
        botInfo.token upd.sender.id = some r' ∧ r'.isFirstStart = false := by
  have hC0 := countRows_of_findBotUser_none db.botUsers botInfo.token upd.sender.id hFind
  cases upd with
  | callback s chat cbId data =>
    simp only [Update.sender, Update.chatId] at hFind hChat hC0
    by_cases hj : (data == "joined") = true
    · simp only [runCreated, createdHandler, run_bind, run_pure, getDb, setDb, emit,
        emitAll, tgSend, tgSendNoAwait, tgSendKb, tgAnswerCb, liftE, M.pure, M.bind,
        throwM, saveRowState, Update.sender, Update.chatId, okTransport, hFind, hj]
      simp [run_bind, run_pure, getDb, setDb, emit, emitAll, M.pure, M.bind, liftE,
        throwM, saveRowState, sendsTo, isSendTo, List.countP_append,
        countRows_saveBotUser, countRows_append_one, findBotUser_append_one,
        findBotUser_fresh1, findBotUser_fresh2, -List.countP_eq_zero, hFind, hC0, hChat, hj]
    · simp only [runCreated, createdHandler, run_bind, run_pure, getDb, setDb, emit,
        emitAll, tgSend, tgSendNoAwait, tgSendKb, tgAnswerCb, liftE, M.pure, M.bind,
        throwM, saveRowState, Update.sender, Update.chatId, okTransport, hFind, hj]
      simp [run_bind, run_pure, getDb, setDb, emit, emitAll, M.pure, M.bind, liftE,
        throwM, saveRowState, sendsTo, isSendTo, List.countP_append,
        countRows_saveBotUser, countRows_append_one, findBotUser_append_one,
        findBotUser_fresh1, findBotUser_fresh2, -List.countP_eq_zero, hFind, hC0, hChat, hj]
  | message s chat content =>
    simp only [Update.sender, Update.chatId] at hFind hChat hC0
    cases content with
    | text str =>
      by_cases h1 : str = "/start"
      · simp only [runCreated, createdHandler, run_bind, run_pure, getDb, setDb, emit,
          emitAll, tgSend, tgSendNoAwait, tgSendKb, tgAnswerCb, liftE, M.pure, M.bind,
          throwM, saveRowState, Update.sender, Update.chatId, okTransport, hFind, h1]
        simp [run_bind, run_pure, getDb, setDb, emit, emitAll, M.pure, M.bind, liftE,
          throwM, saveRowState, sendsTo, isSendTo, List.countP_append,
          countRows_saveBotUser, countRows_append_one, findBotUser_append_one,
          findBotUser_fresh1, findBotUser_fresh2, -List.countP_eq_zero, hFind, hC0, hChat, h1]
      · by_cases h2 : str = "/panel"
        · by_cases hcr : s.id = botInfo.creatorId
          · rw [hcr] at hFind hC0
            simp only [runCreated, createdHandler, run_bind, run_pure, getDb, setDb, emit,
              emitAll, tgSend, tgSendNoAwait, tgSendKb, tgAnswerCb, liftE, M.pure, M.bind,
              throwM, saveRowState, Update.sender, Update.chatId, okTransport, hFind]
            simp [run_bind, run_pure, getDb, setDb, emit, emitAll, M.pure, M.bind, liftE,
              throwM, saveRowState, sendsTo, isSendTo, List.countP_append,
              countRows_saveBotUser, countRows_append_one, findBotUser_append_one,
              findBotUser_fresh1, findBotUser_fresh2, -List.countP_eq_zero, hFind, hC0, hChat,
              h1, h2, hcr]
          · simp only [runCreated, createdHandler, run_bind, run_pure, getDb, setDb, emit,
              emitAll, tgSend, tgSendNoAwait, tgSendKb, tgAnswerCb, liftE, M.pure, M.bind,
              throwM, saveRowState, Update.sender, Update.chatId, okTransport, hFind]
            simp [run_bind, run_pure, getDb, setDb, emit, emitAll, M.pure, M.bind, liftE,
              throwM, saveRowState, sendsTo, isSendTo, List.countP_append,
              countRows_saveBotUser, countRows_append_one, findBotUser_append_one,
              findBotUser_fresh1, findBotUser_fresh2, -List.countP_eq_zero, hFind, hC0, hChat,
              h1, h2, hcr]
        · simp only [runCreated, createdHandler, run_bind, run_pure, getDb, setDb, emit,
            emitAll, tgSend, tgSendNoAwait, tgSendKb, tgAnswerCb, liftE, M.pure, M.bind,
            throwM, saveRowState, Update.sender, Update.chatId, okTransport, hFind]
          simp [run_bind, run_pure, getDb, setDb, emit, emitAll, M.pure, M.bind, liftE,
            throwM, saveRowState, sendsTo, isSendTo, List.countP_append,
            countRows_saveBotUser, countRows_append_one, findBotUser_append_one,
            findBotUser_fresh1, findBotUser_fresh2, -List.countP_eq_zero, hFind, hC0, hChat, h1, h2]
    | photo a b =>
      simp only [runCreated, createdHandler, run_bind, run_pure, getDb, setDb, emit,
        emitAll, tgSend, tgSendNoAwait, tgSendKb, tgAnswerCb, liftE, M.pure, M.bind,
        throwM, saveRowState, Update.sender, Update.chatId, okTransport, hFind]
      simp [run_bind, run_pure, getDb, setDb, emit, emitAll, M.pure, M.bind, liftE,
        throwM, saveRowState, sendsTo, isSendTo, List.countP_append,
        countRows_saveBotUser, countRows_append_one, findBotUser_append_one,
        findBotUser_fresh1, findBotUser_fresh2, -List.countP_eq_zero, hFind, hC0, hChat]
    | document a b =>
      simp only [runCreated, createdHandler, run_bind, run_pure, getDb, setDb, emit,
        emitAll, tgSend, tgSendNoAwait, tgSendKb, tgAnswerCb, liftE, M.pure, M.bind,
        throwM, saveRowState, Update.sender, Update.chatId, okTransport, hFind]
      simp [run_bind, run_pure, getDb, setDb, emit, emitAll, M.pure, M.bind, liftE,
        throwM, saveRowState, sendsTo, isSendTo, List.countP_append,
        countRows_saveBotUser, countRows_append_one, findBotUser_append_one,
        findBotUser_fresh1, findBotUser_fresh2, -List.countP_eq_zero, hFind, hC0, hChat]
    | video a b =>
      simp only [runCreated, createdHandler, run_bind, run_pure, getDb, setDb, emit,
        emitAll, tgSend, tgSendNoAwait, tgSendKb, tgAnswerCb, liftE, M.pure, M.bind,
        throwM, saveRowState, Update.sender, Update.chatId, okTransport, hFind]
      simp [run_bind, run_pure, getDb, setDb, emit, emitAll, M.pure, M.bind, liftE,
        throwM, saveRowState, sendsTo, isSendTo, List.countP_append,
        countRows_saveBotUser, countRows_append_one, findBotUser_append_one,
        findBotUser_fresh1, findBotUser_fresh2, -List.countP_eq_zero, hFind, hC0, hChat]
    | audio a b =>
      simp only [runCreated, createdHandler, run_bind, run_pure, getDb, setDb, emit,
        emitAll, tgSend, tgSendNoAwait, tgSendKb, tgAnswerCb, liftE, M.pure, M.bind,
        throwM, saveRowState, Update.sender, Update.chatId, okTransport, hFind]
      simp [run_bind, run_pure, getDb, setDb, emit, emitAll, M.pure, M.bind, liftE,
        throwM, saveRowState, sendsTo, isSendTo, List.countP_append,
        countRows_saveBotUser, countRows_append_one, findBotUser_append_one,
        findBotUser_fresh1, findBotUser_fresh2, -List.countP_eq_zero, hFind, hC0, hChat]
    | voice a =>
      simp only [runCreated, createdHandler, run_bind, run_pure, getDb, setDb, emit,
        emitAll, tgSend, tgSendNoAwait, tgSendKb, tgAnswerCb, liftE, M.pure, M.bind,
        throwM, saveRowState, Update.sender, Update.chatId, okTransport, hFind]
      simp [run_bind, run_pure, getDb, setDb, emit, emitAll, M.pure, M.bind, liftE,
        throwM, saveRowState, sendsTo, isSendTo, List.countP_append,
        countRows_saveBotUser, countRows_append_one, findBotUser_append_one,
        findBotUser_fresh1, findBotUser_fresh2, -List.countP_eq_zero, hFind, hC0, hChat]
    | sticker a =>
      simp only [runCreated, createdHandler, run_bind, run_pure, getDb, setDb, emit,
        emitAll, tgSend, tgSendNoAwait, tgSendKb, tgAnswerCb, liftE, M.pure, M.bind,
        throwM, saveRowState, Update.sender, Update.chatId, okTransport, hFind]
      simp [run_bind, run_pure, getDb, setDb, emit, emitAll, M.pure, M.bind, liftE,
        throwM, saveRowState, sendsTo, isSendTo, List.countP_append,
        countRows_saveBotUser, countRows_append_one, findBotUser_append_one,
        findBotUser_fresh1, findBotUser_fresh2, -List.countP_eq_zero, hFind, hC0, hChat]
    | other =>
      simp only [runCreated, createdHandler, run_bind, run_pure, getDb, setDb, emit,
        emitAll, tgSend, tgSendNoAwait, tgSendKb, tgAnswerCb, liftE, M.pure, M.bind,
        throwM, saveRowState, Update.sender, Update.chatId, okTransport, hFind]
      simp [run_bind, run_pure, getDb, setDb, emit, emitAll, M.pure, M.bind, liftE,
        throwM, saveRowState, sendsTo, isSendTo, List.countP_append,
        countRows_saveBotUser, countRows_append_one, findBotUser_append_one,
        findBotUser_fresh1, findBotUser_fresh2, -List.countP_eq_zero, hFind, hC0, hChat]

def c2Bot : BotRow :=
  { token := "T2", username := "pairbot", creatorId := "90",
    creatorUsername := some "owner90", createdAt := 0 }

def c2Sender : Sender := { id := "51", username := some "u51", firstName := "Ann" }

def c2Upd1 : Update := Update.message c2Sender "c51" (MsgContent.text "/start")

def c2Upd2 : Update := Update.message c2Sender "c51" (MsgContent.text "hello again")

/-- C2: for a fresh tenant/user pair (no membership row yet), the first
inbound event inserts exactly one membership row (created with
`isFirstStart = true` and persisted, after the notification, with
`isFirstStart = false`) and sends exactly one message to the tenant
owner's chat (`creatorId`); a second event from the same pair, processed
on the resulting database, inserts no further membership row and sends
nothing to the owner's chat.  Both events are assumed to originate from a
chat other than the owner's. -/
theorem C2_first_contact_notification (botInfo : BotRow) (upd1 upd2 : Update)
    (now1 now2 : Nat) (db : CreatedDb)
    (hsame : upd2.sender.id = upd1.sender.id)
    (hFind : findBotUser db.botUsers botInfo.token upd1.sender.id = none)
    (hChat1 : (upd1.chatId == botInfo.creatorId) = false)
    (hChat2 : (upd2.chatId == botInfo.creatorId) = false) :
    countRows (runCreated okTransport botInfo upd1 now1 db).2.1.botUsers
      botInfo.token upd1.sender.id = 1 ∧
    sendsTo botInfo.creatorId (runCreated okTransport botInfo upd1 now1 db).2.2 = 1 ∧
    countRows (runCreated okTransport botInfo upd2 now2
        (runCreated okTransport botInfo upd1 now1 db).2.1).2.1.botUsers
      botInfo.token upd1.sender.id = 1 ∧
    sendsTo botInfo.creatorId (runCreated okTransport botInfo upd2 now2
        (runCreated okTransport botInfo upd1 now1 db).2.1).2.2 = 0 := by
  obtain ⟨hS1, hC1, r', hF1, hFS1⟩ := created_first_contact botInfo upd1 now1 db hFind hChat1
  have hF2 : findBotUser (runCreated okTransport botInfo upd1 now1 db).2.1.botUsers
      botInfo.token upd2.sender.id = some r' := by
    rw [hsame]
    exact hF1
  obtain ⟨hS2, hC2⟩ := created_no_renotify botInfo upd2 now2
    (runCreated okTransport botInfo upd1 now1 db).2.1 r' hF2 hFS1 hChat2
  refine ⟨hC1, hS1, ?_, hS2⟩
  rw [hC2 botInfo.token upd1.sender.id]
  exact hC1

/-- C2 witness: the fresh pair (`c2Bot`, user `51`) on the empty database:
the first `/start` inserts the membership and notifies owner `90` once;
the follow-up text event adds nothing and sends nothing to the owner. -/
theorem C2_witness :
    countRows (runCreated okTransport c2Bot c2Upd1 5 ⟨[], []⟩).2.1.botUsers
      c2Bot.token c2Upd1.sender.id = 1 ∧
    sendsTo c2Bot.creatorId (runCreated okTransport c2Bot c2Upd1 5 ⟨[], []⟩).2.2 = 1 ∧
    countRows (runCreated okTransport c2Bot c2Upd2 6
        (runCreated okTransport c2Bot c2Upd1 5 ⟨[], []⟩).2.1).2.1.botUsers
      c2Bot.token c2Upd1.sender.id = 1 ∧
    sendsTo c2Bot.creatorId (runCreated okTransport c2Bot c2Upd2 6
        (runCreated okTransport c2Bot c2Upd1 5 ⟨[], []⟩).2.1).2.2 = 0 :=
  C2_first_contact_notification c2Bot c2Upd1 c2Upd2 5 6 ⟨[], []⟩
    (by decide) (by decide) (by decide) (by decide)

theorem findBotUser_some_key (db : List BotUserRow) (tok uid : String) (row : BotUserRow)
    (h : findBotUser db tok uid = some row) :
    row.botToken = tok ∧ row.userId = uid := by
  have hp := List.find?_some h
  have hp' := (Bool.and_eq_true _ _).mp hp
  exact ⟨beq_iff_eq.mp hp'.1, beq_iff_eq.mp hp'.2⟩

theorem findBotUser_saveBotUser_isSome (db : List BotUserRow) (rv : BotUserRow)
    (tok uid : String) (hb : rv.botToken = tok) (hu : rv.userId = uid)
    (h : (findBotUser db tok uid).isSome = true) :
    (findBotUser (saveBotUser db rv) tok uid).isSome = true := by
  rw [findBotUser_saveBotUser_same db rv tok uid hb hu h]
  rfl

theorem findBotUser_saveBotUser_frameP (db : List BotUserRow) (rv : BotUserRow)
    (tok uid : String) (h : ¬(tok = rv.botToken ∧ uid = rv.userId)) :
    findBotUser (saveBotUser db rv) tok uid = findBotUser db tok uid := by
  apply findBotUser_saveBotUser_other
  by_cases h1 : (rv.botToken == tok) = true
  · by_cases h2 : (rv.userId == uid) = true
    · exact absurd ⟨(beq_iff_eq.mp h1).symm, (beq_iff_eq.mp h2).symm⟩ h
    · have h2' : (rv.userId == uid) = false := by simpa using h2
      simp [h2']
  · have h1' : (rv.botToken == tok) = false := by simpa using h1
    simp [h1']

theorem maker_blocked_reply (mkT : String → Transport) (validate : String → Option String)
    (wS wD : String → Bool) (ownerId : String) (s : Sender) (chat txt : String)
    (now : Nat) (db : MakerDb) (u : UserRow)
    (hFind : findUser db.users s.id = some u)
    (hbl : u.isBlocked = true)
    (hNot : (s.id == ownerId) = false) :
    runMaker okTransport mkT validate wS wD ownerId
        (Update.message s chat (MsgContent.text txt)) now db =
      (Except.ok (), db,
       if routeMakerText txt = MakerHandler.panelH then [Eff.send chat notAuthorizedText]
       else [Eff.send chat banNoticeText]) := by
  rcases hR : routeMakerText txt with _ | _ | _ | _ | _ | _ <;>
    simp only [runMaker, makerDispatch, hR] <;>
    simp [makerStartH, makerHearsH, makerMyBotsH, makerPanelH, makerTextH, catchM,
      setUserFields, run_bind, run_pure, getDb, setDb, emit, emitAll, tgSend,
      tgSendNoAwait, tgSendKb, tgAnswerCb, liftE, M.pure, M.bind, throwM, okTransport,
      hFind, hbl, hNot]

theorem created_owner_panel_exempt (botInfo : BotRow) (s : Sender) (chat : String)
    (now : Nat) (db : CreatedDb) (row : BotUserRow)
    (hFind : findBotUser db.botUsers botInfo.token s.id = some row)
    (hFS : row.isFirstStart = false)
    (hBl : row.isBlocked = true)
    (hcr : s.id = botInfo.creatorId) :
    (runCreated okTransport botInfo (Update.message s chat (MsgContent.text "/panel"))
        now db).2.2 = [Eff.send chat "🔧 Admin Panel"] ∧
    ∀ r', findBotUser (runCreated okTransport botInfo
        (Update.message s chat (MsgContent.text "/panel")) now db).2.1.botUsers
        botInfo.token s.id = some r' → r'.adminState = "admin_panel" := by
  rw [hcr] at hFind
  obtain ⟨hkb, hku⟩ := findBotUser_some_key db.botUsers botInfo.token botInfo.creatorId row hFind
  simp only [runCreated, createdHandler, run_bind, run_pure, getDb, setDb, emit,
    emitAll, tgSend, tgSendNoAwait, tgSendKb, tgAnswerCb, liftE, M.pure, M.bind,
    throwM, saveRowState, Update.sender, Update.chatId, okTransport, hFind, hFS]
  simp [run_bind, run_pure, getDb, setDb, emit, emitAll, M.pure, M.bind, liftE,
    throwM, saveRowState, findBotUser_saveBotUser_same, findBotUser_saveBotUser_isSome,
    hFind, hFS, hBl, hcr, hkb, hku]

theorem created_selfblock_reject (botInfo : BotRow) (s : Sender) (chat txt : String)
    (now : Nat) (db : CreatedDb) (row : BotUserRow)
    (hFind : findBotUser db.botUsers botInfo.token s.id = some row)
    (hFS : row.isFirstStart = false)
    (hAS : row.adminState = "awaiting_block")
    (hcr : s.id = botInfo.creatorId)
    (h1 : ¬ txt = "/start") (h2 : ¬ txt = "/panel") (hCan : ¬ txt = "Cancel")
    (hNum : isNumericStr (jsTrim txt) = true)
    (hSelf : jsTrim txt = botInfo.creatorId) :
    runCreated okTransport botInfo (Update.message s chat (MsgContent.text txt)) now db =
      (Except.ok (),
       { db with botUsers := saveBotUser db.botUsers { row with lastInteraction := now } },
       [Eff.send chat "❌ You cannot block yourself."]) := by
  rw [hSelf] at hNum
  simp only [runCreated, createdHandler, run_bind, run_pure, getDb, setDb, emit,
    emitAll, tgSend, tgSendNoAwait, tgSendKb, tgAnswerCb, liftE, M.pure, M.bind,
    throwM, saveRowState, Update.sender, Update.chatId, okTransport, hFind, hFS]
  simp [run_bind, run_pure, getDb, setDb, emit, emitAll, M.pure, M.bind, liftE,
    throwM, saveRowState, hFind, hFS, hAS, hcr, h1, h2, hCan, hNum, hSelf]

theorem maker_selfblock_reject (mkT : String → Transport) (validate : String → Option String)
    (wS wD : String → Bool) (ownerId : String) (s : Sender) (chat txt : String)
    (now : Nat) (db : MakerDb) (u : UserRow)
    (hFind : findUser db.users s.id = some u)
    (hbl : u.isBlocked = false)
    (hAS : u.adminState = "awaiting_block")
    (hcr : s.id = ownerId)
    (hR : routeMakerText txt = MakerHandler.textH)
    (hCan : ¬ txt = "Cancel")
    (hNum : isNumericStr (jsTrim txt) = true)
    (hSelf : jsTrim txt = ownerId) :
    runMaker okTransport mkT validate wS wD ownerId
        (Update.message s chat (MsgContent.text txt)) now db =
      (Except.ok (), db, [Eff.send chat "❌ You cannot block yourself."]) := by
  rw [hSelf] at hNum
  rw [hcr] at hFind
  simp only [runMaker, makerDispatch, hR]
  simp [makerTextH, catchM, setUserFields, run_bind, run_pure, getDb, setDb, emit,
    emitAll, tgSend, tgSendNoAwait, tgSendKb, tgAnswerCb, liftE, M.pure, M.bind,
    throwM, okTransport, hFind, hbl, hAS, hcr, hCan, hNum, hSelf]

def c7User : UserRow :=
  { userId := "55", step := "none", adminState := "none", isBlocked := true,
    username := some "u55", referredBy := "None", isFirstStart := false }

def c7Db : MakerDb := { users := [c7User], bots := [], botUsers := [], channelUrls := [] }

def c7Sender : Sender := { id := "55", username := some "u55", firstName := "Eve" }

/-- C7 counterexample: on the maker bot the `/panel` command handler runs
without the block gate, so the blocked non-owner `55` sending `/panel`
receives the not-authorized reply, not the fixed ban notice the claim
requires for every inbound event from a blocked identity. -/
theorem C7_counterexample :
    (findUser c7Db.users "55").map (fun u => u.isBlocked) = some true ∧
    (runMaker okTransport (fun _ => okTransport) (fun _ => none) (fun _ => true)
        (fun _ => true) "1" (Update.message c7Sender "c55" (MsgContent.text "/panel"))
        0 c7Db).2.2 = [Eff.send "c55" notAuthorizedText] ∧
    ¬ notAuthorizedText = banNoticeText := by
  refine ⟨rfl, ?_, by decide⟩
  rfl

/-- C7 (amended): (1) on a tenant bot a blocked non-owner member receives
only the fixed ban notice for any inbound event, with no state-machine
side effect beyond the `lastInteraction` touch; (2) on the maker bot a
blocked non-owner receives the ban notice for every text event except
`/panel`, which instead answers with the not-authorized reply (the
`/panel` command runs before the block gate), and the database is
unchanged; (3) the tenant owner is exempt from the tenant block gate:
even with `isBlocked = true` their `/panel` opens the admin panel;
(4) a tenant self-block attempt is rejected with a validation reply and
no `isBlocked` write; (5) a maker self-block attempt is rejected the same
way with the database unchanged. -/
theorem C7_amended_block_gate :
    (∀ (botInfo : BotRow) (upd : Update) (now : Nat) (db : CreatedDb) (row : BotUserRow),
      findBotUser db.botUsers botInfo.token upd.sender.id = some row →
      row.isFirstStart = false → row.isBlocked = true →
      (upd.sender.id == botInfo.creatorId) = false →
      runCreated okTransport botInfo upd now db =
        (Except.ok (),
         { db with botUsers := saveBotUser db.botUsers { row with lastInteraction := now } },
         [Eff.send upd.chatId banNoticeText])) ∧
    (∀ (mkT : String → Transport) (validate : String → Option String)
        (wS wD : String → Bool) (ownerId : String) (s : Sender) (chat txt : String)
        (now : Nat) (db : MakerDb) (u : UserRow),
      findUser db.users s.id = some u → u.isBlocked = true →
      (s.id == ownerId) = false →
      runMaker okTransport mkT validate wS wD ownerId
          (Update.message s chat (MsgContent.text txt)) now db =
        (Except.ok (), db,
         if routeMakerText txt = MakerHandler.panelH then [Eff.send chat notAuthorizedText]
         else [Eff.send chat banNoticeText])) ∧
    (∀ (botInfo : BotRow) (s : Sender) (chat : String) (now : Nat) (db : CreatedDb)
        (row : BotUserRow),
      findBotUser db.botUsers botInfo.token s.id = some row →
      row.isFirstStart = false → row.isBlocked = true → s.id = botInfo.creatorId →
      (runCreated okTransport botInfo (Update.message s chat (MsgContent.text "/panel"))
          now db).2.2 = [Eff.send chat "🔧 Admin Panel"] ∧
      ∀ r', findBotUser (runCreated okTransport botInfo
          (Update.message s chat (MsgContent.text "/panel")) now db).2.1.botUsers
          botInfo.token s.id = some r' → r'.adminState = "admin_panel") ∧
    (∀ (botInfo : BotRow) (s : Sender) (chat txt : String) (now : Nat) (db : CreatedDb)
        (row : BotUserRow),
      findBotUser db.botUsers botInfo.token s.id = some row →
      row.isFirstStart = false → row.adminState = "awaiting_block" →
      s.id = botInfo.creatorId →
      ¬ txt = "/start" → ¬ txt = "/panel" → ¬ txt = "Cancel" →
      isNumericStr (jsTrim txt) = true → jsTrim txt = botInfo.creatorId →
      runCreated okTransport botInfo (Update.message s chat (MsgContent.text txt)) now db =
        (Except.ok (),
         { db with botUsers := saveBotUser db.botUsers { row with lastInteraction := now } },
         [Eff.send chat "❌ You cannot block yourself."])) ∧
    (∀ (mkT : String → Transport) (validate : String → Option String)
        (wS wD : String → Bool) (ownerId : String) (s : Sender) (chat txt : String)
        (now : Nat) (db : MakerDb) (u : UserRow),
      findUser db.users s.id = some u → u.isBlocked = false →
      u.adminState = "awaiting_block" → s.id = ownerId →
      routeMakerText txt = MakerHandler.textH → ¬ txt = "Cancel" →
      isNumericStr (jsTrim txt) = true → jsTrim txt = ownerId →
      runMaker okTransport mkT validate wS wD ownerId
          (Update.message s chat (MsgContent.text txt)) now db =
        (Except.ok (), db, [Eff.send chat "❌ You cannot block yourself."])) := by
  refine ⟨?_, ?_, ?_, ?_, ?_⟩
  · intro botInfo upd now db row hFind hFS hBl hNot
    exact created_gate_blocked botInfo upd now db row hFind hFS hBl hNot
  · intro mkT validate wS wD ownerId s chat txt now db u hFind hbl hNot
    exact maker_blocked_reply mkT validate wS wD ownerId s chat txt now db u hFind hbl hNot
  · intro botInfo s chat now db row hFind hFS hBl hcr
    exact created_owner_panel_exempt botInfo s chat now db row hFind hFS hBl hcr
  · intro botInfo s chat txt now db row hFind hFS hAS hcr h1 h2 hCan hNum hSelf
    exact created_selfblock_reject botInfo s chat txt now db row hFind hFS hAS hcr
      h1 h2 hCan hNum hSelf
  · intro mkT validate wS wD ownerId s chat txt now db u hFind hbl hAS hcr hR hCan hNum hSelf
    exact maker_selfblock_reject mkT validate wS wD ownerId s chat txt now db u
      hFind hbl hAS hcr hR hCan hNum hSelf

def c7TBot : BotRow :=
  { token := "T7", username := "tb7", creatorId := "9",
    creatorUsername := some "own9", createdAt := 0 }

def c7Row5 : BotUserRow :=
  { botToken := "T7", userId := "5", hasJoined := true, userStep := "none",
    adminState := "none", lastInteraction := 0, isBlocked := true,
    username := some "@u5", referredBy := "None", isFirstStart := false }

def c7Row9 : BotUserRow :=
  { botToken := "T7", userId := "9", hasJoined := true, userStep := "none",
    adminState := "none", lastInteraction := 0, isBlocked := true,
    username := some "@own9", referredBy := "None", isFirstStart := false }

def c7Row9b : BotUserRow := { c7Row9 with isBlocked := false, adminState := "awaiting_block" }

def c7OwnUser : UserRow :=
  { userId := "1", step := "none", adminState := "awaiting_block", isBlocked := false,
    username := some "boss", referredBy := "None", isFirstStart := false }

def c7S5 : Sender := { id := "5", username := some "u5", firstName := "U" }

def c7S9 : Sender := { id := "9", username := some "own9", firstName := "O" }

def c7S1 : Sender := { id := "1", username := some "boss", firstName := "B" }

/-- C7 witness: each clause of the amended block-gate theorem applied at a
concrete database. -/
theorem C7_witness :
    (runCreated okTransport c7TBot (Update.message c7S5 "c5" (MsgContent.text "hey"))
        3 ⟨[c7Row5], []⟩ =
      (Except.ok (),
       { botUsers := saveBotUser [c7Row5] { c7Row5 with lastInteraction := 3 },
         channelUrls := [] },
       [Eff.send "c5" banNoticeText])) ∧
    (runMaker okTransport (fun _ => okTransport) (fun _ => none) (fun _ => true)
        (fun _ => true) "1" (Update.message c7S5 "c5" (MsgContent.text "hello")) 3
        ⟨[{ c7OwnUser with userId := "5", isBlocked := true }], [], [], []⟩ =
      (Except.ok (), ⟨[{ c7OwnUser with userId := "5", isBlocked := true }], [], [], []⟩,
       [Eff.send "c5" banNoticeText])) ∧
    ((runCreated okTransport c7TBot (Update.message c7S9 "c9" (MsgContent.text "/panel"))
        3 ⟨[c7Row9], []⟩).2.2 = [Eff.send "c9" "🔧 Admin Panel"]) ∧
    (runCreated okTransport c7TBot (Update.message c7S9 "c9" (MsgContent.text " 9 "))
        3 ⟨[c7Row9b], []⟩ =
      (Except.ok (),
       { botUsers := saveBotUser [c7Row9b] { c7Row9b with lastInteraction := 3 },
         channelUrls := [] },
       [Eff.send "c9" "❌ You cannot block yourself."])) ∧
    (runMaker okTransport (fun _ => okTransport) (fun _ => none) (fun _ => true)
        (fun _ => true) "1" (Update.message c7S1 "c1" (MsgContent.text " 1 ")) 3
        ⟨[c7OwnUser], [], [], []⟩ =
      (Except.ok (), ⟨[c7OwnUser], [], [], []⟩,
       [Eff.send "c1" "❌ You cannot block yourself."])) :=
  ⟨C7_amended_block_gate.1 c7TBot (Update.message c7S5 "c5" (MsgContent.text "hey"))
      3 ⟨[c7Row5], []⟩ c7Row5 (by decide) (by decide) (by decide) (by decide),
   C7_amended_block_gate.2.1 (fun _ => okTransport) (fun _ => none) (fun _ => true)
      (fun _ => true) "1" c7S5 "c5" "hello" 3
      ⟨[{ c7OwnUser with userId := "5", isBlocked := true }], [], [], []⟩
      { c7OwnUser with userId := "5", isBlocked := true }
      (by decide) (by decide) (by decide),
   (C7_amended_block_gate.2.2.1 c7TBot c7S9 "c9" 3 ⟨[c7Row9], []⟩ c7Row9
      (by decide) (by decide) (by decide) (by decide)).1,
   C7_amended_block_gate.2.2.2.1 c7TBot c7S9 "c9" " 9 " 3 ⟨[c7Row9b], []⟩ c7Row9b
      (by decide) (by decide) (by decide) (by decide) (by decide) (by decide)
      (by decide) (by decide) (by decide),
   C7_amended_block_gate.2.2.2.2 (fun _ => okTransport) (fun _ => none) (fun _ => true)
      (fun _ => true) "1" c7S1 "c1" " 1 " 3 ⟨[c7OwnUser], [], [], []⟩ c7OwnUser
      (by decide) (by decide) (by decide) (by decide) (by decide) (by decide)
      (by decide) (by decide)⟩

theorem saveUser_cons_hit (v : UserRow) (vs : List UserRow) (row : UserRow)
    (h : (v.userId == row.userId) = true) :
    saveUser (v :: vs) row = row :: saveUser vs row := by
  have hp : v.userId = row.userId := beq_iff_eq.mp h
  simp [saveUser, hp]

theorem saveUser_cons_miss (v : UserRow) (vs : List UserRow) (row : UserRow)
    (h : (v.userId == row.userId) = false) :
    saveUser (v :: vs) row = v :: saveUser vs row := by
  have hp : ¬ v.userId = row.userId := by simpa using h
  simp [saveUser, hp]

theorem findUser_saveUser_same (users : List UserRow) (row : UserRow) (uid : String)
    (hui : row.userId = uid) (hfound : (findUser users uid).isSome = true) :
    findUser (saveUser users row) uid = some row := by
  induction users with
  | nil => cases hfound
  | cons v vs ih =>
    have hrowp : (row.userId == uid) = true := by
      rw [hui]
      simp
    by_cases hv : (v.userId == uid) = true
    · have hvk : (v.userId == row.userId) = true := by
        rw [hui]
        exact hv
      rw [saveUser_cons_hit v vs row hvk,
        findUser_cons_hit row (saveUser vs row) uid hrowp]
    · have hv' : (v.userId == uid) = false := by simpa using hv
      have hvk : (v.userId == row.userId) = false := by
        rw [hui]
        exact hv'
      rw [saveUser_cons_miss v vs row hvk,
        findUser_cons_miss v (saveUser vs row) uid hv']
      rw [findUser_cons_miss v vs uid hv'] at hfound
      exact ih hfound

theorem findUser_saveUser_isSome (users : List UserRow) (row : UserRow) (uid : String)
    (hui : row.userId = uid) (hfound : (findUser users uid).isSome = true) :
    (findUser (saveUser users row) uid).isSome = true := by
  rw [findUser_saveUser_same users row uid hui hfound]
  rfl

theorem findUser_saveUser_frameP (users : List UserRow) (row : UserRow) (uid' : String)
    (h : ¬ uid' = row.userId) :
    findUser (saveUser users row) uid' = findUser users uid' := by
  induction users with
  | nil => rfl
  | cons v vs ih =>
    have hne : (row.userId == uid') = false := by
      simp
      intro hcon
      exact h hcon.symm
    by_cases hv : (v.userId == row.userId) = true
    · have hvu : v.userId = row.userId := by simpa using hv
      have hq : (v.userId == uid') = false := by
        rw [hvu]
        exact hne
      rw [saveUser_cons_hit v vs row hv,
        findUser_cons_miss row (saveUser vs row) uid' hne,
        findUser_cons_miss v vs uid' hq]
      exact ih
    · have hv' : (v.userId == row.userId) = false := by simpa using hv
      rw [saveUser_cons_miss v vs row hv']
      by_cases hq : (v.userId == uid') = true
      · rw [findUser_cons_hit v (saveUser vs row) uid' hq,
          findUser_cons_hit v vs uid' hq]
      · have hq' : (v.userId == uid') = false := by simpa using hq
        rw [findUser_cons_miss v (saveUser vs row) uid' hq',
          findUser_cons_miss v vs uid' hq']
        exact ih

theorem findUser_updateUser_frameP (users : List UserRow) (uid : String)
    (f : UserRow → UserRow) (hpres : ∀ v, (f v).userId = v.userId) (uid' : String)
    (h : ¬ uid' = uid) :
    findUser (updateUser users uid f) uid' = findUser users uid' := by
  apply findUser_updateUser_other users uid uid' f hpres
  simp
  intro hcon
  exact absurd hcon h

theorem findUser_some_key (users : List UserRow) (uid : String) (u : UserRow)
    (h : findUser users uid = some u) : u.userId = uid := by
  have hp := List.find?_some h
  exact beq_iff_eq.mp hp

set_option maxHeartbeats 1000000 in
theorem created_nonowner_no_admin (botInfo : BotRow) (upd : Update) (now : Nat)
    (db : CreatedDb) (row : BotUserRow)
    (hFind : findBotUser db.botUsers botInfo.token upd.sender.id = some row)
    (hFS : row.isFirstStart = false)
    (hA0 : row.adminState = "none")
    (hNot : (upd.sender.id == botInfo.creatorId) = false) :
    (runCreated okTransport botInfo upd now db).2.1.channelUrls = db.channelUrls ∧
    (∀ r', findBotUser (runCreated okTransport botInfo upd now db).2.1.botUsers
        botInfo.token upd.sender.id = some r' → r'.adminState = "none") ∧
    (∀ tok uid, ¬(tok = botInfo.token ∧ uid = upd.sender.id) →
      findBotUser (runCreated okTransport botInfo upd now db).2.1.botUsers tok uid =
        findBotUser db.botUsers tok uid) := by
  obtain ⟨hkb, hku⟩ := findBotUser_some_key db.botUsers botInfo.token upd.sender.id row hFind
  cases upd with
  | callback s chat cbId data =>
    simp only [Update.sender, Update.chatId] at hFind hNot hku
    by_cases hB : row.isBlocked = true
    · simp only [runCreated, createdHandler, run_bind, run_pure, getDb, setDb, emit, emitAll, tgSend, tgSendNoAwait, tgSendKb, tgAnswerCb, liftE, M.pure, M.bind, throwM, saveRowState, Update.sender, Update.chatId, okTransport, hFind, hFS]
      refine ⟨?_, ?_, ?_⟩
      · simp [run_bind, run_pure, getDb, setDb, emit, emitAll, M.pure, M.bind, liftE, throwM, saveRowState, contentSend, -List.countP_eq_zero, hFS, hNot, hB]
      · simp [run_bind, run_pure, getDb, setDb, emit, emitAll, M.pure, M.bind, liftE, throwM, saveRowState, contentSend, -List.countP_eq_zero, findBotUser_saveBotUser_same, findBotUser_saveBotUser_isSome,
          hkb, hku, hFind, hFS, hA0, hNot, hB]
      · intro tok uid hne
        simp [run_bind, run_pure, getDb, setDb, emit, emitAll, M.pure, M.bind, liftE, throwM, saveRowState, contentSend, -List.countP_eq_zero, findBotUser_saveBotUser_frameP, hkb, hku, hne, hFind, hFS,
          hNot, hB]
    · by_cases hj : (data == "joined") = true
      · simp only [runCreated, createdHandler, run_bind, run_pure, getDb, setDb, emit, emitAll, tgSend, tgSendNoAwait, tgSendKb, tgAnswerCb, liftE, M.pure, M.bind, throwM, saveRowState, Update.sender, Update.chatId, okTransport, hFind, hFS]
        refine ⟨?_, ?_, ?_⟩
        · simp [run_bind, run_pure, getDb, setDb, emit, emitAll, M.pure, M.bind, liftE, throwM, saveRowState, contentSend, -List.countP_eq_zero, hFS, hNot, hB, hj]
        · simp [run_bind, run_pure, getDb, setDb, emit, emitAll, M.pure, M.bind, liftE, throwM, saveRowState, contentSend, -List.countP_eq_zero, findBotUser_saveBotUser_same, findBotUser_saveBotUser_isSome,
            hkb, hku, hFind, hFS, hA0, hNot, hB, hj]
        · intro tok uid hne
          simp [run_bind, run_pure, getDb, setDb, emit, emitAll, M.pure, M.bind, liftE, throwM, saveRowState, contentSend, -List.countP_eq_zero, findBotUser_saveBotUser_frameP, hkb, hku, hne, hFind, hFS,
            hNot, hB, hj]
      · simp only [runCreated, createdHandler, run_bind, run_pure, getDb, setDb, emit, emitAll, tgSend, tgSendNoAwait, tgSendKb, tgAnswerCb, liftE, M.pure, M.bind, throwM, saveRowState, Update.sender, Update.chatId, okTransport, hFind, hFS]
        refine ⟨?_, ?_, ?_⟩
        · simp [run_bind, run_pure, getDb, setDb, emit, emitAll, M.pure, M.bind, liftE, throwM, saveRowState, contentSend, -List.countP_eq_zero, hFS, hNot, hB, hj]
        · simp [run_bind, run_pure, getDb, setDb, emit, emitAll, M.pure, M.bind, liftE, throwM, saveRowState, contentSend, -List.countP_eq_zero, findBotUser_saveBotUser_same, findBotUser_saveBotUser_isSome,
            hkb, hku, hFind, hFS, hA0, hNot, hB, hj]
        · intro tok uid hne
          simp [run_bind, run_pure, getDb, setDb, emit, emitAll, M.pure, M.bind, liftE, throwM, saveRowState, contentSend, -List.countP_eq_zero, findBotUser_saveBotUser_frameP, hkb, hku, hne, hFind, hFS,
            hNot, hB, hj]
  | message s chat content =>
    simp only [Update.sender, Update.chatId] at hFind hNot hku
    by_cases hB : row.isBlocked = true
    · simp only [runCreated, createdHandler, run_bind, run_pure, getDb, setDb, emit, emitAll, tgSend, tgSendNoAwait, tgSendKb, tgAnswerCb, liftE, M.pure, M.bind, throwM, saveRowState, Update.sender, Update.chatId, okTransport, hFind, hFS]
      refine ⟨?_, ?_, ?_⟩
      · simp [run_bind, run_pure, getDb, setDb, emit, emitAll, M.pure, M.bind, liftE, throwM, saveRowState, contentSend, -List.countP_eq_zero, hFS, hNot, hB]
      · simp [run_bind, run_pure, getDb, setDb, emit, emitAll, M.pure, M.bind, liftE, throwM, saveRowState, contentSend, -List.countP_eq_zero, findBotUser_saveBotUser_same, findBotUser_saveBotUser_isSome,
          hkb, hku, hFind, hFS, hA0, hNot, hB]
      · intro tok uid hne
        simp [run_bind, run_pure, getDb, setDb, emit, emitAll, M.pure, M.bind, liftE, throwM, saveRowState, contentSend, -List.countP_eq_zero, findBotUser_saveBotUser_frameP, hkb, hku, hne, hFind, hFS,
          hNot, hB]
    · cases content with
      | text str =>
        by_cases h1 : str = "/start"
        · by_cases hHJ : row.hasJoined = true
          · simp only [runCreated, createdHandler, run_bind, run_pure, getDb, setDb, emit, emitAll, tgSend, tgSendNoAwait, tgSendKb, tgAnswerCb, liftE, M.pure, M.bind, throwM, saveRowState, Update.sender, Update.chatId, okTransport, hFind, hFS]
            refine ⟨?_, ?_, ?_⟩
            · simp [run_bind, run_pure, getDb, setDb, emit, emitAll, M.pure, M.bind, liftE, throwM, saveRowState, contentSend, -List.countP_eq_zero, hFS, hNot, hB, h1, hHJ]
            · simp [run_bind, run_pure, getDb, setDb, emit, emitAll, M.pure, M.bind, liftE, throwM, saveRowState, contentSend, -List.countP_eq_zero, findBotUser_saveBotUser_same, findBotUser_saveBotUser_isSome,
                hkb, hku, hFind, hFS, hA0, hNot, hB, h1, hHJ]
            · intro tok uid hne
              simp [run_bind, run_pure, getDb, setDb, emit, emitAll, M.pure, M.bind, liftE, throwM, saveRowState, contentSend, -List.countP_eq_zero, findBotUser_saveBotUser_frameP, hkb, hku, hne, hFind, hFS,
                hNot, hB, h1, hHJ]
          · simp only [runCreated, createdHandler, run_bind, run_pure, getDb, setDb, emit, emitAll, tgSend, tgSendNoAwait, tgSendKb, tgAnswerCb, liftE, M.pure, M.bind, throwM, saveRowState, Update.sender, Update.chatId, okTransport, hFind, hFS]
            refine ⟨?_, ?_, ?_⟩
            · simp [run_bind, run_pure, getDb, setDb, emit, emitAll, M.pure, M.bind, liftE, throwM, saveRowState, contentSend, -List.countP_eq_zero, hFS, hNot, hB, h1, hHJ]
            · simp [run_bind, run_pure, getDb, setDb, emit, emitAll, M.pure, M.bind, liftE, throwM, saveRowState, contentSend, -List.countP_eq_zero, findBotUser_saveBotUser_same, findBotUser_saveBotUser_isSome,
                hkb, hku, hFind, hFS, hA0, hNot, hB, h1, hHJ]
            · intro tok uid hne
              simp [run_bind, run_pure, getDb, setDb, emit, emitAll, M.pure, M.bind, liftE, throwM, saveRowState, contentSend, -List.countP_eq_zero, findBotUser_saveBotUser_frameP, hkb, hku, hne, hFind, hFS,
                hNot, hB, h1, hHJ]
        · by_cases h2 : str = "/panel"
          · simp only [runCreated, createdHandler, run_bind, run_pure, getDb, setDb, emit, emitAll, tgSend, tgSendNoAwait, tgSendKb, tgAnswerCb, liftE, M.pure, M.bind, throwM, saveRowState, Update.sender, Update.chatId, okTransport, hFind, hFS]
            refine ⟨?_, ?_, ?_⟩
            · simp [run_bind, run_pure, getDb, setDb, emit, emitAll, M.pure, M.bind, liftE, throwM, saveRowState, contentSend, -List.countP_eq_zero, hFS, hNot, hB, h1, h2]
            · simp [run_bind, run_pure, getDb, setDb, emit, emitAll, M.pure, M.bind, liftE, throwM, saveRowState, contentSend, -List.countP_eq_zero, findBotUser_saveBotUser_same, findBotUser_saveBotUser_isSome,
                hkb, hku, hFind, hFS, hA0, hNot, hB, h1, h2]
            · intro tok uid hne
              simp [run_bind, run_pure, getDb, setDb, emit, emitAll, M.pure, M.bind, liftE, throwM, saveRowState, contentSend, -List.countP_eq_zero, findBotUser_saveBotUser_frameP, hkb, hku, hne, hFind, hFS,
                hNot, hB, h1, h2]
          · by_cases hHJ : row.hasJoined = true
            · simp only [runCreated, createdHandler, run_bind, run_pure, getDb, setDb, emit, emitAll, tgSend, tgSendNoAwait, tgSendKb, tgAnswerCb, liftE, M.pure, M.bind, throwM, saveRowState, Update.sender, Update.chatId, okTransport, hFind, hFS]
              refine ⟨?_, ?_, ?_⟩
              · simp [run_bind, run_pure, getDb, setDb, emit, emitAll, M.pure, M.bind, liftE, throwM, saveRowState, contentSend, -List.countP_eq_zero, hFS, hNot, hB, h1, h2, hA0, hHJ]
              · simp [run_bind, run_pure, getDb, setDb, emit, emitAll, M.pure, M.bind, liftE, throwM, saveRowState, contentSend, -List.countP_eq_zero, findBotUser_saveBotUser_same, findBotUser_saveBotUser_isSome,
                  hkb, hku, hFind, hFS, hA0, hNot, hB, h1, h2, hA0, hHJ]
              · intro tok uid hne
                simp [run_bind, run_pure, getDb, setDb, emit, emitAll, M.pure, M.bind, liftE, throwM, saveRowState, contentSend, -List.countP_eq_zero, findBotUser_saveBotUser_frameP, hkb, hku, hne, hFind, hFS,
                  hNot, hB, h1, h2, hA0, hHJ]
            · simp only [runCreated, createdHandler, run_bind, run_pure, getDb, setDb, emit, emitAll, tgSend, tgSendNoAwait, tgSendKb, tgAnswerCb, liftE, M.pure, M.bind, throwM, saveRowState, Update.sender, Update.chatId, okTransport, hFind, hFS]
              refine ⟨?_, ?_, ?_⟩
              · simp [run_bind, run_pure, getDb, setDb, emit, emitAll, M.pure, M.bind, liftE, throwM, saveRowState, contentSend, -List.countP_eq_zero, hFS, hNot, hB, h1, h2, hA0, hHJ]
              · simp [run_bind, run_pure, getDb, setDb, emit, emitAll, M.pure, M.bind, liftE, throwM, saveRowState, contentSend, -List.countP_eq_zero, findBotUser_saveBotUser_same, findBotUser_saveBotUser_isSome,
                  hkb, hku, hFind, hFS, hA0, hNot, hB, h1, h2, hA0, hHJ]
              · intro tok uid hne
                simp [run_bind, run_pure, getDb, setDb, emit, emitAll, M.pure, M.bind, liftE, throwM, saveRowState, contentSend, -List.countP_eq_zero, findBotUser_saveBotUser_frameP, hkb, hku, hne, hFind, hFS,
                  hNot, hB, h1, h2, hA0, hHJ]
      | photo a b =>
        by_cases hHJ : row.hasJoined = true
        · simp only [runCreated, createdHandler, run_bind, run_pure, getDb, setDb, emit, emitAll, tgSend, tgSendNoAwait, tgSendKb, tgAnswerCb, liftE, M.pure, M.bind, throwM, saveRowState, Update.sender, Update.chatId, okTransport, hFind, hFS]
          refine ⟨?_, ?_, ?_⟩
          · simp [run_bind, run_pure, getDb, setDb, emit, emitAll, M.pure, M.bind, liftE, throwM, saveRowState, contentSend, -List.countP_eq_zero, hFS, hNot, hB, hA0, hHJ]
          · simp [run_bind, run_pure, getDb, setDb, emit, emitAll, M.pure, M.bind, liftE, throwM, saveRowState, contentSend, -List.countP_eq_zero, findBotUser_saveBotUser_same, findBotUser_saveBotUser_isSome,
              hkb, hku, hFind, hFS, hA0, hNot, hB, hA0, hHJ]
          · intro tok uid hne
            simp [run_bind, run_pure, getDb, setDb, emit, emitAll, M.pure, M.bind, liftE, throwM, saveRowState, contentSend, -List.countP_eq_zero, findBotUser_saveBotUser_frameP, hkb, hku, hne, hFind, hFS,
              hNot, hB, hA0, hHJ]
        · simp only [runCreated, createdHandler, run_bind, run_pure, getDb, setDb, emit, emitAll, tgSend, tgSendNoAwait, tgSendKb, tgAnswerCb, liftE, M.pure, M.bind, throwM, saveRowState, Update.sender, Update.chatId, okTransport, hFind, hFS]
          refine ⟨?_, ?_, ?_⟩
          · simp [run_bind, run_pure, getDb, setDb, emit, emitAll, M.pure, M.bind, liftE, throwM, saveRowState, contentSend, -List.countP_eq_zero, hFS, hNot, hB, hA0, hHJ]
          · simp [run_bind, run_pure, getDb, setDb, emit, emitAll, M.pure, M.bind, liftE, throwM, saveRowState, contentSend, -List.countP_eq_zero, findBotUser_saveBotUser_same, findBotUser_saveBotUser_isSome,
              hkb, hku, hFind, hFS, hA0, hNot, hB, hA0, hHJ]
          · intro tok uid hne
            simp [run_bind, run_pure, getDb, setDb, emit, emitAll, M.pure, M.bind, liftE, throwM, saveRowState, contentSend, -List.countP_eq_zero, findBotUser_saveBotUser_frameP, hkb, hku, hne, hFind, hFS,
              hNot, hB, hA0, hHJ]
      | document a b =>
        by_cases hHJ : row.hasJoined = true
        · simp only [runCreated, createdHandler, run_bind, run_pure, getDb, setDb, emit, emitAll, tgSend, tgSendNoAwait, tgSendKb, tgAnswerCb, liftE, M.pure, M.bind, throwM, saveRowState, Update.sender, Update.chatId, okTransport, hFind, hFS]
          refine ⟨?_, ?_, ?_⟩
          · simp [run_bind, run_pure, getDb, setDb, emit, emitAll, M.pure, M.bind, liftE, throwM, saveRowState, contentSend, -List.countP_eq_zero, hFS, hNot, hB, hA0, hHJ]
          · simp [run_bind, run_pure, getDb, setDb, emit, emitAll, M.pure, M.bind, liftE, throwM, saveRowState, contentSend, -List.countP_eq_zero, findBotUser_saveBotUser_same, findBotUser_saveBotUser_isSome,
              hkb, hku, hFind, hFS, hA0, hNot, hB, hA0, hHJ]
          · intro tok uid hne
            simp [run_bind, run_pure, getDb, setDb, emit, emitAll, M.pure, M.bind, liftE, throwM, saveRowState, contentSend, -List.countP_eq_zero, findBotUser_saveBotUser_frameP, hkb, hku, hne, hFind, hFS,
              hNot, hB, hA0, hHJ]
        · simp only [runCreated, createdHandler, run_bind, run_pure, getDb, setDb, emit, emitAll, tgSend, tgSendNoAwait, tgSendKb, tgAnswerCb, liftE, M.pure, M.bind, throwM, saveRowState, Update.sender, Update.chatId, okTransport, hFind, hFS]
          refine ⟨?_, ?_, ?_⟩
          · simp [run_bind, run_pure, getDb, setDb, emit, emitAll, M.pure, M.bind, liftE, throwM, saveRowState, contentSend, -List.countP_eq_zero, hFS, hNot, hB, hA0, hHJ]
          · simp [run_bind, run_pure, getDb, setDb, emit, emitAll, M.pure, M.bind, liftE, throwM, saveRowState, contentSend, -List.countP_eq_zero, findBotUser_saveBotUser_same, findBotUser_saveBotUser_isSome,
              hkb, hku, hFind, hFS, hA0, hNot, hB, hA0, hHJ]
          · intro tok uid hne
            simp [run_bind, run_pure, getDb, setDb, emit, emitAll, M.pure, M.bind, liftE, throwM, saveRowState, contentSend, -List.countP_eq_zero, findBotUser_saveBotUser_frameP, hkb, hku, hne, hFind, hFS,
              hNot, hB, hA0, hHJ]
      | video a b =>
        by_cases hHJ : row.hasJoined = true
        · simp only [runCreated, createdHandler, run_bind, run_pure, getDb, setDb, emit, emitAll, tgSend, tgSendNoAwait, tgSendKb, tgAnswerCb, liftE, M.pure, M.bind, throwM, saveRowState, Update.sender, Update.chatId, okTransport, hFind, hFS]
          refine ⟨?_, ?_, ?_⟩
          · simp [run_bind, run_pure, getDb, setDb, emit, emitAll, M.pure, M.bind, liftE, throwM, saveRowState, contentSend, -List.countP_eq_zero, hFS, hNot, hB, hA0, hHJ]
          · simp [run_bind, run_pure, getDb, setDb, emit, emitAll, M.pure, M.bind, liftE, throwM, saveRowState, contentSend, -List.countP_eq_zero, findBotUser_saveBotUser_same, findBotUser_saveBotUser_isSome,
              hkb, hku, hFind, hFS, hA0, hNot, hB, hA0, hHJ]
          · intro tok uid hne
            simp [run_bind, run_pure, getDb, setDb, emit, emitAll, M.pure, M.bind, liftE, throwM, saveRowState, contentSend, -List.countP_eq_zero, findBotUser_saveBotUser_frameP, hkb, hku, hne, hFind, hFS,
              hNot, hB, hA0, hHJ]
        · simp only [runCreated, createdHandler, run_bind, run_pure, getDb, setDb, emit, emitAll, tgSend, tgSendNoAwait, tgSendKb, tgAnswerCb, liftE, M.pure, M.bind, throwM, saveRowState, Update.sender, Update.chatId, okTransport, hFind, hFS]
          refine ⟨?_, ?_, ?_⟩
          · simp [run_bind, run_pure, getDb, setDb, emit, emitAll, M.pure, M.bind, liftE, throwM, saveRowState, contentSend, -List.countP_eq_zero, hFS, hNot, hB, hA0, hHJ]
          · simp [run_bind, run_pure, getDb, setDb, emit, emitAll, M.pure, M.bind, liftE, throwM, saveRowState, contentSend, -List.countP_eq_zero, findBotUser_saveBotUser_same, findBotUser_saveBotUser_isSome,
              hkb, hku, hFind, hFS, hA0, hNot, hB, hA0, hHJ]
          · intro tok uid hne
            simp [run_bind, run_pure, getDb, setDb, emit, emitAll, M.pure, M.bind, liftE, throwM, saveRowState, contentSend, -List.countP_eq_zero, findBotUser_saveBotUser_frameP, hkb, hku, hne, hFind, hFS,
              hNot, hB, hA0, hHJ]
      | audio a b =>
        by_cases hHJ : row.hasJoined = true
        · simp only [runCreated, createdHandler, run_bind, run_pure, getDb, setDb, emit, emitAll, tgSend, tgSendNoAwait, tgSendKb, tgAnswerCb, liftE, M.pure, M.bind, throwM, saveRowState, Update.sender, Update.chatId, okTransport, hFind, hFS]
          refine ⟨?_, ?_, ?_⟩
          · simp [run_bind, run_pure, getDb, setDb, emit, emitAll, M.pure, M.bind, liftE, throwM, saveRowState, contentSend, -List.countP_eq_zero, hFS, hNot, hB, hA0, hHJ]
          · simp [run_bind, run_pure, getDb, setDb, emit, emitAll, M.pure, M.bind, liftE, throwM, saveRowState, contentSend, -List.countP_eq_zero, findBotUser_saveBotUser_same, findBotUser_saveBotUser_isSome,
              hkb, hku, hFind, hFS, hA0, hNot, hB, hA0, hHJ]
          · intro tok uid hne
            simp [run_bind, run_pure, getDb, setDb, emit, emitAll, M.pure, M.bind, liftE, throwM, saveRowState, contentSend, -List.countP_eq_zero, findBotUser_saveBotUser_frameP, hkb, hku, hne, hFind, hFS,
              hNot, hB, hA0, hHJ]
        · simp only [runCreated, createdHandler, run_bind, run_pure, getDb, setDb, emit, emitAll, tgSend, tgSendNoAwait, tgSendKb, tgAnswerCb, liftE, M.pure, M.bind, throwM, saveRowState, Update.sender, Update.chatId, okTransport, hFind, hFS]
          refine ⟨?_, ?_, ?_⟩
          · simp [run_bind, run_pure, getDb, setDb, emit, emitAll, M.pure, M.bind, liftE, throwM, saveRowState, contentSend, -List.countP_eq_zero, hFS, hNot, hB, hA0, hHJ]
          · simp [run_bind, run_pure, getDb, setDb, emit, emitAll, M.pure, M.bind, liftE, throwM, saveRowState, contentSend, -List.countP_eq_zero, findBotUser_saveBotUser_same, findBotUser_saveBotUser_isSome,
              hkb, hku, hFind, hFS, hA0, hNot, hB, hA0, hHJ]
          · intro tok uid hne
            simp [run_bind, run_pure, getDb, setDb, emit, emitAll, M.pure, M.bind, liftE, throwM, saveRowState, contentSend, -List.countP_eq_zero, findBotUser_saveBotUser_frameP, hkb, hku, hne, hFind, hFS,
              hNot, hB, hA0, hHJ]
      | voice a =>
        by_cases hHJ : row.hasJoined = true
        · simp only [runCreated, createdHandler, run_bind, run_pure, getDb, setDb, emit, emitAll, tgSend, tgSendNoAwait, tgSendKb, tgAnswerCb, liftE, M.pure, M.bind, throwM, saveRowState, Update.sender, Update.chatId, okTransport, hFind, hFS]
          refine ⟨?_, ?_, ?_⟩
          · simp [run_bind, run_pure, getDb, setDb, emit, emitAll, M.pure, M.bind, liftE, throwM, saveRowState, contentSend, -List.countP_eq_zero, hFS, hNot, hB, hA0, hHJ]
          · simp [run_bind, run_pure, getDb, setDb, emit, emitAll, M.pure, M.bind, liftE, throwM, saveRowState, contentSend, -List.countP_eq_zero, findBotUser_saveBotUser_same, findBotUser_saveBotUser_isSome,
              hkb, hku, hFind, hFS, hA0, hNot, hB, hA0, hHJ]
          · intro tok uid hne
            simp [run_bind, run_pure, getDb, setDb, emit, emitAll, M.pure, M.bind, liftE, throwM, saveRowState, contentSend, -List.countP_eq_zero, findBotUser_saveBotUser_frameP, hkb, hku, hne, hFind, hFS,
              hNot, hB, hA0, hHJ]
        · simp only [runCreated, createdHandler, run_bind, run_pure, getDb, setDb, emit, emitAll, tgSend, tgSendNoAwait, tgSendKb, tgAnswerCb, liftE, M.pure, M.bind, throwM, saveRowState, Update.sender, Update.chatId, okTransport, hFind, hFS]
          refine ⟨?_, ?_, ?_⟩
          · simp [run_bind, run_pure, getDb, setDb, emit, emitAll, M.pure, M.bind, liftE, throwM, saveRowState, contentSend, -List.countP_eq_zero, hFS, hNot, hB, hA0, hHJ]
          · simp [run_bind, run_pure, getDb, setDb, emit, emitAll, M.pure, M.bind, liftE, throwM, saveRowState, contentSend, -List.countP_eq_zero, findBotUser_saveBotUser_same, findBotUser_saveBotUser_isSome,
              hkb, hku, hFind, hFS, hA0, hNot, hB, hA0, hHJ]
          · intro tok uid hne
            simp [run_bind, run_pure, getDb, setDb, emit, emitAll, M.pure, M.bind, liftE, throwM, saveRowState, contentSend, -List.countP_eq_zero, findBotUser_saveBotUser_frameP, hkb, hku, hne, hFind, hFS,
              hNot, hB, hA0, hHJ]
      | sticker a =>
        by_cases hHJ : row.hasJoined = true
        · simp only [runCreated, createdHandler, run_bind, run_pure, getDb, setDb, emit, emitAll, tgSend, tgSendNoAwait, tgSendKb, tgAnswerCb, liftE, M.pure, M.bind, throwM, saveRowState, Update.sender, Update.chatId, okTransport, hFind, hFS]
          refine ⟨?_, ?_, ?_⟩
          · simp [run_bind, run_pure, getDb, setDb, emit, emitAll, M.pure, M.bind, liftE, throwM, saveRowState, contentSend, -List.countP_eq_zero, hFS, hNot, hB, hA0, hHJ]
          · simp [run_bind, run_pure, getDb, setDb, emit, emitAll, M.pure, M.bind, liftE, throwM, saveRowState, contentSend, -List.countP_eq_zero, findBotUser_saveBotUser_same, findBotUser_saveBotUser_isSome,
              hkb, hku, hFind, hFS, hA0, hNot, hB, hA0, hHJ]
          · intro tok uid hne
            simp [run_bind, run_pure, getDb, setDb, emit, emitAll, M.pure, M.bind, liftE, throwM, saveRowState, contentSend, -List.countP_eq_zero, findBotUser_saveBotUser_frameP, hkb, hku, hne, hFind, hFS,
              hNot, hB, hA0, hHJ]
        · simp only [runCreated, createdHandler, run_bind, run_pure, getDb, setDb, emit, emitAll, tgSend, tgSendNoAwait, tgSendKb, tgAnswerCb, liftE, M.pure, M.bind, throwM, saveRowState, Update.sender, Update.chatId, okTransport, hFind, hFS]
          refine ⟨?_, ?_, ?_⟩
          · simp [run_bind, run_pure, getDb, setDb, emit, emitAll, M.pure, M.bind, liftE, throwM, saveRowState, contentSend, -List.countP_eq_zero, hFS, hNot, hB, hA0, hHJ]
          · simp [run_bind, run_pure, getDb, setDb, emit, emitAll, M.pure, M.bind, liftE, throwM, saveRowState, contentSend, -List.countP_eq_zero, findBotUser_saveBotUser_same, findBotUser_saveBotUser_isSome,
              hkb, hku, hFind, hFS, hA0, hNot, hB, hA0, hHJ]
          · intro tok uid hne
            simp [run_bind, run_pure, getDb, setDb, emit, emitAll, M.pure, M.bind, liftE, throwM, saveRowState, contentSend, -List.countP_eq_zero, findBotUser_saveBotUser_frameP, hkb, hku, hne, hFind, hFS,
              hNot, hB, hA0, hHJ]
      | other =>
        by_cases hHJ : row.hasJoined = true
        · simp only [runCreated, createdHandler, run_bind, run_pure, getDb, setDb, emit, emitAll, tgSend, tgSendNoAwait, tgSendKb, tgAnswerCb, liftE, M.pure, M.bind, throwM, saveRowState, Update.sender, Update.chatId, okTransport, hFind, hFS]
          refine ⟨?_, ?_, ?_⟩
          · simp [run_bind, run_pure, getDb, setDb, emit, emitAll, M.pure, M.bind, liftE, throwM, saveRowState, contentSend, -List.countP_eq_zero, hFS, hNot, hB, hA0, hHJ]
          · simp [run_bind, run_pure, getDb, setDb, emit, emitAll, M.pure, M.bind, liftE, throwM, saveRowState, contentSend, -List.countP_eq_zero, findBotUser_saveBotUser_same, findBotUser_saveBotUser_isSome,
              hkb, hku, hFind, hFS, hA0, hNot, hB, hA0, hHJ]
          · intro tok uid hne
            simp [run_bind, run_pure, getDb, setDb, emit, emitAll, M.pure, M.bind, liftE, throwM, saveRowState, contentSend, -List.countP_eq_zero, findBotUser_saveBotUser_frameP, hkb, hku, hne, hFind, hFS,
              hNot, hB, hA0, hHJ]
        · simp only [runCreated, createdHandler, run_bind, run_pure, getDb, setDb, emit, emitAll, tgSend, tgSendNoAwait, tgSendKb, tgAnswerCb, liftE, M.pure, M.bind, throwM, saveRowState, Update.sender, Update.chatId, okTransport, hFind, hFS]
          refine ⟨?_, ?_, ?_⟩
          · simp [run_bind, run_pure, getDb, setDb, emit, emitAll, M.pure, M.bind, liftE, throwM, saveRowState, contentSend, -List.countP_eq_zero, hFS, hNot, hB, hA0, hHJ]
          · simp [run_bind, run_pure, getDb, setDb, emit, emitAll, M.pure, M.bind, liftE, throwM, saveRowState, contentSend, -List.countP_eq_zero, findBotUser_saveBotUser_same, findBotUser_saveBotUser_isSome,
              hkb, hku, hFind, hFS, hA0, hNot, hB, hA0, hHJ]
          · intro tok uid hne
            simp [run_bind, run_pure, getDb, setDb, emit, emitAll, M.pure, M.bind, liftE, throwM, saveRowState, contentSend, -List.countP_eq_zero, findBotUser_saveBotUser_frameP, hkb, hku, hne, hFind, hFS,
              hNot, hB, hA0, hHJ]

set_option maxHeartbeats 1000000 in
theorem maker_nonowner_no_admin (mkT : String → Transport)
    (validate : String → Option String) (wS wD : String → Bool) (ownerId : String)
    (s : Sender) (chat txt : String) (now : Nat) (db : MakerDb) (u : UserRow)
    (hFind : findUser db.users s.id = some u)
    (hA0 : u.adminState = "none")
    (hNot : (s.id == ownerId) = false) :
    (∀ u', findUser (runMaker okTransport mkT validate wS wD ownerId
        (Update.message s chat (MsgContent.text txt)) now db).2.1.users s.id = some u' →
      u'.adminState = "none") ∧
    (∀ uid', ¬ uid' = s.id →
      findUser (runMaker okTransport mkT validate wS wD ownerId
        (Update.message s chat (MsgContent.text txt)) now db).2.1.users uid' =
        findUser db.users uid') := by
  have hku9 := findUser_some_key db.users s.id u hFind
  rcases hR : routeMakerText txt with _ | _ | _ | _ | _ | _
  · -- /start
    by_cases hB : u.isBlocked = true
    · simp only [runMaker, makerDispatch, hR]
      refine ⟨?_, ?_⟩
      · simp [runMaker, makerDispatch, makerStartH, makerHearsH, makerMyBotsH, makerPanelH, makerTextH, catchM, setUserFields, deleteTenantCascade, deleteWebhook, run_bind, run_pure, getDb, setDb, emit, emitAll, tgSend, tgSendNoAwait, tgSendKb, tgAnswerCb, liftE, M.pure, M.bind, throwM, okTransport, run_bind, run_pure, getDb, setDb, emit, emitAll, M.pure, M.bind, liftE, throwM, catchM, setUserFields, deleteTenantCascade, deleteWebhook, okTransport, findUser_saveUser_same, findUser_saveUser_isSome,
          findUser_updateUser_same, hku9, hFind, hA0, hNot, hB]
      · intro uid' hne
        simp [runMaker, makerDispatch, makerStartH, makerHearsH, makerMyBotsH, makerPanelH, makerTextH, catchM, setUserFields, deleteTenantCascade, deleteWebhook, run_bind, run_pure, getDb, setDb, emit, emitAll, tgSend, tgSendNoAwait, tgSendKb, tgAnswerCb, liftE, M.pure, M.bind, throwM, okTransport, run_bind, run_pure, getDb, setDb, emit, emitAll, M.pure, M.bind, liftE, throwM, catchM, setUserFields, deleteTenantCascade, deleteWebhook, okTransport, findUser_saveUser_frameP, findUser_updateUser_frameP,
          hku9, hne, hFind, hNot, hB]
    · by_cases hFS9 : u.isFirstStart = true
      · simp only [runMaker, makerDispatch, hR]
        refine ⟨?_, ?_⟩
        · simp [runMaker, makerDispatch, makerStartH, makerHearsH, makerMyBotsH, makerPanelH, makerTextH, catchM, setUserFields, deleteTenantCascade, deleteWebhook, run_bind, run_pure, getDb, setDb, emit, emitAll, tgSend, tgSendNoAwait, tgSendKb, tgAnswerCb, liftE, M.pure, M.bind, throwM, okTransport, run_bind, run_pure, getDb, setDb, emit, emitAll, M.pure, M.bind, liftE, throwM, catchM, setUserFields, deleteTenantCascade, deleteWebhook, okTransport, findUser_saveUser_same, findUser_saveUser_isSome,
            findUser_updateUser_same, hku9, hFind, hA0, hNot, hB, hFS9]
        · intro uid' hne
          simp [runMaker, makerDispatch, makerStartH, makerHearsH, makerMyBotsH, makerPanelH, makerTextH, catchM, setUserFields, deleteTenantCascade, deleteWebhook, run_bind, run_pure, getDb, setDb, emit, emitAll, tgSend, tgSendNoAwait, tgSendKb, tgAnswerCb, liftE, M.pure, M.bind, throwM, okTransport, run_bind, run_pure, getDb, setDb, emit, emitAll, M.pure, M.bind, liftE, throwM, catchM, setUserFields, deleteTenantCascade, deleteWebhook, okTransport, findUser_saveUser_frameP, findUser_updateUser_frameP,
            hku9, hne, hFind, hNot, hB, hFS9]
      · simp only [runMaker, makerDispatch, hR]
        refine ⟨?_, ?_⟩
        · simp [runMaker, makerDispatch, makerStartH, makerHearsH, makerMyBotsH, makerPanelH, makerTextH, catchM, setUserFields, deleteTenantCascade, deleteWebhook, run_bind, run_pure, getDb, setDb, emit, emitAll, tgSend, tgSendNoAwait, tgSendKb, tgAnswerCb, liftE, M.pure, M.bind, throwM, okTransport, run_bind, run_pure, getDb, setDb, emit, emitAll, M.pure, M.bind, liftE, throwM, catchM, setUserFields, deleteTenantCascade, deleteWebhook, okTransport, findUser_saveUser_same, findUser_saveUser_isSome,
            findUser_updateUser_same, hku9, hFind, hA0, hNot, hB, hFS9]
        · intro uid' hne
          simp [runMaker, makerDispatch, makerStartH, makerHearsH, makerMyBotsH, makerPanelH, makerTextH, catchM, setUserFields, deleteTenantCascade, deleteWebhook, run_bind, run_pure, getDb, setDb, emit, emitAll, tgSend, tgSendNoAwait, tgSendKb, tgAnswerCb, liftE, M.pure, M.bind, throwM, okTransport, run_bind, run_pure, getDb, setDb, emit, emitAll, M.pure, M.bind, liftE, throwM, catchM, setUserFields, deleteTenantCascade, deleteWebhook, okTransport, findUser_saveUser_frameP, findUser_updateUser_frameP,
            hku9, hne, hFind, hNot, hB, hFS9]
  · -- Create Bot
    by_cases hB : u.isBlocked = true
    · simp only [runMaker, makerDispatch, hR]
      refine ⟨?_, ?_⟩
      · simp [runMaker, makerDispatch, makerStartH, makerHearsH, makerMyBotsH, makerPanelH, makerTextH, catchM, setUserFields, deleteTenantCascade, deleteWebhook, run_bind, run_pure, getDb, setDb, emit, emitAll, tgSend, tgSendNoAwait, tgSendKb, tgAnswerCb, liftE, M.pure, M.bind, throwM, okTransport, run_bind, run_pure, getDb, setDb, emit, emitAll, M.pure, M.bind, liftE, throwM, catchM, setUserFields, deleteTenantCascade, deleteWebhook, okTransport, findUser_saveUser_same, findUser_saveUser_isSome,
          findUser_updateUser_same, hku9, hFind, hA0, hNot, hB]
      · intro uid' hne
        simp [runMaker, makerDispatch, makerStartH, makerHearsH, makerMyBotsH, makerPanelH, makerTextH, catchM, setUserFields, deleteTenantCascade, deleteWebhook, run_bind, run_pure, getDb, setDb, emit, emitAll, tgSend, tgSendNoAwait, tgSendKb, tgAnswerCb, liftE, M.pure, M.bind, throwM, okTransport, run_bind, run_pure, getDb, setDb, emit, emitAll, M.pure, M.bind, liftE, throwM, catchM, setUserFields, deleteTenantCascade, deleteWebhook, okTransport, findUser_saveUser_frameP, findUser_updateUser_frameP,
          hku9, hne, hFind, hNot, hB]
    · simp only [runMaker, makerDispatch, hR]
      refine ⟨?_, ?_⟩
      · simp [runMaker, makerDispatch, makerStartH, makerHearsH, makerMyBotsH, makerPanelH, makerTextH, catchM, setUserFields, deleteTenantCascade, deleteWebhook, run_bind, run_pure, getDb, setDb, emit, emitAll, tgSend, tgSendNoAwait, tgSendKb, tgAnswerCb, liftE, M.pure, M.bind, throwM, okTransport, run_bind, run_pure, getDb, setDb, emit, emitAll, M.pure, M.bind, liftE, throwM, catchM, setUserFields, deleteTenantCascade, deleteWebhook, okTransport, findUser_saveUser_same, findUser_saveUser_isSome,
          findUser_updateUser_same, hku9, hFind, hA0, hNot, hB]
      · intro uid' hne
        simp [runMaker, makerDispatch, makerStartH, makerHearsH, makerMyBotsH, makerPanelH, makerTextH, catchM, setUserFields, deleteTenantCascade, deleteWebhook, run_bind, run_pure, getDb, setDb, emit, emitAll, tgSend, tgSendNoAwait, tgSendKb, tgAnswerCb, liftE, M.pure, M.bind, throwM, okTransport, run_bind, run_pure, getDb, setDb, emit, emitAll, M.pure, M.bind, liftE, throwM, catchM, setUserFields, deleteTenantCascade, deleteWebhook, okTransport, findUser_saveUser_frameP, findUser_updateUser_frameP,
          hku9, hne, hFind, hNot, hB]
  · -- Delete Bot
    by_cases hB : u.isBlocked = true
    · simp only [runMaker, makerDispatch, hR]
      refine ⟨?_, ?_⟩
      · simp [runMaker, makerDispatch, makerStartH, makerHearsH, makerMyBotsH, makerPanelH, makerTextH, catchM, setUserFields, deleteTenantCascade, deleteWebhook, run_bind, run_pure, getDb, setDb, emit, emitAll, tgSend, tgSendNoAwait, tgSendKb, tgAnswerCb, liftE, M.pure, M.bind, throwM, okTransport, run_bind, run_pure, getDb, setDb, emit, emitAll, M.pure, M.bind, liftE, throwM, catchM, setUserFields, deleteTenantCascade, deleteWebhook, okTransport, findUser_saveUser_same, findUser_saveUser_isSome,
          findUser_updateUser_same, hku9, hFind, hA0, hNot, hB]
      · intro uid' hne
        simp [runMaker, makerDispatch, makerStartH, makerHearsH, makerMyBotsH, makerPanelH, makerTextH, catchM, setUserFields, deleteTenantCascade, deleteWebhook, run_bind, run_pure, getDb, setDb, emit, emitAll, tgSend, tgSendNoAwait, tgSendKb, tgAnswerCb, liftE, M.pure, M.bind, throwM, okTransport, run_bind, run_pure, getDb, setDb, emit, emitAll, M.pure, M.bind, liftE, throwM, catchM, setUserFields, deleteTenantCascade, deleteWebhook, okTransport, findUser_saveUser_frameP, findUser_updateUser_frameP,
          hku9, hne, hFind, hNot, hB]
    · simp only [runMaker, makerDispatch, hR]
      refine ⟨?_, ?_⟩
      · simp [runMaker, makerDispatch, makerStartH, makerHearsH, makerMyBotsH, makerPanelH, makerTextH, catchM, setUserFields, deleteTenantCascade, deleteWebhook, run_bind, run_pure, getDb, setDb, emit, emitAll, tgSend, tgSendNoAwait, tgSendKb, tgAnswerCb, liftE, M.pure, M.bind, throwM, okTransport, run_bind, run_pure, getDb, setDb, emit, emitAll, M.pure, M.bind, liftE, throwM, catchM, setUserFields, deleteTenantCascade, deleteWebhook, okTransport, findUser_saveUser_same, findUser_saveUser_isSome,
          findUser_updateUser_same, hku9, hFind, hA0, hNot, hB]
      · intro uid' hne
        simp [runMaker, makerDispatch, makerStartH, makerHearsH, makerMyBotsH, makerPanelH, makerTextH, catchM, setUserFields, deleteTenantCascade, deleteWebhook, run_bind, run_pure, getDb, setDb, emit, emitAll, tgSend, tgSendNoAwait, tgSendKb, tgAnswerCb, liftE, M.pure, M.bind, throwM, okTransport, run_bind, run_pure, getDb, setDb, emit, emitAll, M.pure, M.bind, liftE, throwM, catchM, setUserFields, deleteTenantCascade, deleteWebhook, okTransport, findUser_saveUser_frameP, findUser_updateUser_frameP,
          hku9, hne, hFind, hNot, hB]
  · -- My Bots
    by_cases hB : u.isBlocked = true
    · simp only [runMaker, makerDispatch, hR]
      refine ⟨?_, ?_⟩
      · simp [runMaker, makerDispatch, makerStartH, makerHearsH, makerMyBotsH, makerPanelH, makerTextH, catchM, setUserFields, deleteTenantCascade, deleteWebhook, run_bind, run_pure, getDb, setDb, emit, emitAll, tgSend, tgSendNoAwait, tgSendKb, tgAnswerCb, liftE, M.pure, M.bind, throwM, okTransport, run_bind, run_pure, getDb, setDb, emit, emitAll, M.pure, M.bind, liftE, throwM, catchM, setUserFields, deleteTenantCascade, deleteWebhook, okTransport, findUser_saveUser_same, findUser_saveUser_isSome,
          findUser_updateUser_same, hku9, hFind, hA0, hNot, hB]
      · intro uid' hne
        simp [runMaker, makerDispatch, makerStartH, makerHearsH, makerMyBotsH, makerPanelH, makerTextH, catchM, setUserFields, deleteTenantCascade, deleteWebhook, run_bind, run_pure, getDb, setDb, emit, emitAll, tgSend, tgSendNoAwait, tgSendKb, tgAnswerCb, liftE, M.pure, M.bind, throwM, okTransport, run_bind, run_pure, getDb, setDb, emit, emitAll, M.pure, M.bind, liftE, throwM, catchM, setUserFields, deleteTenantCascade, deleteWebhook, okTransport, findUser_saveUser_frameP, findUser_updateUser_frameP,
          hku9, hne, hFind, hNot, hB]
    · simp only [runMaker, makerDispatch, hR]
      refine ⟨?_, ?_⟩
      · simp [runMaker, makerDispatch, makerStartH, makerHearsH, makerMyBotsH, makerPanelH, makerTextH, catchM, setUserFields, deleteTenantCascade, deleteWebhook, run_bind, run_pure, getDb, setDb, emit, emitAll, tgSend, tgSendNoAwait, tgSendKb, tgAnswerCb, liftE, M.pure, M.bind, throwM, okTransport, run_bind, run_pure, getDb, setDb, emit, emitAll, M.pure, M.bind, liftE, throwM, catchM, setUserFields, deleteTenantCascade, deleteWebhook, okTransport, findUser_saveUser_same, findUser_saveUser_isSome,
          findUser_updateUser_same, hku9, hFind, hA0, hNot, hB]
      · intro uid' hne
        simp [runMaker, makerDispatch, makerStartH, makerHearsH, makerMyBotsH, makerPanelH, makerTextH, catchM, setUserFields, deleteTenantCascade, deleteWebhook, run_bind, run_pure, getDb, setDb, emit, emitAll, tgSend, tgSendNoAwait, tgSendKb, tgAnswerCb, liftE, M.pure, M.bind, throwM, okTransport, run_bind, run_pure, getDb, setDb, emit, emitAll, M.pure, M.bind, liftE, throwM, catchM, setUserFields, deleteTenantCascade, deleteWebhook, okTransport, findUser_saveUser_frameP, findUser_updateUser_frameP,
          hku9, hne, hFind, hNot, hB]
  · -- /panel (not authorized)
    simp only [runMaker, makerDispatch, hR]
    refine ⟨?_, ?_⟩
    · simp [runMaker, makerDispatch, makerStartH, makerHearsH, makerMyBotsH, makerPanelH, makerTextH, catchM, setUserFields, deleteTenantCascade, deleteWebhook, run_bind, run_pure, getDb, setDb, emit, emitAll, tgSend, tgSendNoAwait, tgSendKb, tgAnswerCb, liftE, M.pure, M.bind, throwM, okTransport, run_bind, run_pure, getDb, setDb, emit, emitAll, M.pure, M.bind, liftE, throwM, catchM, setUserFields, deleteTenantCascade, deleteWebhook, okTransport, findUser_saveUser_same, findUser_saveUser_isSome,
        findUser_updateUser_same, hku9, hFind, hA0, hNot, hNot]
    · intro uid' hne
      simp [runMaker, makerDispatch, makerStartH, makerHearsH, makerMyBotsH, makerPanelH, makerTextH, catchM, setUserFields, deleteTenantCascade, deleteWebhook, run_bind, run_pure, getDb, setDb, emit, emitAll, tgSend, tgSendNoAwait, tgSendKb, tgAnswerCb, liftE, M.pure, M.bind, throwM, okTransport, run_bind, run_pure, getDb, setDb, emit, emitAll, M.pure, M.bind, liftE, throwM, catchM, setUserFields, deleteTenantCascade, deleteWebhook, okTransport, findUser_saveUser_frameP, findUser_updateUser_frameP,
        hku9, hne, hFind, hNot, hNot]
  · -- on text
    by_cases hB : u.isBlocked = true
    · simp only [runMaker, makerDispatch, hR]
      refine ⟨?_, ?_⟩
      · simp [runMaker, makerDispatch, makerStartH, makerHearsH, makerMyBotsH, makerPanelH, makerTextH, catchM, setUserFields, deleteTenantCascade, deleteWebhook, run_bind, run_pure, getDb, setDb, emit, emitAll, tgSend, tgSendNoAwait, tgSendKb, tgAnswerCb, liftE, M.pure, M.bind, throwM, okTransport, run_bind, run_pure, getDb, setDb, emit, emitAll, M.pure, M.bind, liftE, throwM, catchM, setUserFields, deleteTenantCascade, deleteWebhook, okTransport, findUser_saveUser_same, findUser_saveUser_isSome,
          findUser_updateUser_same, hku9, hFind, hA0, hNot, hB]
      · intro uid' hne
        simp [runMaker, makerDispatch, makerStartH, makerHearsH, makerMyBotsH, makerPanelH, makerTextH, catchM, setUserFields, deleteTenantCascade, deleteWebhook, run_bind, run_pure, getDb, setDb, emit, emitAll, tgSend, tgSendNoAwait, tgSendKb, tgAnswerCb, liftE, M.pure, M.bind, throwM, okTransport, run_bind, run_pure, getDb, setDb, emit, emitAll, M.pure, M.bind, liftE, throwM, catchM, setUserFields, deleteTenantCascade, deleteWebhook, okTransport, findUser_saveUser_frameP, findUser_updateUser_frameP,
          hku9, hne, hFind, hNot, hB]
    · by_cases hS1 : u.step = "create_bot"
      · by_cases hBk : txt = "Back"
        · simp only [runMaker, makerDispatch, hR]
          refine ⟨?_, ?_⟩
          · simp [runMaker, makerDispatch, makerStartH, makerHearsH, makerMyBotsH, makerPanelH, makerTextH, catchM, setUserFields, deleteTenantCascade, deleteWebhook, run_bind, run_pure, getDb, setDb, emit, emitAll, tgSend, tgSendNoAwait, tgSendKb, tgAnswerCb, liftE, M.pure, M.bind, throwM, okTransport, run_bind, run_pure, getDb, setDb, emit, emitAll, M.pure, M.bind, liftE, throwM, catchM, setUserFields, deleteTenantCascade, deleteWebhook, okTransport, findUser_saveUser_same, findUser_saveUser_isSome,
              findUser_updateUser_same, hku9, hFind, hA0, hNot, hB, hS1, hBk]
          · intro uid' hne
            simp [runMaker, makerDispatch, makerStartH, makerHearsH, makerMyBotsH, makerPanelH, makerTextH, catchM, setUserFields, deleteTenantCascade, deleteWebhook, run_bind, run_pure, getDb, setDb, emit, emitAll, tgSend, tgSendNoAwait, tgSendKb, tgAnswerCb, liftE, M.pure, M.bind, throwM, okTransport, run_bind, run_pure, getDb, setDb, emit, emitAll, M.pure, M.bind, liftE, throwM, catchM, setUserFields, deleteTenantCascade, deleteWebhook, okTransport, findUser_saveUser_frameP, findUser_updateUser_frameP,
              hku9, hne, hFind, hNot, hB, hS1, hBk]
        · rcases hv : validate txt with _ | uname
          · simp only [runMaker, makerDispatch, hR]
            refine ⟨?_, ?_⟩
            · simp [runMaker, makerDispatch, makerStartH, makerHearsH, makerMyBotsH, makerPanelH, makerTextH, catchM, setUserFields, deleteTenantCascade, deleteWebhook, run_bind, run_pure, getDb, setDb, emit, emitAll, tgSend, tgSendNoAwait, tgSendKb, tgAnswerCb, liftE, M.pure, M.bind, throwM, okTransport, run_bind, run_pure, getDb, setDb, emit, emitAll, M.pure, M.bind, liftE, throwM, catchM, setUserFields, deleteTenantCascade, deleteWebhook, okTransport, findUser_saveUser_same, findUser_saveUser_isSome,
                findUser_updateUser_same, hku9, hFind, hA0, hNot, hB, hS1, hBk, hv]
            · intro uid' hne
              simp [runMaker, makerDispatch, makerStartH, makerHearsH, makerMyBotsH, makerPanelH, makerTextH, catchM, setUserFields, deleteTenantCascade, deleteWebhook, run_bind, run_pure, getDb, setDb, emit, emitAll, tgSend, tgSendNoAwait, tgSendKb, tgAnswerCb, liftE, M.pure, M.bind, throwM, okTransport, run_bind, run_pure, getDb, setDb, emit, emitAll, M.pure, M.bind, liftE, throwM, catchM, setUserFields, deleteTenantCascade, deleteWebhook, okTransport, findUser_saveUser_frameP, findUser_updateUser_frameP,
                hku9, hne, hFind, hNot, hB, hS1, hBk, hv]
          · by_cases hD : ∃ x ∈ db.bots, x.token = txt
            · simp only [runMaker, makerDispatch, hR]
              refine ⟨?_, ?_⟩
              · simp [runMaker, makerDispatch, makerStartH, makerHearsH, makerMyBotsH, makerPanelH, makerTextH, catchM, setUserFields, deleteTenantCascade, deleteWebhook, run_bind, run_pure, getDb, setDb, emit, emitAll, tgSend, tgSendNoAwait, tgSendKb, tgAnswerCb, liftE, M.pure, M.bind, throwM, okTransport, run_bind, run_pure, getDb, setDb, emit, emitAll, M.pure, M.bind, liftE, throwM, catchM, setUserFields, deleteTenantCascade, deleteWebhook, okTransport, findUser_saveUser_same, findUser_saveUser_isSome,
                  findUser_updateUser_same, hku9, hFind, hA0, hNot, hB, hS1, hBk, hv, hD]
              · intro uid' hne
                simp [runMaker, makerDispatch, makerStartH, makerHearsH, makerMyBotsH, makerPanelH, makerTextH, catchM, setUserFields, deleteTenantCascade, deleteWebhook, run_bind, run_pure, getDb, setDb, emit, emitAll, tgSend, tgSendNoAwait, tgSendKb, tgAnswerCb, liftE, M.pure, M.bind, throwM, okTransport, run_bind, run_pure, getDb, setDb, emit, emitAll, M.pure, M.bind, liftE, throwM, catchM, setUserFields, deleteTenantCascade, deleteWebhook, okTransport, findUser_saveUser_frameP, findUser_updateUser_frameP,
                  hku9, hne, hFind, hNot, hB, hS1, hBk, hv, hD]
            · by_cases hW : wS txt = true
              · simp only [runMaker, makerDispatch, hR]
                refine ⟨?_, ?_⟩
                · simp [runMaker, makerDispatch, makerStartH, makerHearsH, makerMyBotsH, makerPanelH, makerTextH, catchM, setUserFields, deleteTenantCascade, deleteWebhook, run_bind, run_pure, getDb, setDb, emit, emitAll, tgSend, tgSendNoAwait, tgSendKb, tgAnswerCb, liftE, M.pure, M.bind, throwM, okTransport, run_bind, run_pure, getDb, setDb, emit, emitAll, M.pure, M.bind, liftE, throwM, catchM, setUserFields, deleteTenantCascade, deleteWebhook, okTransport, findUser_saveUser_same, findUser_saveUser_isSome,
                    findUser_updateUser_same, hku9, hFind, hA0, hNot, hB, hS1, hBk, hv, hD, hW]
                · intro uid' hne
                  simp [runMaker, makerDispatch, makerStartH, makerHearsH, makerMyBotsH, makerPanelH, makerTextH, catchM, setUserFields, deleteTenantCascade, deleteWebhook, run_bind, run_pure, getDb, setDb, emit, emitAll, tgSend, tgSendNoAwait, tgSendKb, tgAnswerCb, liftE, M.pure, M.bind, throwM, okTransport, run_bind, run_pure, getDb, setDb, emit, emitAll, M.pure, M.bind, liftE, throwM, catchM, setUserFields, deleteTenantCascade, deleteWebhook, okTransport, findUser_saveUser_frameP, findUser_updateUser_frameP,
                    hku9, hne, hFind, hNot, hB, hS1, hBk, hv, hD, hW]
              · simp only [runMaker, makerDispatch, hR]
                refine ⟨?_, ?_⟩
                · simp [runMaker, makerDispatch, makerStartH, makerHearsH, makerMyBotsH, makerPanelH, makerTextH, catchM, setUserFields, deleteTenantCascade, deleteWebhook, run_bind, run_pure, getDb, setDb, emit, emitAll, tgSend, tgSendNoAwait, tgSendKb, tgAnswerCb, liftE, M.pure, M.bind, throwM, okTransport, run_bind, run_pure, getDb, setDb, emit, emitAll, M.pure, M.bind, liftE, throwM, catchM, setUserFields, deleteTenantCascade, deleteWebhook, okTransport, findUser_saveUser_same, findUser_saveUser_isSome,
                    findUser_updateUser_same, hku9, hFind, hA0, hNot, hB, hS1, hBk, hv, hD, hW]
                · intro uid' hne
                  simp [runMaker, makerDispatch, makerStartH, makerHearsH, makerMyBotsH, makerPanelH, makerTextH, catchM, setUserFields, deleteTenantCascade, deleteWebhook, run_bind, run_pure, getDb, setDb, emit, emitAll, tgSend, tgSendNoAwait, tgSendKb, tgAnswerCb, liftE, M.pure, M.bind, throwM, okTransport, run_bind, run_pure, getDb, setDb, emit, emitAll, M.pure, M.bind, liftE, throwM, catchM, setUserFields, deleteTenantCascade, deleteWebhook, okTransport, findUser_saveUser_frameP, findUser_updateUser_frameP,
                    hku9, hne, hFind, hNot, hB, hS1, hBk, hv, hD, hW]
      · by_cases hS2 : u.step = "delete_bot"
        · by_cases hBk : txt = "Back"
          · simp only [runMaker, makerDispatch, hR]
            refine ⟨?_, ?_⟩
            · simp [runMaker, makerDispatch, makerStartH, makerHearsH, makerMyBotsH, makerPanelH, makerTextH, catchM, setUserFields, deleteTenantCascade, deleteWebhook, run_bind, run_pure, getDb, setDb, emit, emitAll, tgSend, tgSendNoAwait, tgSendKb, tgAnswerCb, liftE, M.pure, M.bind, throwM, okTransport, run_bind, run_pure, getDb, setDb, emit, emitAll, M.pure, M.bind, liftE, throwM, catchM, setUserFields, deleteTenantCascade, deleteWebhook, okTransport, findUser_saveUser_same, findUser_saveUser_isSome,
                findUser_updateUser_same, hku9, hFind, hA0, hNot, hB, hS1, hS2, hBk]
            · intro uid' hne
              simp [runMaker, makerDispatch, makerStartH, makerHearsH, makerMyBotsH, makerPanelH, makerTextH, catchM, setUserFields, deleteTenantCascade, deleteWebhook, run_bind, run_pure, getDb, setDb, emit, emitAll, tgSend, tgSendNoAwait, tgSendKb, tgAnswerCb, liftE, M.pure, M.bind, throwM, okTransport, run_bind, run_pure, getDb, setDb, emit, emitAll, M.pure, M.bind, liftE, throwM, catchM, setUserFields, deleteTenantCascade, deleteWebhook, okTransport, findUser_saveUser_frameP, findUser_updateUser_frameP,
                hku9, hne, hFind, hNot, hB, hS1, hS2, hBk]
          · rcases hD2 : db.bots.find? (fun b => b.token == txt) with _ | bot
            · simp only [runMaker, makerDispatch, hR]
              refine ⟨?_, ?_⟩
              · simp [runMaker, makerDispatch, makerStartH, makerHearsH, makerMyBotsH, makerPanelH, makerTextH, catchM, setUserFields, deleteTenantCascade, deleteWebhook, run_bind, run_pure, getDb, setDb, emit, emitAll, tgSend, tgSendNoAwait, tgSendKb, tgAnswerCb, liftE, M.pure, M.bind, throwM, okTransport, run_bind, run_pure, getDb, setDb, emit, emitAll, M.pure, M.bind, liftE, throwM, catchM, setUserFields, deleteTenantCascade, deleteWebhook, okTransport, findUser_saveUser_same, findUser_saveUser_isSome,
                  findUser_updateUser_same, hku9, hFind, hA0, hNot, hB, hS1, hS2, hBk, hD2]
              · intro uid' hne
                simp [runMaker, makerDispatch, makerStartH, makerHearsH, makerMyBotsH, makerPanelH, makerTextH, catchM, setUserFields, deleteTenantCascade, deleteWebhook, run_bind, run_pure, getDb, setDb, emit, emitAll, tgSend, tgSendNoAwait, tgSendKb, tgAnswerCb, liftE, M.pure, M.bind, throwM, okTransport, run_bind, run_pure, getDb, setDb, emit, emitAll, M.pure, M.bind, liftE, throwM, catchM, setUserFields, deleteTenantCascade, deleteWebhook, okTransport, findUser_saveUser_frameP, findUser_updateUser_frameP,
                  hku9, hne, hFind, hNot, hB, hS1, hS2, hBk, hD2]
            · simp only [runMaker, makerDispatch, hR]
              refine ⟨?_, ?_⟩
              · simp [runMaker, makerDispatch, makerStartH, makerHearsH, makerMyBotsH, makerPanelH, makerTextH, catchM, setUserFields, deleteTenantCascade, deleteWebhook, run_bind, run_pure, getDb, setDb, emit, emitAll, tgSend, tgSendNoAwait, tgSendKb, tgAnswerCb, liftE, M.pure, M.bind, throwM, okTransport, run_bind, run_pure, getDb, setDb, emit, emitAll, M.pure, M.bind, liftE, throwM, catchM, setUserFields, deleteTenantCascade, deleteWebhook, okTransport, findUser_saveUser_same, findUser_saveUser_isSome,
                  findUser_updateUser_same, hku9, hFind, hA0, hNot, hB, hS1, hS2, hBk, hD2]
              · intro uid' hne
                simp [runMaker, makerDispatch, makerStartH, makerHearsH, makerMyBotsH, makerPanelH, makerTextH, catchM, setUserFields, deleteTenantCascade, deleteWebhook, run_bind, run_pure, getDb, setDb, emit, emitAll, tgSend, tgSendNoAwait, tgSendKb, tgAnswerCb, liftE, M.pure, M.bind, throwM, okTransport, run_bind, run_pure, getDb, setDb, emit, emitAll, M.pure, M.bind, liftE, throwM, catchM, setUserFields, deleteTenantCascade, deleteWebhook, okTransport, findUser_saveUser_frameP, findUser_updateUser_frameP,
                  hku9, hne, hFind, hNot, hB, hS1, hS2, hBk, hD2]
        · by_cases hBk : txt = "Back"
          · simp only [runMaker, makerDispatch, hR]
            refine ⟨?_, ?_⟩
            · simp [runMaker, makerDispatch, makerStartH, makerHearsH, makerMyBotsH, makerPanelH, makerTextH, catchM, setUserFields, deleteTenantCascade, deleteWebhook, run_bind, run_pure, getDb, setDb, emit, emitAll, tgSend, tgSendNoAwait, tgSendKb, tgAnswerCb, liftE, M.pure, M.bind, throwM, okTransport, run_bind, run_pure, getDb, setDb, emit, emitAll, M.pure, M.bind, liftE, throwM, catchM, setUserFields, deleteTenantCascade, deleteWebhook, okTransport, findUser_saveUser_same, findUser_saveUser_isSome,
                findUser_updateUser_same, hku9, hFind, hA0, hNot, hB, hS1, hS2, hBk]
            · intro uid' hne
              simp [runMaker, makerDispatch, makerStartH, makerHearsH, makerMyBotsH, makerPanelH, makerTextH, catchM, setUserFields, deleteTenantCascade, deleteWebhook, run_bind, run_pure, getDb, setDb, emit, emitAll, tgSend, tgSendNoAwait, tgSendKb, tgAnswerCb, liftE, M.pure, M.bind, throwM, okTransport, run_bind, run_pure, getDb, setDb, emit, emitAll, M.pure, M.bind, liftE, throwM, catchM, setUserFields, deleteTenantCascade, deleteWebhook, okTransport, findUser_saveUser_frameP, findUser_updateUser_frameP,
                hku9, hne, hFind, hNot, hB, hS1, hS2, hBk]
          · simp only [runMaker, makerDispatch, hR]
            refine ⟨?_, ?_⟩
            · simp [runMaker, makerDispatch, makerStartH, makerHearsH, makerMyBotsH, makerPanelH, makerTextH, catchM, setUserFields, deleteTenantCascade, deleteWebhook, run_bind, run_pure, getDb, setDb, emit, emitAll, tgSend, tgSendNoAwait, tgSendKb, tgAnswerCb, liftE, M.pure, M.bind, throwM, okTransport, run_bind, run_pure, getDb, setDb, emit, emitAll, M.pure, M.bind, liftE, throwM, catchM, setUserFields, deleteTenantCascade, deleteWebhook, okTransport, findUser_saveUser_same, findUser_saveUser_isSome,
                findUser_updateUser_same, hku9, hFind, hA0, hNot, hB, hS1, hS2, hBk]
            · intro uid' hne
              simp [runMaker, makerDispatch, makerStartH, makerHearsH, makerMyBotsH, makerPanelH, makerTextH, catchM, setUserFields, deleteTenantCascade, deleteWebhook, run_bind, run_pure, getDb, setDb, emit, emitAll, tgSend, tgSendNoAwait, tgSendKb, tgAnswerCb, liftE, M.pure, M.bind, throwM, okTransport, run_bind, run_pure, getDb, setDb, emit, emitAll, M.pure, M.bind, liftE, throwM, catchM, setUserFields, deleteTenantCascade, deleteWebhook, okTransport, findUser_saveUser_frameP, findUser_updateUser_frameP,
                hku9, hne, hFind, hNot, hB, hS1, hS2, hBk]

/-- C9: admin flow state is only entered or acted upon by the authorized
identity.  Tenant scope: for a sender other than the tenant owner whose
membership is idle (`adminState = "none"`), any inbound event leaves the
channel-gate table unchanged, leaves the sender's `adminState` at
`"none"`, and leaves every other membership row untouched (so no admin
action such as blocking is performed).  Maker scope: for a sender other
than the platform owner whose `User` row is idle, any text event leaves
that row's `adminState` at `"none"` and every other `User` row
unchanged. -/
theorem C9_admin_authorization :
    (∀ (botInfo : BotRow) (upd : Update) (now : Nat) (db : CreatedDb) (row : BotUserRow),
      findBotUser db.botUsers botInfo.token upd.sender.id = some row →
      row.isFirstStart = false → row.adminState = "none" →
      (upd.sender.id == botInfo.creatorId) = false →
      (runCreated okTransport botInfo upd now db).2.1.channelUrls = db.channelUrls ∧
      (∀ r', findBotUser (runCreated okTransport botInfo upd now db).2.1.botUsers
          botInfo.token upd.sender.id = some r' → r'.adminState = "none") ∧
      (∀ tok uid, ¬(tok = botInfo.token ∧ uid = upd.sender.id) →
        findBotUser (runCreated okTransport botInfo upd now db).2.1.botUsers tok uid =
          findBotUser db.botUsers tok uid)) ∧
    (∀ (mkT : String → Transport) (validate : String → Option String)
        (wS wD : String → Bool) (ownerId : String) (s : Sender) (chat txt : String)
        (now : Nat) (db : MakerDb) (u : UserRow),
      findUser db.users s.id = some u → u.adminState = "none" →
      (s.id == ownerId) = false →
      (∀ u', findUser (runMaker okTransport mkT validate wS wD ownerId
          (Update.message s chat (MsgContent.text txt)) now db).2.1.users s.id = some u' →
        u'.adminState = "none") ∧
      (∀ uid', ¬ uid' = s.id →
        findUser (runMaker okTransport mkT validate wS wD ownerId
          (Update.message s chat (MsgContent.text txt)) now db).2.1.users uid' =
          findUser db.users uid')) := by
  constructor
  · intro botInfo upd now db row hFind hFS hA0 hNot
    exact created_nonowner_no_admin botInfo upd now db row hFind hFS hA0 hNot
  · intro mkT validate wS wD ownerId s chat txt now db u hFind hA0 hNot
    exact maker_nonowner_no_admin mkT validate wS wD ownerId s chat txt now db u
      hFind hA0 hNot

def c9Bot : BotRow :=
  { token := "T9", username := "tb9", creatorId := "9",
    creatorUsername := some "own", createdAt := 0 }

def c9Row5 : BotUserRow :=
  { botToken := "T9", userId := "5", hasJoined := true, userStep := "none",
    adminState := "none", lastInteraction := 0, isBlocked := false,
    username := some "@u5", referredBy := "None", isFirstStart := false }

def c9User5 : UserRow :=
  { userId := "5", step := "none", adminState := "none", isBlocked := false,
    username := some "u5", referredBy := "None", isFirstStart := false }

def c9S5 : Sender := { id := "5", username := some "u5", firstName := "U" }

/-- C9 witness: the non-owner `5` sending the admin-panel label text on a
tenant bot and on the maker bot leaves every admin-flow axis idle and
every other row unchanged. -/
theorem C9_witness :
    ((runCreated okTransport c9Bot (Update.message c9S5 "c5" (MsgContent.text "/panel"))
        4 ⟨[c9Row5], []⟩).2.1.channelUrls = [] ∧
     (∀ r', findBotUser (runCreated okTransport c9Bot
         (Update.message c9S5 "c5" (MsgContent.text "/panel")) 4
         ⟨[c9Row5], []⟩).2.1.botUsers "T9" "5" = some r' → r'.adminState = "none") ∧
     (∀ tok uid, ¬(tok = "T9" ∧ uid = "5") →
       findBotUser (runCreated okTransport c9Bot
         (Update.message c9S5 "c5" (MsgContent.text "/panel")) 4
         ⟨[c9Row5], []⟩).2.1.botUsers tok uid = findBotUser [c9Row5] tok uid)) ∧
    ((∀ u', findUser (runMaker okTransport (fun _ => okTransport) (fun _ => none)
        (fun _ => true) (fun _ => true) "1"
        (Update.message c9S5 "c5" (MsgContent.text "📊 Statistics")) 4
        ⟨[c9User5], [], [], []⟩).2.1.users "5" = some u' → u'.adminState = "none") ∧
     (∀ uid', ¬ uid' = "5" →
       findUser (runMaker okTransport (fun _ => okTransport) (fun _ => none)
         (fun _ => true) (fun _ => true) "1"
         (Update.message c9S5 "c5" (MsgContent.text "📊 Statistics")) 4
         ⟨[c9User5], [], [], []⟩).2.1.users uid' = findUser [c9User5] uid')) :=
  ⟨C9_admin_authorization.1 c9Bot
      (Update.message c9S5 "c5" (MsgContent.text "/panel")) 4 ⟨[c9Row5], []⟩ c9Row5
      (by decide) (by decide) (by decide) (by decide),
   C9_admin_authorization.2 (fun _ => okTransport) (fun _ => none) (fun _ => true)
      (fun _ => true) "1" c9S5 "c5" "📊 Statistics" 4 ⟨[c9User5], [], [], []⟩ c9User5
      (by decide) (by decide) (by decide)⟩
